import Mathlib

/-!
Verification of the `s2k` repository: a shallow embedding of its key-derivation
library (`src/s2k.rs`, `src/algorithm.rs`), its latest-value watch combinators
(`src/lib.rs`, `watch1`/`watch2`/`watch3`), and the derivation-graph wiring of
`start` in `src/lib.rs`, together with proofs about them.
-/

set_option autoImplicit false
set_option maxRecDepth 4000

namespace SpecS2K

/-- Wrap-around modulus of unsigned 32-bit (`u32`) arithmetic. -/
def M32 : Nat := 4294967296

/-! ## `encode` from `src/s2k.rs`

The Rust function converts a byte string into `count` symbols of an arbitrary
alphabet:

```rust
fn encode<C>(key: &[u8], chars: C, count: usize) -> String {
    let mut remainder = vec![0; count];
    let n = chars.clone().into_iter().count() as u32;
    for b in key {
        let mut b = *b as u32;
        for r in remainder.iter_mut().rev() {
            let s = (*r << 8) + b;
            b = s / n;
            *r = s % n;
        }
    }
    remainder.into_iter()
        .map(|r| chars.clone().into_iter().nth(r as _).unwrap())
        .collect()
}
```

The iterator `chars` is modelled as the list of symbols it yields.  `none`
models a panic of the Rust code: `u32` division by zero (when the alphabet
length is congruent to `0` modulo `2^32`) and the `unwrap` on the per-digit
alphabet lookup. -/
/-- The inner `for r in remainder.iter_mut().rev()` loop of `encode`, running
over the digit list least-significant first, with incoming carry `b`
(initially `*b as u32` for the current key byte).  Each step computes
`s = (*r << 8) + b` in wrapping `u32` arithmetic, stores `s % n` as the new
digit and carries `s / n` to the next (more significant) digit.  Returns the
final carry (which the Rust code drops) together with the updated digits. -/
def encodePass (n : Nat) : Nat → List Nat → Nat × List Nat
  | b, [] => (b, [])
  | b, r :: rs =>
    let s := ((r <<< 8) % M32 + b) % M32
    let p := encodePass n (s / n) rs
    (p.1, s % n :: p.2)

/-- Processing of one key byte `b` by `encode`: the digit vector `rem` is most
significant first (like the Rust `Vec`), and the pass runs over its reverse. -/
def encodeByte (n : Nat) (rem : List Nat) (b : Nat) : List Nat :=
  ((encodePass n b rem.reverse).2).reverse

/-- `encode` from `src/s2k.rs`.  `key` is the byte string, `chars` the symbols
yielded by the alphabet iterator, `count` the number of output symbols.
`chars.length % M32` is the Rust `chars.count() as u32`; the `n = 0` guard
models the `u32` division-by-zero panic, and `List.get?` models the
`nth(r).unwrap()` lookup (`none` = panic). -/
def encode (key : List Nat) (chars : List Char) (count : Nat) : Option String :=
  let n := chars.length % M32
  if n = 0 then none
  else
    ((key.foldl (encodeByte n) (List.replicate count 0)).mapM
      (fun r => chars.get? r)).map (fun l => String.mk l)

/-- The alphabet `'0'..='9'` of the Rust tests. -/
def digits10 : List Char := ['0', '1', '2', '3', '4', '5', '6', '7', '8', '9']

/-- The alphabet `'0'..='1'`. -/
def digits2 : List Char := ['0', '1']

/-- The alphabet `'0'..='7'`. -/
def digits8 : List Char := ['0', '1', '2', '3', '4', '5', '6', '7']

/-- The alphabet `('0'..='9').chain('a'..='f')`. -/
def hexChars : List Char := digits10 ++ ['a', 'b', 'c', 'd', 'e', 'f']

/-- The alphabet `('0'..='9').chain('A'..='M')`. -/
def base23Chars : List Char :=
  digits10 ++ ['A', 'B', 'C', 'D', 'E', 'F', 'G', 'H', 'I', 'J', 'K', 'L', 'M']

/-- The bytes of the ASCII string `"key"`. -/
def keyBytes : List Nat := [107, 101, 121]

/-! ## Value semantics of `encode` -/
/-- Little-endian (least-significant-first) value of a digit list in base `n`. -/
def valR (n : Nat) : List Nat → Nat
  | [] => 0
  | d :: ds => d + n * valR n ds

/-- The `c` least-significant base-`n` digits of `v`, least significant first. -/
def natDigitsLE (n : Nat) : Nat → Nat → List Nat
  | 0, _ => []
  | c + 1, v => v % n :: natDigitsLE n c (v / n)

/-- The base-`n` positional representation of `v % n ^ c` as exactly `c`
digits, most significant first. -/
def natToDigitsBE (n c v : Nat) : List Nat := (natDigitsLE n c v).reverse

/-- The byte string `key` read as an unsigned big-endian integer. -/
def beVal (key : List Nat) : Nat := key.foldl (fun a b => a * 256 + b) 0

/-! ## `s2k` from `src/algorithm.rs` (and, identically, `src/main.rs`)

```rust
fn s2k<D>(salt: &[u8], passphrase: &[u8], count: usize) -> digest::Output<D> {
    let mut hasher = D::new();
    for &b in salt.iter().chain(passphrase).cycle().take(count) {
        hasher.update([b]);
    }
    hasher.finalize()
}
```

The digest `D` is kept abstract as an incremental hasher fed one byte per
`update` call.  The iterator `salt.iter().chain(passphrase).cycle().take(count)`
is modelled operationally: a cursor over the concatenation that restarts at the
front whenever it is exhausted (Rust's `cycle` of an empty iterator yields
nothing). -/
/-- `orig.cycle().take(fuel)` resumed at cursor `cur` (a suffix of `orig`):
each step yields the cursor's head, restarting from `orig` when the cursor is
exhausted; an empty `orig` yields nothing, like Rust's `Iterator::cycle`. -/
def cycleTakeGo {α : Type} (orig : List α) : Nat → List α → List α
  | 0, _ => []
  | k + 1, a :: rest => a :: cycleTakeGo orig k rest
  | k + 1, [] =>
    match orig with
    | [] => []
    | o :: os => o :: cycleTakeGo orig k os

/-- The byte stream `xs.cycle().take(count)`. -/
def cycleTake {α : Type} (xs : List α) (count : Nat) : List α := cycleTakeGo xs count xs

/-- An incremental digest in the sense of the `digest::Digest` trait as used by
`s2k`: an initial state, a one-byte `update`, and `finalize`. -/
structure DigestImpl (σ : Type) where
  init : σ
  update : σ → Nat → σ
  finalize : σ → List Nat

/-- The byte stream that the `for` loop of `s2k` feeds into the hasher. -/
def s2kStream (salt passphrase : List Nat) (count : Nat) : List Nat :=
  cycleTake (salt ++ passphrase) count

/-- `s2k` from `src/algorithm.rs`: feed the stream one byte at a time into the
digest and return the final digest. -/
def s2k {σ : Type} (D : DigestImpl σ) (salt passphrase : List Nat) (count : Nat) :
    List Nat :=
  D.finalize ((s2kStream salt passphrase count).foldl D.update D.init)

/-- A digest that just records the bytes it was fed, in order. -/
def collectDigest : DigestImpl (List Nat) where
  init := []
  update := fun s b => s ++ [b]
  finalize := fun s => s

/-! ## SHA-256 (FIPS 180-4)

`src/algorithm.rs` instantiates `s2k::<Sha256>`; the `Sha256` hasher of the
`sha2` crate is an external dependency, embedded here as the standard FIPS
180-4 algorithm over byte lists (words are `Nat` reduced modulo `2 ^ 32`). -/
/-- Right rotation of a 32-bit word. -/
def rotr32 (x n : Nat) : Nat := ((x >>> n) ||| (x <<< (32 - n))) % M32

/-- Big sigma-0 of the SHA-256 compression function. -/
def bsig0 (x : Nat) : Nat := rotr32 x 2 ^^^ rotr32 x 13 ^^^ rotr32 x 22

/-- Big sigma-1 of the SHA-256 compression function. -/
def bsig1 (x : Nat) : Nat := rotr32 x 6 ^^^ rotr32 x 11 ^^^ rotr32 x 25

/-- Small sigma-0 of the SHA-256 message schedule. -/
def ssig0 (x : Nat) : Nat := rotr32 x 7 ^^^ rotr32 x 18 ^^^ (x >>> 3)

/-- Small sigma-1 of the SHA-256 message schedule. -/
def ssig1 (x : Nat) : Nat := rotr32 x 17 ^^^ rotr32 x 19 ^^^ (x >>> 10)

/-- The SHA-256 choice function (`not x` is `x ^^^ 0xffffffff` on 32 bits). -/
def ch32 (x y z : Nat) : Nat := (x &&& y) ^^^ ((x ^^^ 4294967295) &&& z)

/-- The SHA-256 majority function. -/
def maj32 (x y z : Nat) : Nat := (x &&& y) ^^^ (x &&& z) ^^^ (y &&& z)

/-- The eight working registers of SHA-256. -/
structure Sha256State where
  a : Nat
  b : Nat
  c : Nat
  d : Nat
  e : Nat
  f : Nat
  g : Nat
  h : Nat
deriving DecidableEq

/-- The SHA-256 compression function on one 16-word block (FIPS 180-4,
sections 6.2.2): the 48 message-schedule extension words
`w[i] = ssig1 w[i-2] + w[i-7] + ssig0 w[i-15] + w[i-16]` followed by the 64
rounds `t1 = h + bsig1 e + ch e f g + K[t] + w[t]`,
`t2 = bsig0 a + maj a b c`, written out with the register rotation resolved:
`va t` and `ve t` are the values of registers `a` and `e` after round `t`, and
the remaining registers are earlier values of these two. -/
def sha256Compress (s : Sha256State) (block : List Nat) : Sha256State :=
  let w0 := block.getD 0 0
  let w1 := block.getD 1 0
  let w2 := block.getD 2 0
  let w3 := block.getD 3 0
  let w4 := block.getD 4 0
  let w5 := block.getD 5 0
  let w6 := block.getD 6 0
  let w7 := block.getD 7 0
  let w8 := block.getD 8 0
  let w9 := block.getD 9 0
  let w10 := block.getD 10 0
  let w11 := block.getD 11 0
  let w12 := block.getD 12 0
  let w13 := block.getD 13 0
  let w14 := block.getD 14 0
  let w15 := block.getD 15 0
  let w16 := (ssig1 w14 + w9 + ssig0 w1 + w0) % M32
  let w17 := (ssig1 w15 + w10 + ssig0 w2 + w1) % M32
  let w18 := (ssig1 w16 + w11 + ssig0 w3 + w2) % M32
  let w19 := (ssig1 w17 + w12 + ssig0 w4 + w3) % M32
  let w20 := (ssig1 w18 + w13 + ssig0 w5 + w4) % M32
  let w21 := (ssig1 w19 + w14 + ssig0 w6 + w5) % M32
  let w22 := (ssig1 w20 + w15 + ssig0 w7 + w6) % M32
  let w23 := (ssig1 w21 + w16 + ssig0 w8 + w7) % M32
  let w24 := (ssig1 w22 + w17 + ssig0 w9 + w8) % M32
  let w25 := (ssig1 w23 + w18 + ssig0 w10 + w9) % M32
  let w26 := (ssig1 w24 + w19 + ssig0 w11 + w10) % M32
  let w27 := (ssig1 w25 + w20 + ssig0 w12 + w11) % M32
  let w28 := (ssig1 w26 + w21 + ssig0 w13 + w12) % M32
  let w29 := (ssig1 w27 + w22 + ssig0 w14 + w13) % M32
  let w30 := (ssig1 w28 + w23 + ssig0 w15 + w14) % M32
  let w31 := (ssig1 w29 + w24 + ssig0 w16 + w15) % M32
  let w32 := (ssig1 w30 + w25 + ssig0 w17 + w16) % M32
  let w33 := (ssig1 w31 + w26 + ssig0 w18 + w17) % M32
  let w34 := (ssig1 w32 + w27 + ssig0 w19 + w18) % M32
  let w35 := (ssig1 w33 + w28 + ssig0 w20 + w19) % M32
  let w36 := (ssig1 w34 + w29 + ssig0 w21 + w20) % M32
  let w37 := (ssig1 w35 + w30 + ssig0 w22 + w21) % M32
  let w38 := (ssig1 w36 + w31 + ssig0 w23 + w22) % M32
  let w39 := (ssig1 w37 + w32 + ssig0 w24 + w23) % M32
  let w40 := (ssig1 w38 + w33 + ssig0 w25 + w24) % M32
  let w41 := (ssig1 w39 + w34 + ssig0 w26 + w25) % M32
  let w42 := (ssig1 w40 + w35 + ssig0 w27 + w26) % M32
  let w43 := (ssig1 w41 + w36 + ssig0 w28 + w27) % M32
  let w44 := (ssig1 w42 + w37 + ssig0 w29 + w28) % M32
  let w45 := (ssig1 w43 + w38 + ssig0 w30 + w29) % M32
  let w46 := (ssig1 w44 + w39 + ssig0 w31 + w30) % M32
  let w47 := (ssig1 w45 + w40 + ssig0 w32 + w31) % M32
  let w48 := (ssig1 w46 + w41 + ssig0 w33 + w32) % M32
  let w49 := (ssig1 w47 + w42 + ssig0 w34 + w33) % M32
  let w50 := (ssig1 w48 + w43 + ssig0 w35 + w34) % M32
  let w51 := (ssig1 w49 + w44 + ssig0 w36 + w35) % M32
  let w52 := (ssig1 w50 + w45 + ssig0 w37 + w36) % M32
  let w53 := (ssig1 w51 + w46 + ssig0 w38 + w37) % M32
  let w54 := (ssig1 w52 + w47 + ssig0 w39 + w38) % M32
  let w55 := (ssig1 w53 + w48 + ssig0 w40 + w39) % M32
  let w56 := (ssig1 w54 + w49 + ssig0 w41 + w40) % M32
  let w57 := (ssig1 w55 + w50 + ssig0 w42 + w41) % M32
  let w58 := (ssig1 w56 + w51 + ssig0 w43 + w42) % M32
  let w59 := (ssig1 w57 + w52 + ssig0 w44 + w43) % M32
  let w60 := (ssig1 w58 + w53 + ssig0 w45 + w44) % M32
  let w61 := (ssig1 w59 + w54 + ssig0 w46 + w45) % M32
  let w62 := (ssig1 w60 + w55 + ssig0 w47 + w46) % M32
  let w63 := (ssig1 w61 + w56 + ssig0 w48 + w47) % M32
  let vt10 := (s.h + bsig1 s.e + ch32 s.e s.f s.g + 1116352408 + w0) % M32
  let vt20 := (bsig0 s.a + maj32 s.a s.b s.c) % M32
  let va1 := (vt10 + vt20) % M32
  let ve1 := (s.d + vt10) % M32
  let vt11 := (s.g + bsig1 ve1 + ch32 ve1 s.e s.f + 1899447441 + w1) % M32
  let vt21 := (bsig0 va1 + maj32 va1 s.a s.b) % M32
  let va2 := (vt11 + vt21) % M32
  let ve2 := (s.c + vt11) % M32
  let vt12 := (s.f + bsig1 ve2 + ch32 ve2 ve1 s.e + 3049323471 + w2) % M32
  let vt22 := (bsig0 va2 + maj32 va2 va1 s.a) % M32
  let va3 := (vt12 + vt22) % M32
  let ve3 := (s.b + vt12) % M32
  let vt13 := (s.e + bsig1 ve3 + ch32 ve3 ve2 ve1 + 3921009573 + w3) % M32
  let vt23 := (bsig0 va3 + maj32 va3 va2 va1) % M32
  let va4 := (vt13 + vt23) % M32
  let ve4 := (s.a + vt13) % M32
  let vt14 := (ve1 + bsig1 ve4 + ch32 ve4 ve3 ve2 + 961987163 + w4) % M32
  let vt24 := (bsig0 va4 + maj32 va4 va3 va2) % M32
  let va5 := (vt14 + vt24) % M32
  let ve5 := (va1 + vt14) % M32
  let vt15 := (ve2 + bsig1 ve5 + ch32 ve5 ve4 ve3 + 1508970993 + w5) % M32
  let vt25 := (bsig0 va5 + maj32 va5 va4 va3) % M32
  let va6 := (vt15 + vt25) % M32
  let ve6 := (va2 + vt15) % M32
  let vt16 := (ve3 + bsig1 ve6 + ch32 ve6 ve5 ve4 + 2453635748 + w6) % M32
  let vt26 := (bsig0 va6 + maj32 va6 va5 va4) % M32
  let va7 := (vt16 + vt26) % M32
  let ve7 := (va3 + vt16) % M32
  let vt17 := (ve4 + bsig1 ve7 + ch32 ve7 ve6 ve5 + 2870763221 + w7) % M32
  let vt27 := (bsig0 va7 + maj32 va7 va6 va5) % M32
  let va8 := (vt17 + vt27) % M32
  let ve8 := (va4 + vt17) % M32
  let vt18 := (ve5 + bsig1 ve8 + ch32 ve8 ve7 ve6 + 3624381080 + w8) % M32
  let vt28 := (bsig0 va8 + maj32 va8 va7 va6) % M32
  let va9 := (vt18 + vt28) % M32
  let ve9 := (va5 + vt18) % M32
  let vt19 := (ve6 + bsig1 ve9 + ch32 ve9 ve8 ve7 + 310598401 + w9) % M32
  let vt29 := (bsig0 va9 + maj32 va9 va8 va7) % M32
  let va10 := (vt19 + vt29) % M32
  let ve10 := (va6 + vt19) % M32
  let vt110 := (ve7 + bsig1 ve10 + ch32 ve10 ve9 ve8 + 607225278 + w10) % M32
  let vt210 := (bsig0 va10 + maj32 va10 va9 va8) % M32
  let va11 := (vt110 + vt210) % M32
  let ve11 := (va7 + vt110) % M32
  let vt111 := (ve8 + bsig1 ve11 + ch32 ve11 ve10 ve9 + 1426881987 + w11) % M32
  let vt211 := (bsig0 va11 + maj32 va11 va10 va9) % M32
  let va12 := (vt111 + vt211) % M32
  let ve12 := (va8 + vt111) % M32
  let vt112 := (ve9 + bsig1 ve12 + ch32 ve12 ve11 ve10 + 1925078388 + w12) % M32
  let vt212 := (bsig0 va12 + maj32 va12 va11 va10) % M32
  let va13 := (vt112 + vt212) % M32
  let ve13 := (va9 + vt112) % M32
  let vt113 := (ve10 + bsig1 ve13 + ch32 ve13 ve12 ve11 + 2162078206 + w13) % M32
  let vt213 := (bsig0 va13 + maj32 va13 va12 va11) % M32
  let va14 := (vt113 + vt213) % M32
  let ve14 := (va10 + vt113) % M32
  let vt114 := (ve11 + bsig1 ve14 + ch32 ve14 ve13 ve12 + 2614888103 + w14) % M32
  let vt214 := (bsig0 va14 + maj32 va14 va13 va12) % M32
  let va15 := (vt114 + vt214) % M32
  let ve15 := (va11 + vt114) % M32
  let vt115 := (ve12 + bsig1 ve15 + ch32 ve15 ve14 ve13 + 3248222580 + w15) % M32
  let vt215 := (bsig0 va15 + maj32 va15 va14 va13) % M32
  let va16 := (vt115 + vt215) % M32
  let ve16 := (va12 + vt115) % M32
  let vt116 := (ve13 + bsig1 ve16 + ch32 ve16 ve15 ve14 + 3835390401 + w16) % M32
  let vt216 := (bsig0 va16 + maj32 va16 va15 va14) % M32
  let va17 := (vt116 + vt216) % M32
  let ve17 := (va13 + vt116) % M32
  let vt117 := (ve14 + bsig1 ve17 + ch32 ve17 ve16 ve15 + 4022224774 + w17) % M32
  let vt217 := (bsig0 va17 + maj32 va17 va16 va15) % M32
  let va18 := (vt117 + vt217) % M32
  let ve18 := (va14 + vt117) % M32
  let vt118 := (ve15 + bsig1 ve18 + ch32 ve18 ve17 ve16 + 264347078 + w18) % M32
  let vt218 := (bsig0 va18 + maj32 va18 va17 va16) % M32
  let va19 := (vt118 + vt218) % M32
  let ve19 := (va15 + vt118) % M32
  let vt119 := (ve16 + bsig1 ve19 + ch32 ve19 ve18 ve17 + 604807628 + w19) % M32
  let vt219 := (bsig0 va19 + maj32 va19 va18 va17) % M32
  let va20 := (vt119 + vt219) % M32
  let ve20 := (va16 + vt119) % M32
  let vt120 := (ve17 + bsig1 ve20 + ch32 ve20 ve19 ve18 + 770255983 + w20) % M32
  let vt220 := (bsig0 va20 + maj32 va20 va19 va18) % M32
  let va21 := (vt120 + vt220) % M32
  let ve21 := (va17 + vt120) % M32
  let vt121 := (ve18 + bsig1 ve21 + ch32 ve21 ve20 ve19 + 1249150122 + w21) % M32
  let vt221 := (bsig0 va21 + maj32 va21 va20 va19) % M32
  let va22 := (vt121 + vt221) % M32
  let ve22 := (va18 + vt121) % M32
  let vt122 := (ve19 + bsig1 ve22 + ch32 ve22 ve21 ve20 + 1555081692 + w22) % M32
  let vt222 := (bsig0 va22 + maj32 va22 va21 va20) % M32
  let va23 := (vt122 + vt222) % M32
  let ve23 := (va19 + vt122) % M32
  let vt123 := (ve20 + bsig1 ve23 + ch32 ve23 ve22 ve21 + 1996064986 + w23) % M32
  let vt223 := (bsig0 va23 + maj32 va23 va22 va21) % M32
  let va24 := (vt123 + vt223) % M32
  let ve24 := (va20 + vt123) % M32
  let vt124 := (ve21 + bsig1 ve24 + ch32 ve24 ve23 ve22 + 2554220882 + w24) % M32
  let vt224 := (bsig0 va24 + maj32 va24 va23 va22) % M32
  let va25 := (vt124 + vt224) % M32
  let ve25 := (va21 + vt124) % M32
  let vt125 := (ve22 + bsig1 ve25 + ch32 ve25 ve24 ve23 + 2821834349 + w25) % M32
  let vt225 := (bsig0 va25 + maj32 va25 va24 va23) % M32
  let va26 := (vt125 + vt225) % M32
  let ve26 := (va22 + vt125) % M32
  let vt126 := (ve23 + bsig1 ve26 + ch32 ve26 ve25 ve24 + 2952996808 + w26) % M32
  let vt226 := (bsig0 va26 + maj32 va26 va25 va24) % M32
  let va27 := (vt126 + vt226) % M32
  let ve27 := (va23 + vt126) % M32
  let vt127 := (ve24 + bsig1 ve27 + ch32 ve27 ve26 ve25 + 3210313671 + w27) % M32
  let vt227 := (bsig0 va27 + maj32 va27 va26 va25) % M32
  let va28 := (vt127 + vt227) % M32
  let ve28 := (va24 + vt127) % M32
  let vt128 := (ve25 + bsig1 ve28 + ch32 ve28 ve27 ve26 + 3336571891 + w28) % M32
  let vt228 := (bsig0 va28 + maj32 va28 va27 va26) % M32
  let va29 := (vt128 + vt228) % M32
  let ve29 := (va25 + vt128) % M32
  let vt129 := (ve26 + bsig1 ve29 + ch32 ve29 ve28 ve27 + 3584528711 + w29) % M32
  let vt229 := (bsig0 va29 + maj32 va29 va28 va27) % M32
  let va30 := (vt129 + vt229) % M32
  let ve30 := (va26 + vt129) % M32
  let vt130 := (ve27 + bsig1 ve30 + ch32 ve30 ve29 ve28 + 113926993 + w30) % M32
  let vt230 := (bsig0 va30 + maj32 va30 va29 va28) % M32
  let va31 := (vt130 + vt230) % M32
  let ve31 := (va27 + vt130) % M32
  let vt131 := (ve28 + bsig1 ve31 + ch32 ve31 ve30 ve29 + 338241895 + w31) % M32
  let vt231 := (bsig0 va31 + maj32 va31 va30 va29) % M32
  let va32 := (vt131 + vt231) % M32
  let ve32 := (va28 + vt131) % M32
  let vt132 := (ve29 + bsig1 ve32 + ch32 ve32 ve31 ve30 + 666307205 + w32) % M32
  let vt232 := (bsig0 va32 + maj32 va32 va31 va30) % M32
  let va33 := (vt132 + vt232) % M32
  let ve33 := (va29 + vt132) % M32
  let vt133 := (ve30 + bsig1 ve33 + ch32 ve33 ve32 ve31 + 773529912 + w33) % M32
  let vt233 := (bsig0 va33 + maj32 va33 va32 va31) % M32
  let va34 := (vt133 + vt233) % M32
  let ve34 := (va30 + vt133) % M32
  let vt134 := (ve31 + bsig1 ve34 + ch32 ve34 ve33 ve32 + 1294757372 + w34) % M32
  let vt234 := (bsig0 va34 + maj32 va34 va33 va32) % M32
  let va35 := (vt134 + vt234) % M32
  let ve35 := (va31 + vt134) % M32
  let vt135 := (ve32 + bsig1 ve35 + ch32 ve35 ve34 ve33 + 1396182291 + w35) % M32
  let vt235 := (bsig0 va35 + maj32 va35 va34 va33) % M32
  let va36 := (vt135 + vt235) % M32
  let ve36 := (va32 + vt135) % M32
  let vt136 := (ve33 + bsig1 ve36 + ch32 ve36 ve35 ve34 + 1695183700 + w36) % M32
  let vt236 := (bsig0 va36 + maj32 va36 va35 va34) % M32
  let va37 := (vt136 + vt236) % M32
  let ve37 := (va33 + vt136) % M32
  let vt137 := (ve34 + bsig1 ve37 + ch32 ve37 ve36 ve35 + 1986661051 + w37) % M32
  let vt237 := (bsig0 va37 + maj32 va37 va36 va35) % M32
  let va38 := (vt137 + vt237) % M32
  let ve38 := (va34 + vt137) % M32
  let vt138 := (ve35 + bsig1 ve38 + ch32 ve38 ve37 ve36 + 2177026350 + w38) % M32
  let vt238 := (bsig0 va38 + maj32 va38 va37 va36) % M32
  let va39 := (vt138 + vt238) % M32
  let ve39 := (va35 + vt138) % M32
  let vt139 := (ve36 + bsig1 ve39 + ch32 ve39 ve38 ve37 + 2456956037 + w39) % M32
  let vt239 := (bsig0 va39 + maj32 va39 va38 va37) % M32
  let va40 := (vt139 + vt239) % M32
  let ve40 := (va36 + vt139) % M32
  let vt140 := (ve37 + bsig1 ve40 + ch32 ve40 ve39 ve38 + 2730485921 + w40) % M32
  let vt240 := (bsig0 va40 + maj32 va40 va39 va38) % M32
  let va41 := (vt140 + vt240) % M32
  let ve41 := (va37 + vt140) % M32
  let vt141 := (ve38 + bsig1 ve41 + ch32 ve41 ve40 ve39 + 2820302411 + w41) % M32
  let vt241 := (bsig0 va41 + maj32 va41 va40 va39) % M32
  let va42 := (vt141 + vt241) % M32
  let ve42 := (va38 + vt141) % M32
  let vt142 := (ve39 + bsig1 ve42 + ch32 ve42 ve41 ve40 + 3259730800 + w42) % M32
  let vt242 := (bsig0 va42 + maj32 va42 va41 va40) % M32
  let va43 := (vt142 + vt242) % M32
  let ve43 := (va39 + vt142) % M32
  let vt143 := (ve40 + bsig1 ve43 + ch32 ve43 ve42 ve41 + 3345764771 + w43) % M32
  let vt243 := (bsig0 va43 + maj32 va43 va42 va41) % M32
  let va44 := (vt143 + vt243) % M32
  let ve44 := (va40 + vt143) % M32
  let vt144 := (ve41 + bsig1 ve44 + ch32 ve44 ve43 ve42 + 3516065817 + w44) % M32
  let vt244 := (bsig0 va44 + maj32 va44 va43 va42) % M32
  let va45 := (vt144 + vt244) % M32
  let ve45 := (va41 + vt144) % M32
  let vt145 := (ve42 + bsig1 ve45 + ch32 ve45 ve44 ve43 + 3600352804 + w45) % M32
  let vt245 := (bsig0 va45 + maj32 va45 va44 va43) % M32
  let va46 := (vt145 + vt245) % M32
  let ve46 := (va42 + vt145) % M32
  let vt146 := (ve43 + bsig1 ve46 + ch32 ve46 ve45 ve44 + 4094571909 + w46) % M32
  let vt246 := (bsig0 va46 + maj32 va46 va45 va44) % M32
  let va47 := (vt146 + vt246) % M32
  let ve47 := (va43 + vt146) % M32
  let vt147 := (ve44 + bsig1 ve47 + ch32 ve47 ve46 ve45 + 275423344 + w47) % M32
  let vt247 := (bsig0 va47 + maj32 va47 va46 va45) % M32
  let va48 := (vt147 + vt247) % M32
  let ve48 := (va44 + vt147) % M32
  let vt148 := (ve45 + bsig1 ve48 + ch32 ve48 ve47 ve46 + 430227734 + w48) % M32
  let vt248 := (bsig0 va48 + maj32 va48 va47 va46) % M32
  let va49 := (vt148 + vt248) % M32
  let ve49 := (va45 + vt148) % M32
  let vt149 := (ve46 + bsig1 ve49 + ch32 ve49 ve48 ve47 + 506948616 + w49) % M32
  let vt249 := (bsig0 va49 + maj32 va49 va48 va47) % M32
  let va50 := (vt149 + vt249) % M32
  let ve50 := (va46 + vt149) % M32
  let vt150 := (ve47 + bsig1 ve50 + ch32 ve50 ve49 ve48 + 659060556 + w50) % M32
  let vt250 := (bsig0 va50 + maj32 va50 va49 va48) % M32
  let va51 := (vt150 + vt250) % M32
  let ve51 := (va47 + vt150) % M32
  let vt151 := (ve48 + bsig1 ve51 + ch32 ve51 ve50 ve49 + 883997877 + w51) % M32
  let vt251 := (bsig0 va51 + maj32 va51 va50 va49) % M32
  let va52 := (vt151 + vt251) % M32
  let ve52 := (va48 + vt151) % M32
  let vt152 := (ve49 + bsig1 ve52 + ch32 ve52 ve51 ve50 + 958139571 + w52) % M32
  let vt252 := (bsig0 va52 + maj32 va52 va51 va50) % M32
  let va53 := (vt152 + vt252) % M32
  let ve53 := (va49 + vt152) % M32
  let vt153 := (ve50 + bsig1 ve53 + ch32 ve53 ve52 ve51 + 1322822218 + w53) % M32
  let vt253 := (bsig0 va53 + maj32 va53 va52 va51) % M32
  let va54 := (vt153 + vt253) % M32
  let ve54 := (va50 + vt153) % M32
  let vt154 := (ve51 + bsig1 ve54 + ch32 ve54 ve53 ve52 + 1537002063 + w54) % M32
  let vt254 := (bsig0 va54 + maj32 va54 va53 va52) % M32
  let va55 := (vt154 + vt254) % M32
  let ve55 := (va51 + vt154) % M32
  let vt155 := (ve52 + bsig1 ve55 + ch32 ve55 ve54 ve53 + 1747873779 + w55) % M32
  let vt255 := (bsig0 va55 + maj32 va55 va54 va53) % M32
  let va56 := (vt155 + vt255) % M32
  let ve56 := (va52 + vt155) % M32
  let vt156 := (ve53 + bsig1 ve56 + ch32 ve56 ve55 ve54 + 1955562222 + w56) % M32
  let vt256 := (bsig0 va56 + maj32 va56 va55 va54) % M32
  let va57 := (vt156 + vt256) % M32
  let ve57 := (va53 + vt156) % M32
  let vt157 := (ve54 + bsig1 ve57 + ch32 ve57 ve56 ve55 + 2024104815 + w57) % M32
  let vt257 := (bsig0 va57 + maj32 va57 va56 va55) % M32
  let va58 := (vt157 + vt257) % M32
  let ve58 := (va54 + vt157) % M32
  let vt158 := (ve55 + bsig1 ve58 + ch32 ve58 ve57 ve56 + 2227730452 + w58) % M32
  let vt258 := (bsig0 va58 + maj32 va58 va57 va56) % M32
  let va59 := (vt158 + vt258) % M32
  let ve59 := (va55 + vt158) % M32
  let vt159 := (ve56 + bsig1 ve59 + ch32 ve59 ve58 ve57 + 2361852424 + w59) % M32
  let vt259 := (bsig0 va59 + maj32 va59 va58 va57) % M32
  let va60 := (vt159 + vt259) % M32
  let ve60 := (va56 + vt159) % M32
  let vt160 := (ve57 + bsig1 ve60 + ch32 ve60 ve59 ve58 + 2428436474 + w60) % M32
  let vt260 := (bsig0 va60 + maj32 va60 va59 va58) % M32
  let va61 := (vt160 + vt260) % M32
  let ve61 := (va57 + vt160) % M32
  let vt161 := (ve58 + bsig1 ve61 + ch32 ve61 ve60 ve59 + 2756734187 + w61) % M32
  let vt261 := (bsig0 va61 + maj32 va61 va60 va59) % M32
  let va62 := (vt161 + vt261) % M32
  let ve62 := (va58 + vt161) % M32
  let vt162 := (ve59 + bsig1 ve62 + ch32 ve62 ve61 ve60 + 3204031479 + w62) % M32
  let vt262 := (bsig0 va62 + maj32 va62 va61 va60) % M32
  let va63 := (vt162 + vt262) % M32
  let ve63 := (va59 + vt162) % M32
  let vt163 := (ve60 + bsig1 ve63 + ch32 ve63 ve62 ve61 + 3329325298 + w63) % M32
  let vt263 := (bsig0 va63 + maj32 va63 va62 va61) % M32
  let va64 := (vt163 + vt263) % M32
  let ve64 := (va60 + vt163) % M32
  ⟨(s.a + va64) % M32, (s.b + va63) % M32, (s.c + va62) % M32, (s.d + va61) % M32,
   (s.e + ve64) % M32, (s.f + ve63) % M32, (s.g + ve62) % M32, (s.h + ve61) % M32⟩

/-- Groups of four big-endian bytes packed into 32-bit words. -/
def bytesToWords : List Nat → List Nat
  | b0 :: b1 :: b2 :: b3 :: rest =>
    (((b0 * 256 + b1) * 256 + b2) * 256 + b3) :: bytesToWords rest
  | _ => []

/-- Split into chunks of 64, with the list's length as structural fuel. -/
def chunksGo : Nat → List Nat → List (List Nat)
  | 0, _ => []
  | _ + 1, [] => []
  | k + 1, l => l.take 64 :: chunksGo k (l.drop 64)

/-- The 64-byte blocks of a padded message. -/
def chunks64 (l : List Nat) : List (List Nat) := chunksGo l.length l

/-- SHA-256 padding: a `0x80` byte, zeros to 56 mod 64, then the bit length as
8 big-endian bytes. -/
def sha256Pad (msg : List Nat) : List Nat :=
  msg ++ 128 :: (List.replicate ((64 - (msg.length + 9) % 64) % 64) 0 ++
    natToDigitsBE 256 8 (msg.length * 8))

/-- The SHA-256 initial hash value. -/
def sha256Init : Sha256State :=
  ⟨0x6a09e667, 0xbb67ae85, 0x3c6ef372, 0xa54ff53a,
   0x510e527f, 0x9b05688c, 0x1f83d9ab, 0x5be0cd19⟩

/-- SHA-256 of a byte list, as the 32-byte digest. -/
def sha256 (msg : List Nat) : List Nat :=
  let s := ((chunks64 (sha256Pad msg)).map bytesToWords).foldl sha256Compress sha256Init
  natToDigitsBE 256 4 s.a ++ natToDigitsBE 256 4 s.b ++ natToDigitsBE 256 4 s.c ++
    natToDigitsBE 256 4 s.d ++ natToDigitsBE 256 4 s.e ++ natToDigitsBE 256 4 s.f ++
    natToDigitsBE 256 4 s.g ++ natToDigitsBE 256 4 s.h

/-- The `Sha256` hasher as an incremental digest: the state records the bytes
fed so far (newest first) and `finalize` hashes them in order. -/
def sha256Impl : DigestImpl (List Nat) where
  init := []
  update := fun s b => b :: s
  finalize := fun s => sha256 s.reverse

/-! ## Claim C6: the externally generated `gpg` reference vector

The 65536-byte stream is periodic with period 18 (the length of
salt ++ passphrase); since `lcm 18 64 = 576`, the 1024 data blocks cycle
through 9 distinct blocks, and the padded message is 113 repetitions of those
9 blocks followed by 8 final blocks (the last 448 data bytes plus the padding
block).  The digest is computed by 113 small evaluation steps over that
decomposition, keeping every evaluated term shallow. -/
/-- The salt `3109800B39D9C9D6` of the reference vector. -/
def gpgSalt : List Nat := [0x31, 0x09, 0x80, 0x0b, 0x39, 0xd9, 0xc9, 0xd6]

/-- The bytes of the ASCII string `"passphrase"`. -/
def gpgPassphrase : List Nat :=
  [0x70, 0x61, 0x73, 0x73, 0x70, 0x68, 0x72, 0x61, 0x73, 0x65]

/-- The 18-byte concatenation salt ++ passphrase. -/
def spBytes : List Nat := gpgSalt ++ gpgPassphrase

/-- One 576-byte period of the stream (576 = lcm 18 64). -/
def pBytes : List Nat := (List.replicate 32 spBytes).flatten

/-- The last 448 data bytes of the stream (65536 = 576 * 113 + 448). -/
def tBytes : List Nat := (List.replicate 24 spBytes).flatten ++ spBytes.take 16

/-- The SHA-256 padding of a 65536-byte message. -/
def padTail : List Nat :=
  128 :: (List.replicate 55 0 ++ natToDigitsBE 256 8 524288)

/-- The last 512 bytes of the padded message. -/
def rBytes : List Nat := tBytes ++ padTail

/-- The nine distinct data blocks, as 16-word blocks. -/
def nineB : List (List Nat) := (chunks64 pBytes).map bytesToWords

/-- The eight final blocks, as 16-word blocks. -/
def finalB : List (List Nat) := (chunks64 rBytes).map bytesToWords

/-- The nine distinct data blocks, evaluated to word literals. -/
def nineBlocksLit : List (List Nat) :=
  [[822706187, 970574294, 1885434739, 1885893217, 1936011529, 2148219353, 3386273889, 1936945256, 1918989157, 822706187, 970574294, 1885434739, 1885893217, 1936011529, 2148219353, 3386273889],
   [1936945256, 1918989157, 822706187, 970574294, 1885434739, 1885893217, 1936011529, 2148219353, 3386273889, 1936945256, 1918989157, 822706187, 970574294, 1885434739, 1885893217, 1936011529],
   [2148219353, 3386273889, 1936945256, 1918989157, 822706187, 970574294, 1885434739, 1885893217, 1936011529, 2148219353, 3386273889, 1936945256, 1918989157, 822706187, 970574294, 1885434739],
   [1885893217, 1936011529, 2148219353, 3386273889, 1936945256, 1918989157, 822706187, 970574294, 1885434739, 1885893217, 1936011529, 2148219353, 3386273889, 1936945256, 1918989157, 822706187],
   [970574294, 1885434739, 1885893217, 1936011529, 2148219353, 3386273889, 1936945256, 1918989157, 822706187, 970574294, 1885434739, 1885893217, 1936011529, 2148219353, 3386273889, 1936945256],
   [1918989157, 822706187, 970574294, 1885434739, 1885893217, 1936011529, 2148219353, 3386273889, 1936945256, 1918989157, 822706187, 970574294, 1885434739, 1885893217, 1936011529, 2148219353],
   [3386273889, 1936945256, 1918989157, 822706187, 970574294, 1885434739, 1885893217, 1936011529, 2148219353, 3386273889, 1936945256, 1918989157, 822706187, 970574294, 1885434739, 1885893217],
   [1936011529, 2148219353, 3386273889, 1936945256, 1918989157, 822706187, 970574294, 1885434739, 1885893217, 1936011529, 2148219353, 3386273889, 1936945256, 1918989157, 822706187, 970574294],
   [1885434739, 1885893217, 1936011529, 2148219353, 3386273889, 1936945256, 1918989157, 822706187, 970574294, 1885434739, 1885893217, 1936011529, 2148219353, 3386273889, 1936945256, 1918989157]]

/-- The eight final blocks, evaluated to word literals. -/
def finalBlocksLit : List (List Nat) :=
  [[822706187, 970574294, 1885434739, 1885893217, 1936011529, 2148219353, 3386273889, 1936945256, 1918989157, 822706187, 970574294, 1885434739, 1885893217, 1936011529, 2148219353, 3386273889],
   [1936945256, 1918989157, 822706187, 970574294, 1885434739, 1885893217, 1936011529, 2148219353, 3386273889, 1936945256, 1918989157, 822706187, 970574294, 1885434739, 1885893217, 1936011529],
   [2148219353, 3386273889, 1936945256, 1918989157, 822706187, 970574294, 1885434739, 1885893217, 1936011529, 2148219353, 3386273889, 1936945256, 1918989157, 822706187, 970574294, 1885434739],
   [1885893217, 1936011529, 2148219353, 3386273889, 1936945256, 1918989157, 822706187, 970574294, 1885434739, 1885893217, 1936011529, 2148219353, 3386273889, 1936945256, 1918989157, 822706187],
   [970574294, 1885434739, 1885893217, 1936011529, 2148219353, 3386273889, 1936945256, 1918989157, 822706187, 970574294, 1885434739, 1885893217, 1936011529, 2148219353, 3386273889, 1936945256],
   [1918989157, 822706187, 970574294, 1885434739, 1885893217, 1936011529, 2148219353, 3386273889, 1936945256, 1918989157, 822706187, 970574294, 1885434739, 1885893217, 1936011529, 2148219353],
   [3386273889, 1936945256, 1918989157, 822706187, 970574294, 1885434739, 1885893217, 1936011529, 2148219353, 3386273889, 1936945256, 1918989157, 822706187, 970574294, 1885434739, 1885893217],
   [2147483648, 0, 0, 0, 0, 0, 0, 0, 0, 0, 0, 0, 0, 0, 0, 524288]]

/-! ## The watch combinators of `src/lib.rs`

```rust
async fn watch1<T0, F>(mut rx0: watch::Receiver<T0>, mut f: F) -> Result<(), JsValue> {
    loop {
        f(&*rx0.borrow_and_update()).await?;
        if rx0.changed().await.is_err() { break Ok(()); }
    }
}
```

`watch2` races two `changed()` futures with `futures::future::try_select`,
`watch3` races three with nested `try_select`.  `try_select` polls its first
argument first and resolves to `Err` as soon as the first future that is ready
resolves to `Err`; `Receiver::changed()` resolves `Ok` when the channel holds
an unseen value and `Err` when the sender is dropped and nothing unseen
remains, and is pending otherwise.

The loops are embedded over traces: the callback is abstracted as a function
of the iteration index returning `Except`, and an entry of the trace gives the
state of each watched channel as seen at the moment the wait resolves. -/
/-- The state of one watched channel as seen by its receiver at a wait point:
an unseen value is available (`changed`), the sender is dropped with nothing
unseen (`closed`), or neither (`pending`). -/
inductive ChanView : Type
  | pending
  | changed
  | closed
deriving DecidableEq

/-- Outcome of one `Receiver::changed()` poll: `some true` = resolves `Ok`,
`some false` = resolves `Err` (closed), `none` = pending. -/
def chChanged : ChanView → Option Bool
  | .changed => some true
  | .closed => some false
  | .pending => none

/-- `futures::future::try_select`: polls `a` first, and resolves with the
first ready result, `Ok` or `Err`. -/
def trySelect2 (a b : Option Bool) : Option Bool :=
  match a with
  | some r => some r
  | none => b

/-- Result of running a watch loop on a trace: terminated with `Ok`,
terminated with the callback's error, or still waiting when the trace ends
(no further events). -/
inductive RunResult (E : Type) : Type
  | ok
  | fail (e : E)
  | hung
deriving DecidableEq

/-- `watch1` on a trace of channel views: call `f`, propagate its error,
otherwise wait; `changed()` resolving `Ok` continues the loop, resolving
`Err` breaks with `Ok(())`; a wait that never resolves (or an exhausted
trace) hangs. -/
def watch1Run {E : Type} (f : Nat → Except E Unit) : List ChanView → Nat → RunResult E
  | [], k =>
    match f k with
    | .error e => .fail e
    | .ok _ => .hung
  | v :: rest, k =>
    match f k with
    | .error e => .fail e
    | .ok _ =>
      match chChanged v with
      | some true => watch1Run f rest (k + 1)
      | some false => .ok
      | none => .hung

/-- `watch2`: the wait is `try_select(rx0.changed(), rx1.changed())`. -/
def watch2Run {E : Type} (f : Nat → Except E Unit) :
    List (ChanView × ChanView) → Nat → RunResult E
  | [], k =>
    match f k with
    | .error e => .fail e
    | .ok _ => .hung
  | (v0, v1) :: rest, k =>
    match f k with
    | .error e => .fail e
    | .ok _ =>
      match trySelect2 (chChanged v0) (chChanged v1) with
      | some true => watch2Run f rest (k + 1)
      | some false => .ok
      | none => .hung

/-- `watch3`: the wait is
`try_select(try_select(rx0.changed(), rx1.changed()), rx2.changed())`. -/
def watch3Run {E : Type} (f : Nat → Except E Unit) :
    List (ChanView × ChanView × ChanView) → Nat → RunResult E
  | [], k =>
    match f k with
    | .error e => .fail e
    | .ok _ => .hung
  | (v0, v1, v2) :: rest, k =>
    match f k with
    | .error e => .fail e
    | .ok _ =>
      match trySelect2 (trySelect2 (chChanged v0) (chChanged v1)) (chChanged v2) with
      | some true => watch3Run f rest (k + 1)
      | some false => .ok
      | none => .hung

/-- A callback that always succeeds. -/
def cbOk : Nat → Except String Unit := fun _ => Except.ok ()

/-- A callback that fails at every iteration. -/
def cbFail : Nat → Except String Unit := fun _ => Except.error "hash failure"

/-! ## The key watcher and the derivation graph of `start` in `src/lib.rs` -/
/-- The error enum of the `argon2` crate (the payload of `B64Encoding` is
dropped; only the constructors matter here). -/
inductive Argon2Error : Type
  | adTooLong
  | algorithmInvalid
  | b64Encoding
  | keyIdTooLong
  | memoryTooLittle
  | memoryTooMuch
  | outputTooShort
  | outputTooLong
  | pwdTooLong
  | saltTooShort
  | saltTooLong
  | secretTooLong
  | threadsTooFew
  | threadsTooMany
  | timeTooSmall
  | versionInvalid
deriving DecidableEq

/-- Decidable equality for `Except` (Rust's `Result`). -/
instance exceptDecEq {E A : Type} [DecidableEq E] [DecidableEq A] :
    DecidableEq (Except E A) := fun x y =>
  match x, y with
  | .ok a, .ok b =>
    if h : a = b then isTrue (by rw [h]) else
      isFalse (fun hc => h (Except.ok.inj hc))
  | .error a, .error b =>
    if h : a = b then isTrue (by rw [h]) else
      isFalse (fun hc => h (Except.error.inj hc))
  | .ok _, .error _ => isFalse (fun hc => Except.noConfusion hc)
  | .error _, .ok _ => isFalse (fun hc => Except.noConfusion hc)

/-- The messages sent by one invocation of the key watcher's callback in
`start` (`src/lib.rs`), and the value the callback returns. -/
structure KeyWatcherEffect where
  saltValidationMsg : Option (Except Argon2Error Unit)
  keyMsg : Option String
  ret : Except String Unit
deriving DecidableEq

/-- The body of the `watch3` callback of the key watcher:

```rust
match algorithm.key(argon2, password, salt) {
    Ok(v) => {
        let _ = salt_validation.send(Some(Ok(())));
        let _ = key.send(Some(v));
    }
    Err(e) => {
        let _ = salt_validation.send(Some(Err(e)));
        let _ = key.send(None);
    }
}
Ok(())
```

`r` is the result of `algorithm.key(argon2, password, salt)`. -/
def keyWatcherCallback (r : Except Argon2Error String) : KeyWatcherEffect :=
  match r with
  | .ok v => ⟨some (.ok ()), some v, .ok ()⟩
  | .error e => ⟨some (.error e), none, .ok ()⟩

/-- The `Algorithm` enum of `src/algorithm.rs`. -/
inductive AlgorithmSel : Type
  | argon2id256
  | argon2id512
  | argon2id6
  | s2kSha256
deriving DecidableEq

/-- The input channels of the derivation graph in `start`. -/
inductive Chan : Type
  | password
  | hashExpected
  | algorithm
  | salt
deriving DecidableEq

/-- The three field-writing watchers wired in `start` (the remaining watchers
render fields to the DOM and write no field). -/
inductive GraphWatcher : Type
  | hashActualWatcher
  | passwordValidationWatcher
  | keyWatcher
deriving DecidableEq

/-- The channels each watcher watches, read off the `watch1`/`watch2`/`watch3`
calls in `start`: `watch1(password, ...)` writes `hash_actual`,
`watch2(password, hash_expected, ...)` writes `password_validation`,
`watch3(password, algorithm, salt, ...)` writes `salt_validation` and
`key`. -/
def watchedChannels : GraphWatcher → List Chan
  | .hashActualWatcher => [Chan.password]
  | .passwordValidationWatcher => [Chan.password, Chan.hashExpected]
  | .keyWatcher => [Chan.password, Chan.algorithm, Chan.salt]

/-- The four derived fields. -/
structure FieldState where
  hashActual : Option String
  passwordValidation : Option (Except String Unit)
  saltValidation : Option (Except Argon2Error Unit)
  key : Option String
deriving DecidableEq

/-- The current values of the four input channels. -/
structure GraphInputs where
  password : String
  hashExpected : Option String
  algorithm : AlgorithmSel
  salt : String

/-- One invocation of a watcher's callback, as its effect on the derived
fields.  `hashFn` abstracts `argon2.hash_password` with its fresh random
salt, `verify` abstracts `argon2.verify_password`, and `derive` abstracts
`Algorithm::key`.  The hash-actual callback sends only on success (on failure
the `?` operator fails the callback before any send); the
password-validation callback sends `hash_expected.map(|h| verify(password, h))`;
the key callback sends per `keyWatcherCallback`. -/
def runWatcher (hashFn : String → Except String String)
    (verify : String → String → Except String Unit)
    (derive : AlgorithmSel → String → String → Except Argon2Error String)
    (w : GraphWatcher) (inp : GraphInputs) (st : FieldState) : FieldState :=
  match w with
  | .hashActualWatcher =>
    match hashFn inp.password with
    | .ok h => { st with hashActual := some h }
    | .error _ => st
  | .passwordValidationWatcher =>
    { st with passwordValidation := inp.hashExpected.map (fun h => verify inp.password h) }
  | .keyWatcher =>
    { st with
      saltValidation := (keyWatcherCallback (derive inp.algorithm inp.password inp.salt)).saltValidationMsg,
      key := (keyWatcherCallback (derive inp.algorithm inp.password inp.salt)).keyMsg }

/-- The field-writing watchers of the graph. -/
def graphWatchers : List GraphWatcher :=
  [GraphWatcher.hashActualWatcher, GraphWatcher.passwordValidationWatcher,
   GraphWatcher.keyWatcher]

/-- The graph's response to a single write on channel `ch` at quiescence:
exactly the watchers watching `ch` recompute, from the current inputs. -/
def stepOnChange (hashFn : String → Except String String)
    (verify : String → String → Except String Unit)
    (derive : AlgorithmSel → String → String → Except Argon2Error String)
    (ch : Chan) (inp : GraphInputs) (st : FieldState) : FieldState :=
  (graphWatchers.filter (fun w => ch ∈ watchedChannels w)).foldl
    (fun s w => runWatcher hashFn verify derive w inp s) st

/-- A derivation that always reports a too-short salt. -/
def deriveSaltShort : AlgorithmSel → String → String → Except Argon2Error String :=
  fun _ _ _ => Except.error Argon2Error.saltTooShort

/-- A hash function and a verifier that always succeed. -/
def hashFnConst : String → Except String String := fun _ => Except.ok "hash"

/-- A verifier that always succeeds. -/
def verifyConst : String → String → Except String Unit := fun _ _ => Except.ok ()

/-- A sample pre-state with every field populated. -/
def sampleState : FieldState :=
  ⟨some "oldhash", some (Except.ok ()), some (Except.ok ()), some "oldkey"⟩

/-- Sample inputs. -/
def sampleInputs : GraphInputs := ⟨"pw", none, AlgorithmSel.argon2id256, "s"⟩

theorem encodePass_length (n : Nat) (b : Nat) (ds : List Nat) :
    ((encodePass n b ds).2).length = ds.length := by
  induction ds generalizing b with
  | nil => rfl
  | cons r rs ih => simp [encodePass, ih]

theorem encodePass_digits_lt (n : Nat) (hn : 0 < n) (b : Nat) (ds : List Nat) :
    ∀ d ∈ (encodePass n b ds).2, d < n := by
  induction ds generalizing b with
  | nil => intro d hd; simp [encodePass] at hd
  | cons r rs ih =>
    intro d hd
    simp only [encodePass, List.mem_cons] at hd
    rcases hd with h | h
    · exact h ▸ Nat.mod_lt _ hn
    · exact ih _ d h

theorem valR_lt (n : Nat) (ds : List Nat) (h : ∀ d ∈ ds, d < n) :
    valR n ds < n ^ ds.length := by
  induction ds with
  | nil => simp [valR]
  | cons d ds ih =>
    have hd : d < n := h d (List.mem_cons_self _ _)
    have hv : valR n ds < n ^ ds.length := ih fun x hx => h x (List.mem_cons_of_mem _ hx)
    calc valR n (d :: ds) = d + n * valR n ds := rfl
      _ < n + n * valR n ds := by omega
      _ = n * (valR n ds + 1) := by ring
      _ ≤ n * n ^ ds.length := Nat.mul_le_mul_left n hv
      _ = n ^ (d :: ds).length := by rw [List.length_cons, pow_succ]; ring

/-- No-overflow analysis of one pass of the inner loop: for an alphabet size
`2 ≤ n ≤ 256`, digits below `n` and an incoming carry below `2 ^ 16`, the
wrapping `u32` arithmetic never wraps, the outgoing carry stays below `2 ^ 16`,
and one pass multiplies the represented value by `256`, adds the carry, and
moves the overflowing part into the final carry. -/
theorem encodePass_value (n : Nat) (h2 : 2 ≤ n) (h256 : n ≤ 256)
    (b : Nat) (ds : List Nat) (hb : b < 65536) (hds : ∀ d ∈ ds, d < n) :
    valR n (encodePass n b ds).2 + n ^ ds.length * (encodePass n b ds).1 =
      valR n ds * 256 + b ∧ (encodePass n b ds).1 < 65536 := by
  induction ds generalizing b with
  | nil => simpa [encodePass, valR] using hb
  | cons r rs ih =>
    have hr : r < n := hds r (List.mem_cons_self _ _)
    have hrs : ∀ d ∈ rs, d < n := fun x hx => hds x (List.mem_cons_of_mem _ hx)
    have hshift : (r <<< 8) % M32 = r * 256 := by
      rw [Nat.shiftLeft_eq]
      exact Nat.mod_eq_of_lt (by show r * 2 ^ 8 < M32; unfold M32; omega)
    have hs : ((r <<< 8) % M32 + b) % M32 = r * 256 + b := by
      rw [hshift]
      exact Nat.mod_eq_of_lt (by unfold M32; omega)
    have hsmall : r * 256 + b < 131072 := by omega
    have hcarry : (r * 256 + b) / n < 65536 := by
      calc (r * 256 + b) / n ≤ (r * 256 + b) / 2 := Nat.div_le_div_left h2 (by omega)
        _ < 65536 := by omega
    have ihc := ih ((r * 256 + b) / n) hcarry hrs
    constructor
    · show valR n ((((r <<< 8) % M32 + b) % M32) % n ::
          (encodePass n ((((r <<< 8) % M32 + b) % M32) / n) rs).2) +
          n ^ (r :: rs).length * (encodePass n ((((r <<< 8) % M32 + b) % M32) / n) rs).1 =
          valR n (r :: rs) * 256 + b
      rw [hs]
      show (r * 256 + b) % n + n * valR n (encodePass n ((r * 256 + b) / n) rs).2 +
          n ^ (rs.length + 1) * (encodePass n ((r * 256 + b) / n) rs).1 =
          (r + n * valR n rs) * 256 + b
      calc (r * 256 + b) % n + n * valR n (encodePass n ((r * 256 + b) / n) rs).2 +
            n ^ (rs.length + 1) * (encodePass n ((r * 256 + b) / n) rs).1
          = (r * 256 + b) % n +
            n * (valR n (encodePass n ((r * 256 + b) / n) rs).2 +
              n ^ rs.length * (encodePass n ((r * 256 + b) / n) rs).1) := by ring
        _ = (r * 256 + b) % n + n * (valR n rs * 256 + (r * 256 + b) / n) := by rw [ihc.1]
        _ = (n * ((r * 256 + b) / n) + (r * 256 + b) % n) + n * (valR n rs) * 256 := by ring
        _ = (r * 256 + b) + n * (valR n rs) * 256 := by rw [Nat.div_add_mod]
        _ = (r + n * valR n rs) * 256 + b := by ring
    · show (encodePass n ((((r <<< 8) % M32 + b) % M32) / n) rs).1 < 65536
      rw [hs]
      exact ihc.2

theorem natDigitsLE_length (n : Nat) (c v : Nat) : (natDigitsLE n c v).length = c := by
  induction c generalizing v with
  | zero => rfl
  | succ c ih => simp [natDigitsLE, ih]

theorem natDigitsLE_lt (n : Nat) (hn : 0 < n) (c v : Nat) :
    ∀ d ∈ natDigitsLE n c v, d < n := by
  induction c generalizing v with
  | zero => intro d hd; simp [natDigitsLE] at hd
  | succ c ih =>
    intro d hd
    simp only [natDigitsLE, List.mem_cons] at hd
    rcases hd with h | h
    · exact h ▸ Nat.mod_lt _ hn
    · exact ih _ d h

theorem valR_natDigitsLE (n : Nat) (hn : 0 < n) (c v : Nat) :
    valR n (natDigitsLE n c v) = v % n ^ c := by
  induction c generalizing v with
  | zero => simp [natDigitsLE, valR, Nat.mod_one]
  | succ c ih =>
    show v % n + n * valR n (natDigitsLE n c (v / n)) = v % n ^ (c + 1)
    rw [ih]
    have hm : 0 < n ^ c := Nat.pos_pow_of_pos c hn
    have hrem : v % n + n * (v / n % n ^ c) < n * n ^ c := by
      have h1 : v % n < n := Nat.mod_lt _ hn
      have h2 : v / n % n ^ c < n ^ c := Nat.mod_lt _ hm
      calc v % n + n * (v / n % n ^ c) < n + n * (v / n % n ^ c) := by omega
        _ = n * (v / n % n ^ c + 1) := by ring
        _ ≤ n * n ^ c := Nat.mul_le_mul_left n h2
    have hdecomp : v = (v % n + n * (v / n % n ^ c)) + n * n ^ c * (v / n / n ^ c) := by
      conv_lhs => rw [← Nat.div_add_mod v n]
      conv_lhs => rw [← Nat.div_add_mod (v / n) (n ^ c)]
      ring
    calc v % n + n * (v / n % n ^ c)
        = ((v % n + n * (v / n % n ^ c)) + n * n ^ c * (v / n / n ^ c)) % (n * n ^ c) := by
          rw [Nat.add_mul_mod_self_left, Nat.mod_eq_of_lt hrem]
      _ = v % (n * n ^ c) := by rw [← hdecomp]
      _ = v % n ^ (c + 1) := by rw [pow_succ]; ring_nf

/-- Uniqueness of base-`n` representations: a digit list with all digits below
`n` is the little-endian digit expansion of its own value. -/
theorem digits_unique (n : Nat) (hn : 0 < n) (ds : List Nat) (h : ∀ d ∈ ds, d < n) :
    ds = natDigitsLE n ds.length (valR n ds) := by
  induction ds with
  | nil => rfl
  | cons d ds ih =>
    have hd : d < n := h d (List.mem_cons_self _ _)
    have hds : ∀ x ∈ ds, x < n := fun x hx => h x (List.mem_cons_of_mem _ hx)
    show d :: ds = natDigitsLE n (ds.length + 1) (d + n * valR n ds)
    have hmod : (d + n * valR n ds) % n = d := by
      rw [Nat.add_mul_mod_self_left, Nat.mod_eq_of_lt hd]
    have hdiv : (d + n * valR n ds) / n = valR n ds := by
      rw [Nat.add_mul_div_left _ _ hn, Nat.div_eq_of_lt hd, Nat.zero_add]
    show d :: ds = (d + n * valR n ds) % n :: natDigitsLE n ds.length ((d + n * valR n ds) / n)
    rw [hmod, hdiv, ← ih hds]

theorem encodeByte_length (n : Nat) (rem : List Nat) (b : Nat) :
    (encodeByte n rem b).length = rem.length := by
  unfold encodeByte
  rw [List.length_reverse, encodePass_length, List.length_reverse]

theorem encodeByte_digits_lt (n : Nat) (hn : 0 < n) (rem : List Nat) (b : Nat) :
    ∀ d ∈ encodeByte n rem b, d < n := by
  intro d hd
  unfold encodeByte at hd
  rw [List.mem_reverse] at hd
  exact encodePass_digits_lt n hn b rem.reverse d hd

/-- One byte of the outer loop of `encode` multiplies the value represented by
the digit vector by `256`, adds the byte, and reduces modulo `n ^ count`. -/
theorem encodeByte_value (n : Nat) (h2 : 2 ≤ n) (h256 : n ≤ 256)
    (rem : List Nat) (b : Nat) (hb : b < 256) (hrem : ∀ d ∈ rem, d < n) :
    valR n (encodeByte n rem b).reverse =
      (valR n rem.reverse * 256 + b) % n ^ rem.length := by
  have hrev : ∀ d ∈ rem.reverse, d < n := fun d hd => hrem d (List.mem_reverse.mp hd)
  have hv := encodePass_value n h2 h256 b rem.reverse (by omega) hrev
  have hlt : valR n (encodePass n b rem.reverse).2 < n ^ rem.length := by
    have := valR_lt n (encodePass n b rem.reverse).2
      (encodePass_digits_lt n (by omega) b rem.reverse)
    rwa [encodePass_length, List.length_reverse] at this
  unfold encodeByte
  rw [List.reverse_reverse]
  rw [List.length_reverse] at hv
  calc valR n (encodePass n b rem.reverse).2
      = (valR n (encodePass n b rem.reverse).2 +
          n ^ rem.length * (encodePass n b rem.reverse).1) % n ^ rem.length := by
        rw [Nat.add_mul_mod_self_left, Nat.mod_eq_of_lt hlt]
    _ = (valR n rem.reverse * 256 + b) % n ^ rem.length := by rw [hv.1]

/-- Invariant of the outer loop of `encode` over the key bytes: the digit
vector keeps its length, its digits stay below `n`, and it represents the
big-endian value of the processed bytes modulo `n ^ count`. -/
theorem encodeFold_inv (n count : Nat) (h2 : 2 ≤ n) (h256 : n ≤ 256) :
    ∀ (key rem : List Nat) (V : Nat), (∀ b ∈ key, b < 256) →
      rem.length = count → (∀ d ∈ rem, d < n) →
      valR n rem.reverse = V % n ^ count →
      (key.foldl (encodeByte n) rem).length = count ∧
      (∀ d ∈ key.foldl (encodeByte n) rem, d < n) ∧
      valR n (key.foldl (encodeByte n) rem).reverse =
        (key.foldl (fun a b => a * 256 + b) V) % n ^ count := by
  intro key
  induction key with
  | nil => intro rem V _ hlen hd hv; exact ⟨hlen, hd, hv⟩
  | cons b key ih =>
    intro rem V hkey hlen hd hv
    have hb : b < 256 := hkey b (List.mem_cons_self _ _)
    have hkey' : ∀ x ∈ key, x < 256 := fun x hx => hkey x (List.mem_cons_of_mem _ hx)
    have hstep : valR n (encodeByte n rem b).reverse = (V * 256 + b) % n ^ count := by
      rw [encodeByte_value n h2 h256 rem b hb hd, hlen, hv, Nat.add_mod,
        Nat.mod_mul_mod, ← Nat.add_mod]
    exact ih (encodeByte n rem b) (V * 256 + b) hkey'
      (by rw [encodeByte_length, hlen])
      (encodeByte_digits_lt n (by omega) rem b) hstep

/-- Fold bounds for the totality claim: only `0 < n` is needed to keep every
digit below `n` and the length fixed. -/
theorem encodeFold_bounds (n : Nat) (hn : 0 < n) :
    ∀ (key rem : List Nat), (∀ d ∈ rem, d < n) →
      (key.foldl (encodeByte n) rem).length = rem.length ∧
      (∀ d ∈ key.foldl (encodeByte n) rem, d < n) := by
  intro key
  induction key with
  | nil => intro rem hd; exact ⟨rfl, hd⟩
  | cons b key ih =>
    intro rem hd
    have := ih (encodeByte n rem b) (encodeByte_digits_lt n hn rem b)
    exact ⟨by rw [List.foldl_cons, this.1, encodeByte_length], by
      rw [List.foldl_cons]; exact this.2⟩

theorem mapM_get?_of_lt (chars : List Char) :
    ∀ l : List Nat, (∀ d ∈ l, d < chars.length) →
      l.mapM (fun r => chars.get? r) = some (l.map (fun d => chars.getD d ' ')) := by
  intro l
  induction l with
  | nil => intro _; rfl
  | cons d l ih =>
    intro h
    have hd : d < chars.length := h d (List.mem_cons_self _ _)
    have hget : chars.get? d = some (chars.getD d ' ') := by
      rw [List.getD_eq_getElem?_getD, List.getElem?_eq_getElem hd, List.get?_eq_getElem?,
        List.getElem?_eq_getElem hd]
      rfl
    simp only [List.mapM_cons, hget, ih (fun x hx => h x (List.mem_cons_of_mem _ hx)),
      Option.bind_eq_bind, Option.some_bind, List.map_cons]
    rfl

theorem replicate_zero_digits (count : Nat) : ∀ d ∈ List.replicate count 0, d < 1 := by
  intro d hd
  have := List.eq_of_mem_replicate hd
  omega

theorem valR_replicate_zero (n count : Nat) : valR n (List.replicate count 0) = 0 := by
  induction count with
  | zero => rfl
  | succ c ih => show 0 + n * valR n (List.replicate c 0) = 0; rw [ih]; ring

/-! ## Claims C1, C5, C10 -/
/-- C1: for every input byte string, every alphabet of size `n` with
`2 ≤ n ≤ 256`, and every output digit count `count`, `encode` returns the
base-`n` positional representation of the byte string read as an unsigned
big-endian integer reduced modulo `n ^ count`, written as exactly `count`
digits most significant first, each digit mapped to the corresponding alphabet
symbol (so when the value does not fit, exactly the low-order digits are
kept). -/
theorem encode_is_base_conversion (key : List Nat) (chars : List Char) (count : Nat)
    (hkey : ∀ b ∈ key, b < 256) (h2 : 2 ≤ chars.length) (h256 : chars.length ≤ 256) :
    encode key chars count =
      some (String.mk
        ((natToDigitsBE chars.length count (beVal key % chars.length ^ count)).map
          (fun d => chars.getD d ' '))) := by
  have hM : chars.length % M32 = chars.length := Nat.mod_eq_of_lt (by unfold M32; omega)
  have hn0 : ¬ chars.length = 0 := by omega
  obtain ⟨hlen, hdig, hval⟩ := encodeFold_inv chars.length count h2 h256 key
    (List.replicate count 0) 0 hkey (List.length_replicate count 0)
    (fun d hd => by have := List.eq_of_mem_replicate hd; omega)
    (by rw [List.reverse_replicate, valR_replicate_zero, Nat.zero_mod])
  have hrep : key.foldl (encodeByte chars.length) (List.replicate count 0) =
      natToDigitsBE chars.length count (beVal key % chars.length ^ count) := by
    have hu := digits_unique chars.length (by omega)
      (key.foldl (encodeByte chars.length) (List.replicate count 0)).reverse
      (fun d hd => hdig d (List.mem_reverse.mp hd))
    rw [List.length_reverse, hlen, hval] at hu
    calc key.foldl (encodeByte chars.length) (List.replicate count 0)
        = ((key.foldl (encodeByte chars.length) (List.replicate count 0)).reverse).reverse := by
          rw [List.reverse_reverse]
      _ = natToDigitsBE chars.length count (beVal key % chars.length ^ count) := by
          rw [hu]; rfl
  show (if chars.length % M32 = 0 then none else
      ((key.foldl (encodeByte (chars.length % M32)) (List.replicate count 0)).mapM
        (fun r => chars.get? r)).map (fun l => String.mk l)) = _
  rw [hM, if_neg hn0, hrep, mapM_get?_of_lt chars _
    (fun d hd => by rw [← hrep] at hd; exact hdig d hd), Option.map_some']

/-- Witness for `encode_is_base_conversion` at the bytes of `"key"`, the
decimal alphabet and 6 output digits. -/
theorem encode_is_base_conversion_witness :
    encode keyBytes digits10 6 =
      some (String.mk
        ((natToDigitsBE digits10.length 6 (beVal keyBytes % digits10.length ^ 6)).map
          (fun d => digits10.getD d ' '))) :=
  encode_is_base_conversion keyBytes digits10 6 (by decide) (by decide) (by decide)

/-- C5: the five literal vectors of `tests::test_encode` in `src/s2k.rs` for
the 3-byte string `"key"` and 6 output symbols. -/
theorem encode_test_vectors :
    encode keyBytes digits10 6 = some "038329" ∧
    encode keyBytes digits2 6 = some "111001" ∧
    encode keyBytes digits8 6 = some "662571" ∧
    encode keyBytes hexChars 6 = some "6b6579" ∧
    encode keyBytes base23Chars 6 = some "123AM7" :=
  ⟨by decide, by decide, by decide, by decide, by decide⟩

/-- C10: for every key, count, and alphabet yielding a fixed non-empty symbol
list (of `u32`-representable length), every remainder stays strictly below the
alphabet size, so the per-digit lookup never fails and `encode` totally
returns `count` symbols, each drawn from the alphabet. -/
theorem encode_total (key : List Nat) (chars : List Char) (count : Nat)
    (hne : chars ≠ []) (hlen : chars.length < M32) :
    ∃ out : String, encode key chars count = some out ∧
      out.length = count ∧ ∀ c ∈ out.toList, c ∈ chars := by
  have hpos : 0 < chars.length := List.length_pos.mpr hne
  have hM : chars.length % M32 = chars.length := Nat.mod_eq_of_lt hlen
  obtain ⟨hflen, hfdig⟩ := encodeFold_bounds chars.length hpos key
    (List.replicate count 0) (fun d hd => by have := List.eq_of_mem_replicate hd; omega)
  refine ⟨String.mk ((key.foldl (encodeByte chars.length) (List.replicate count 0)).map
    (fun d => chars.getD d ' ')), ?_, ?_, ?_⟩
  · show (if chars.length % M32 = 0 then none else
        ((key.foldl (encodeByte (chars.length % M32)) (List.replicate count 0)).mapM
          (fun r => chars.get? r)).map (fun l => String.mk l)) = _
    rw [hM, if_neg (by omega), mapM_get?_of_lt chars _ hfdig, Option.map_some']
  · show ((key.foldl (encodeByte chars.length) (List.replicate count 0)).map
      (fun d => chars.getD d ' ')).length = count
    rw [List.length_map, hflen, List.length_replicate]
  · intro c hc
    have hc' : c ∈ (key.foldl (encodeByte chars.length) (List.replicate count 0)).map
        (fun d => chars.getD d ' ') := hc
    obtain ⟨d, hd, hcd⟩ := List.mem_map.mp hc'
    have hdn : d < chars.length := hfdig d hd
    have : chars.getD d ' ' = chars[d] := by
      rw [List.getD_eq_getElem?_getD, List.getElem?_eq_getElem hdn]; rfl
    rw [← hcd, this]
    exact List.getElem_mem hdn

/-- Witness for `encode_total` at a one-symbol alphabet. -/
theorem encode_total_witness :
    ∃ out : String, encode [5] ['a'] 3 = some out ∧
      out.length = 3 ∧ ∀ c ∈ out.toList, c ∈ ['a'] :=
  encode_total [5] ['a'] 3 (by decide) (by decide)

/-- When the cursor is exhausted, a non-empty original restarts from its
front, exactly as if the cursor were the full original. -/
theorem cycleTakeGo_restart {α : Type} (xs : List α) (h : xs ≠ []) (k : Nat) :
    cycleTakeGo xs (k + 1) [] = cycleTakeGo xs (k + 1) xs := by
  cases xs with
  | nil => exact absurd rfl h
  | cons o os => rfl

theorem cycleTakeGo_length {α : Type} (orig : List α) (h : orig ≠ []) :
    ∀ (k : Nat) (cur : List α), (cycleTakeGo orig k cur).length = k := by
  intro k
  induction k with
  | zero => intro cur; cases cur <;> rfl
  | succ k ih =>
    intro cur
    cases cur with
    | cons a rest => simp [cycleTakeGo, ih]
    | nil =>
      rw [cycleTakeGo_restart orig h k]
      cases horig : orig with
      | nil => exact absurd horig h
      | cons o os => simp [cycleTakeGo, horig ▸ ih os]

theorem cycleTakeGo_getD {α : Type} [Inhabited α] (xs : List α) (h : xs ≠ []) :
    ∀ (k d : Nat), d < xs.length →
      ∀ j < k, (cycleTakeGo xs k (xs.drop d)).getD j default =
        xs.getD ((d + j) % xs.length) default := by
  have hlen : 0 < xs.length := List.length_pos.mpr h
  intro k
  induction k with
  | zero => intro d _ j hj; omega
  | succ k ih =>
    intro d hdlt j hj
    have hdrop : xs.drop d = xs[d] :: xs.drop (d + 1) := List.drop_eq_getElem_cons hdlt
    rw [hdrop]
    show ((xs[d] :: cycleTakeGo xs k (xs.drop (d + 1))).getD j default) = _
    cases j with
    | zero =>
      show xs[d] = xs.getD ((d + 0) % xs.length) default
      rw [Nat.add_zero, Nat.mod_eq_of_lt hdlt, List.getD_eq_getElem?_getD,
        List.getElem?_eq_getElem hdlt]
      rfl
    | succ j =>
      show (cycleTakeGo xs k (xs.drop (d + 1))).getD j default = _
      by_cases hnext : d + 1 < xs.length
      · rw [ih (d + 1) hnext j (by omega)]
        have hidx : d + 1 + j = d + (j + 1) := by omega
        rw [hidx]
      · have hdeq : d + 1 = xs.length := by omega
        rw [hdeq, List.drop_length]
        cases k with
        | zero => omega
        | succ k2 =>
          have h0 := ih 0 hlen j (by omega)
          rw [List.drop_zero] at h0
          rw [cycleTakeGo_restart xs h k2, h0]
          have hidx : d + (j + 1) = xs.length + j := by omega
          rw [Nat.zero_add, hidx, Nat.add_comm xs.length j, Nat.add_mod_right]

/-! ## Claim C2 -/
/-- C2 as stated is false when both salt and passphrase are empty: Rust's
`cycle()` of an empty iterator yields nothing, so zero bytes (not `count`
bytes) are fed into the digest.  With the byte-collecting digest, `s2k` with
empty salt and passphrase and count 65536 hashes the empty stream. -/
theorem s2k_empty_input_counterexample :
    (s2kStream [] [] 65536).length = 0 ∧
    s2k collectDigest [] [] 65536 = [] ∧ (0 : Nat) ≠ 65536 :=
  ⟨rfl, rfl, by omega⟩

/-- C2 amended: for every salt, passphrase and count such that salt and
passphrase are not both empty, `s2k` feeds exactly `count` bytes — the first
`count` bytes of the unbounded cyclic repetition of salt followed by
passphrase — one byte at a time into the digest and returns the final digest;
the number of bytes hashed equals `count` regardless of the lengths of salt
and passphrase. -/
theorem s2k_feeds_count_bytes {σ : Type} (D : DigestImpl σ)
    (salt passphrase : List Nat) (count : Nat) (h : salt ++ passphrase ≠ []) :
    (s2kStream salt passphrase count).length = count ∧
    (∀ j < count, (s2kStream salt passphrase count).getD j 0 =
      (salt ++ passphrase).getD (j % (salt ++ passphrase).length) 0) ∧
    s2k D salt passphrase count =
      D.finalize ((s2kStream salt passphrase count).foldl D.update D.init) := by
  refine ⟨cycleTakeGo_length _ h count _, ?_, rfl⟩
  intro j hj
  have := cycleTakeGo_getD (salt ++ passphrase) h count 0 (List.length_pos.mpr h) j hj
  rw [List.drop_zero] at this
  simpa using this

/-- Witness for `s2k_feeds_count_bytes` with a 1-byte salt, a 2-byte
passphrase and count 7. -/
theorem s2k_feeds_count_bytes_witness :
    (s2kStream [1] [2, 3] 7).length = 7 ∧
    (∀ j < 7, (s2kStream [1] [2, 3] 7).getD j 0 =
      ([1] ++ [2, 3]).getD (j % ([1] ++ [2, 3] : List Nat).length) 0) ∧
    s2k collectDigest [1] [2, 3] 7 =
      collectDigest.finalize ((s2kStream [1] [2, 3] 7).foldl collectDigest.update
        collectDigest.init) :=
  s2k_feeds_count_bytes collectDigest [1] [2, 3] 7 (by decide)

example : sha256 [0x61, 0x62, 0x63] =
    [0xba, 0x78, 0x16, 0xbf, 0x8f, 0x01, 0xcf, 0xea, 0x41, 0x41, 0x40, 0xde,
     0x5d, 0xae, 0x22, 0x23, 0xb0, 0x03, 0x61, 0xa3, 0x96, 0x17, 0x7a, 0x9c,
     0xb4, 0x10, 0xff, 0x61, 0xf2, 0x00, 0x15, 0xad] := by decide

example : sha256 [] =
    [0xe3, 0xb0, 0xc4, 0x42, 0x98, 0xfc, 0x1c, 0x14, 0x9a, 0xfb, 0xf4, 0xc8,
     0x99, 0x6f, 0xb9, 0x24, 0x27, 0xae, 0x41, 0xe4, 0x64, 0x9b, 0x93, 0x4c,
     0xa4, 0x95, 0x99, 0x1b, 0x78, 0x52, 0xb8, 0x55] := by decide

theorem foldl_cons_acc {α : Type} :
    ∀ l acc : List α, l.foldl (fun s b => b :: s) acc = l.reverse ++ acc := by
  intro l
  induction l with
  | nil => intro acc; simp
  | cons a l ih =>
    intro acc
    show l.foldl (fun s b => b :: s) (a :: acc) = (a :: l).reverse ++ acc
    rw [ih (a :: acc), List.reverse_cons, List.append_assoc]
    rfl

/-- `s2k` with the SHA-256 hasher is SHA-256 of the byte stream. -/
theorem s2k_sha256_eq_stream (salt pass : List Nat) (count : Nat) :
    s2k sha256Impl salt pass count = sha256 (s2kStream salt pass count) := by
  show sha256 (((s2kStream salt pass count).foldl (fun s b => b :: s) []).reverse) = _
  rw [foldl_cons_acc, List.append_nil, List.reverse_reverse]

theorem cycleTakeGo_consume {α : Type} (xs : List α) :
    ∀ (cur : List α) (k : Nat),
      cycleTakeGo xs (cur.length + k) cur = cur ++ cycleTakeGo xs k [] := by
  intro cur
  induction cur with
  | nil => intro k; simp
  | cons a rest ih =>
    intro k
    have hl : (a :: rest).length + k = (rest.length + k) + 1 := by
      rw [List.length_cons]; omega
    rw [hl]
    show a :: cycleTakeGo xs (rest.length + k) rest = (a :: rest) ++ cycleTakeGo xs k []
    rw [ih k]
    rfl

theorem cycleTakeGo_nil_eq {α : Type} (xs : List α) (h : xs ≠ []) (k : Nat) :
    cycleTakeGo xs k [] = cycleTakeGo xs k xs := by
  cases k with
  | zero => cases xs <;> rfl
  | succ k => exact cycleTakeGo_restart xs h k

/-- One full period of the cycle. -/
theorem cycleTake_period {α : Type} (xs : List α) (h : xs ≠ []) (k : Nat) :
    cycleTake xs (xs.length + k) = xs ++ cycleTake xs k := by
  show cycleTakeGo xs (xs.length + k) xs = xs ++ cycleTakeGo xs k xs
  rw [cycleTakeGo_consume xs xs k, cycleTakeGo_nil_eq xs h k]

theorem cycleTakeGo_take {α : Type} (xs : List α) :
    ∀ (k : Nat) (cur : List α), k ≤ cur.length → cycleTakeGo xs k cur = cur.take k := by
  intro k
  induction k with
  | zero => intro cur _; cases cur <;> rfl
  | succ k ih =>
    intro cur hk
    cases cur with
    | nil => simp at hk
    | cons a rest =>
      show a :: cycleTakeGo xs k rest = (a :: rest).take (k + 1)
      rw [List.take_succ_cons, ih rest (by simpa using hk)]

/-- `m` full periods followed by the remainder. -/
theorem cycleTake_mul_add {α : Type} (xs : List α) (h : xs ≠ []) :
    ∀ (m r : Nat), cycleTake xs (m * xs.length + r) =
      (List.replicate m xs).flatten ++ cycleTake xs r := by
  intro m
  induction m with
  | zero => intro r; simp
  | succ m ih =>
    intro r
    have harith : (m + 1) * xs.length + r = xs.length + (m * xs.length + r) := by ring
    rw [harith, cycleTake_period xs h, ih r, List.replicate_succ, List.flatten_cons,
      List.append_assoc]

theorem flatten_replicate_add {α : Type} (x : List α) (a b : Nat) :
    (List.replicate (a + b) x).flatten =
      (List.replicate a x).flatten ++ (List.replicate b x).flatten := by
  rw [List.replicate_add, List.flatten_append]

theorem flatten_replicate_mul {α : Type} (x : List α) :
    ∀ a b : Nat, (List.replicate (a * b) x).flatten =
      (List.replicate a (List.replicate b x).flatten).flatten := by
  intro a
  induction a with
  | zero => intro b; simp
  | succ a ih =>
    intro b
    have harith : (a + 1) * b = b + a * b := by ring
    rw [harith, flatten_replicate_add, ih b, List.replicate_succ, List.flatten_cons]

/-- The stream of the reference vector: 113 repetitions of the 576-byte
period followed by the remaining 448 bytes. -/
theorem gpg_stream_decomp :
    s2kStream gpgSalt gpgPassphrase 65536 =
      (List.replicate 113 pBytes).flatten ++ tBytes := by
  have hsp : spBytes ≠ [] := by decide
  show cycleTake spBytes 65536 = _
  rw [show (65536 : Nat) = 3640 * spBytes.length + 16 from by decide,
    cycleTake_mul_add spBytes hsp 3640 16,
    show cycleTake spBytes 16 = cycleTakeGo spBytes 16 spBytes from rfl,
    cycleTakeGo_take spBytes 16 spBytes (by decide),
    show (3640 : Nat) = 113 * 32 + 24 from by decide,
    flatten_replicate_add spBytes (113 * 32) 24,
    flatten_replicate_mul spBytes 113 32, List.append_assoc]
  rfl

theorem gpg_stream_length : (s2kStream gpgSalt gpgPassphrase 65536).length = 65536 :=
  cycleTakeGo_length spBytes (by decide) 65536 spBytes

/-- Padding of any 65536-byte message appends the fixed 64-byte tail. -/
theorem sha256Pad_65536 (msg : List Nat) (hlen : msg.length = 65536) :
    sha256Pad msg = msg ++ padTail := by
  unfold sha256Pad
  rw [hlen]
  exact congrArg (msg ++ ·) (by decide)

theorem chunksGo_fuel_irrel :
    ∀ (f g : Nat) (l : List Nat), l.length ≤ f → l.length ≤ g →
      chunksGo f l = chunksGo g l := by
  intro f
  induction f with
  | zero =>
    intro g l hf _
    have : l = [] := List.eq_nil_of_length_eq_zero (by omega)
    subst this
    cases g <;> rfl
  | succ f ih =>
    intro g l hf hg
    cases l with
    | nil => cases g <;> rfl
    | cons a as =>
      cases g with
      | zero => simp at hg
      | succ g =>
        show (a :: as).take 64 :: chunksGo f ((a :: as).drop 64) =
          (a :: as).take 64 :: chunksGo g ((a :: as).drop 64)
        have hf' : as.length + 1 ≤ f + 1 := by simpa using hf
        have hg' : as.length + 1 ≤ g + 1 := by simpa using hg
        have hd : ((a :: as).drop 64).length = as.length + 1 - 64 := by
          rw [List.length_drop, List.length_cons]
        rw [ih g ((a :: as).drop 64) (by omega) (by omega)]

theorem chunks64_step (l : List Nat) (h : l ≠ []) :
    chunks64 l = l.take 64 :: chunks64 (l.drop 64) := by
  cases hl : l with
  | nil => exact absurd hl h
  | cons a as =>
    show chunksGo (a :: as).length (a :: as) = _
    rw [List.length_cons]
    show (a :: as).take 64 :: chunksGo as.length ((a :: as).drop 64) =
      (a :: as).take 64 :: chunks64 ((a :: as).drop 64)
    rw [chunksGo_fuel_irrel as.length ((a :: as).drop 64).length ((a :: as).drop 64)
      (by rw [List.length_drop, List.length_cons]; omega) (Nat.le_refl _)]
    rfl

/-- Chunking distributes over an append at a block boundary. -/
theorem chunks64_append :
    ∀ (k : Nat) (A B : List Nat), A.length = 64 * k →
      chunks64 (A ++ B) = chunks64 A ++ chunks64 B := by
  intro k
  induction k with
  | zero =>
    intro A B hA
    have : A = [] := List.eq_nil_of_length_eq_zero (by omega)
    subst this
    rfl
  | succ k ih =>
    intro A B hA
    have hAne : A ≠ [] := by
      intro hnil
      rw [hnil] at hA
      simp at hA
    have h64 : 64 ≤ A.length := by omega
    by_cases hB0 : B = []
    · subst hB0
      rw [List.append_nil, show chunks64 ([] : List Nat) = [] from rfl, List.append_nil]
    · have hABne : A ++ B ≠ [] := by
        intro hnil
        exact hAne (List.append_eq_nil.mp hnil).1
      rw [chunks64_step (A ++ B) hABne, List.take_append_of_le_length h64,
        List.drop_append_of_le_length h64,
        ih (A.drop 64) B (by rw [List.length_drop]; omega),
        chunks64_step A hAne]
      rfl

/-- Chunking `m` repetitions of a whole number of blocks. -/
theorem chunks64_flatten_replicate (P : List Nat) (k : Nat) (hP : P.length = 64 * k) :
    ∀ (m : Nat) (R : List Nat),
      chunks64 ((List.replicate m P).flatten ++ R) =
        (List.replicate m (chunks64 P)).flatten ++ chunks64 R := by
  intro m
  induction m with
  | zero => intro R; simp
  | succ m ih =>
    intro R
    rw [List.replicate_succ, List.flatten_cons, List.append_assoc,
      chunks64_append k P _ hP, ih R, List.replicate_succ, List.flatten_cons,
      List.append_assoc]

/-- The word blocks of the padded stream of the reference vector. -/
theorem gpg_blocks_decomp :
    (chunks64 (sha256Pad (s2kStream gpgSalt gpgPassphrase 65536))).map bytesToWords =
      (List.replicate 113 nineB).flatten ++ finalB := by
  rw [sha256Pad_65536 _ gpg_stream_length, gpg_stream_decomp, List.append_assoc,
    chunks64_flatten_replicate pBytes 9 (by decide) 113 (tBytes ++ padTail),
    List.map_append, List.map_flatten, List.map_replicate]
  rfl

/-- One nine-block batch peeled off the front of the block sequence. -/
theorem foldl_flatten_replicate_succ {α β : Type} (f : β → α → β) (xs : List α)
    (m : Nat) (s : β) (R : List α) :
    ((List.replicate (m + 1) xs).flatten ++ R).foldl f s =
      ((List.replicate m xs).flatten ++ R).foldl f (xs.foldl f s) := by
  rw [List.replicate_succ, List.flatten_cons, List.append_assoc, List.foldl_append]

/-- Blocks 0 to 8 of the padded stream of the reference vector. -/
theorem gpgStep1 :
    ((List.replicate 113 nineBlocksLit).flatten ++ finalBlocksLit).foldl sha256Compress sha256Init =
      ((List.replicate 112 nineBlocksLit).flatten ++ finalBlocksLit).foldl sha256Compress (⟨4245215816, 1869275273, 489673842, 3884494152, 2852665776, 1267562118, 1146969609, 4095135684⟩ : Sha256State) := by
  rw [show (113 : Nat) = 112 + 1 from rfl, foldl_flatten_replicate_succ,
    show List.foldl sha256Compress sha256Init nineBlocksLit = (⟨4245215816, 1869275273, 489673842, 3884494152, 2852665776, 1267562118, 1146969609, 4095135684⟩ : Sha256State) from by decide]

/-- Blocks 9 to 17 of the padded stream of the reference vector. -/
theorem gpgStep2 :
    ((List.replicate 112 nineBlocksLit).flatten ++ finalBlocksLit).foldl sha256Compress (⟨4245215816, 1869275273, 489673842, 3884494152, 2852665776, 1267562118, 1146969609, 4095135684⟩ : Sha256State) =
      ((List.replicate 111 nineBlocksLit).flatten ++ finalBlocksLit).foldl sha256Compress (⟨4235714531, 432571760, 969457825, 2652873910, 524035664, 789024052, 3289902004, 2738694381⟩ : Sha256State) := by
  rw [show (112 : Nat) = 111 + 1 from rfl, foldl_flatten_replicate_succ,
    show List.foldl sha256Compress (⟨4245215816, 1869275273, 489673842, 3884494152, 2852665776, 1267562118, 1146969609, 4095135684⟩ : Sha256State) nineBlocksLit = (⟨4235714531, 432571760, 969457825, 2652873910, 524035664, 789024052, 3289902004, 2738694381⟩ : Sha256State) from by decide]

/-- Blocks 18 to 26 of the padded stream of the reference vector. -/
theorem gpgStep3 :
    ((List.replicate 111 nineBlocksLit).flatten ++ finalBlocksLit).foldl sha256Compress (⟨4235714531, 432571760, 969457825, 2652873910, 524035664, 789024052, 3289902004, 2738694381⟩ : Sha256State) =
      ((List.replicate 110 nineBlocksLit).flatten ++ finalBlocksLit).foldl sha256Compress (⟨1465925178, 4069994020, 1034155916, 3918156376, 4056692383, 2024088286, 1843611988, 3253726495⟩ : Sha256State) := by
  rw [show (111 : Nat) = 110 + 1 from rfl, foldl_flatten_replicate_succ,
    show List.foldl sha256Compress (⟨4235714531, 432571760, 969457825, 2652873910, 524035664, 789024052, 3289902004, 2738694381⟩ : Sha256State) nineBlocksLit = (⟨1465925178, 4069994020, 1034155916, 3918156376, 4056692383, 2024088286, 1843611988, 3253726495⟩ : Sha256State) from by decide]

/-- Blocks 27 to 35 of the padded stream of the reference vector. -/
theorem gpgStep4 :
    ((List.replicate 110 nineBlocksLit).flatten ++ finalBlocksLit).foldl sha256Compress (⟨1465925178, 4069994020, 1034155916, 3918156376, 4056692383, 2024088286, 1843611988, 3253726495⟩ : Sha256State) =
      ((List.replicate 109 nineBlocksLit).flatten ++ finalBlocksLit).foldl sha256Compress (⟨1897198497, 2788753740, 3560946728, 4187262725, 1781973993, 3234121592, 161094687, 2821051839⟩ : Sha256State) := by
  rw [show (110 : Nat) = 109 + 1 from rfl, foldl_flatten_replicate_succ,
    show List.foldl sha256Compress (⟨1465925178, 4069994020, 1034155916, 3918156376, 4056692383, 2024088286, 1843611988, 3253726495⟩ : Sha256State) nineBlocksLit = (⟨1897198497, 2788753740, 3560946728, 4187262725, 1781973993, 3234121592, 161094687, 2821051839⟩ : Sha256State) from by decide]

/-- Blocks 36 to 44 of the padded stream of the reference vector. -/
theorem gpgStep5 :
    ((List.replicate 109 nineBlocksLit).flatten ++ finalBlocksLit).foldl sha256Compress (⟨1897198497, 2788753740, 3560946728, 4187262725, 1781973993, 3234121592, 161094687, 2821051839⟩ : Sha256State) =
      ((List.replicate 108 nineBlocksLit).flatten ++ finalBlocksLit).foldl sha256Compress (⟨3366494057, 2204819826, 2104896147, 2785665762, 3243215957, 3595583393, 1810153095, 2080817593⟩ : Sha256State) := by
  rw [show (109 : Nat) = 108 + 1 from rfl, foldl_flatten_replicate_succ,
    show List.foldl sha256Compress (⟨1897198497, 2788753740, 3560946728, 4187262725, 1781973993, 3234121592, 161094687, 2821051839⟩ : Sha256State) nineBlocksLit = (⟨3366494057, 2204819826, 2104896147, 2785665762, 3243215957, 3595583393, 1810153095, 2080817593⟩ : Sha256State) from by decide]

/-- Blocks 45 to 53 of the padded stream of the reference vector. -/
theorem gpgStep6 :
    ((List.replicate 108 nineBlocksLit).flatten ++ finalBlocksLit).foldl sha256Compress (⟨3366494057, 2204819826, 2104896147, 2785665762, 3243215957, 3595583393, 1810153095, 2080817593⟩ : Sha256State) =
      ((List.replicate 107 nineBlocksLit).flatten ++ finalBlocksLit).foldl sha256Compress (⟨2280890951, 986707149, 2956276201, 171989531, 2382227293, 1435333343, 2481133566, 3035119142⟩ : Sha256State) := by
  rw [show (108 : Nat) = 107 + 1 from rfl, foldl_flatten_replicate_succ,
    show List.foldl sha256Compress (⟨3366494057, 2204819826, 2104896147, 2785665762, 3243215957, 3595583393, 1810153095, 2080817593⟩ : Sha256State) nineBlocksLit = (⟨2280890951, 986707149, 2956276201, 171989531, 2382227293, 1435333343, 2481133566, 3035119142⟩ : Sha256State) from by decide]

/-- Blocks 54 to 62 of the padded stream of the reference vector. -/
theorem gpgStep7 :
    ((List.replicate 107 nineBlocksLit).flatten ++ finalBlocksLit).foldl sha256Compress (⟨2280890951, 986707149, 2956276201, 171989531, 2382227293, 1435333343, 2481133566, 3035119142⟩ : Sha256State) =
      ((List.replicate 106 nineBlocksLit).flatten ++ finalBlocksLit).foldl sha256Compress (⟨206081729, 267926076, 1896220182, 202250001, 1212448928, 1786617093, 1572824457, 3120555659⟩ : Sha256State) := by
  rw [show (107 : Nat) = 106 + 1 from rfl, foldl_flatten_replicate_succ,
    show List.foldl sha256Compress (⟨2280890951, 986707149, 2956276201, 171989531, 2382227293, 1435333343, 2481133566, 3035119142⟩ : Sha256State) nineBlocksLit = (⟨206081729, 267926076, 1896220182, 202250001, 1212448928, 1786617093, 1572824457, 3120555659⟩ : Sha256State) from by decide]

/-- Blocks 63 to 71 of the padded stream of the reference vector. -/
theorem gpgStep8 :
    ((List.replicate 106 nineBlocksLit).flatten ++ finalBlocksLit).foldl sha256Compress (⟨206081729, 267926076, 1896220182, 202250001, 1212448928, 1786617093, 1572824457, 3120555659⟩ : Sha256State) =
      ((List.replicate 105 nineBlocksLit).flatten ++ finalBlocksLit).foldl sha256Compress (⟨3833038657, 1968596440, 3436479814, 3823198327, 993024620, 2160179873, 1489913600, 411599936⟩ : Sha256State) := by
  rw [show (106 : Nat) = 105 + 1 from rfl, foldl_flatten_replicate_succ,
    show List.foldl sha256Compress (⟨206081729, 267926076, 1896220182, 202250001, 1212448928, 1786617093, 1572824457, 3120555659⟩ : Sha256State) nineBlocksLit = (⟨3833038657, 1968596440, 3436479814, 3823198327, 993024620, 2160179873, 1489913600, 411599936⟩ : Sha256State) from by decide]

/-- Blocks 72 to 80 of the padded stream of the reference vector. -/
theorem gpgStep9 :
    ((List.replicate 105 nineBlocksLit).flatten ++ finalBlocksLit).foldl sha256Compress (⟨3833038657, 1968596440, 3436479814, 3823198327, 993024620, 2160179873, 1489913600, 411599936⟩ : Sha256State) =
      ((List.replicate 104 nineBlocksLit).flatten ++ finalBlocksLit).foldl sha256Compress (⟨4266486069, 2367549543, 2813068058, 1418820552, 4105789062, 1731736779, 754741473, 1953217702⟩ : Sha256State) := by
  rw [show (105 : Nat) = 104 + 1 from rfl, foldl_flatten_replicate_succ,
    show List.foldl sha256Compress (⟨3833038657, 1968596440, 3436479814, 3823198327, 993024620, 2160179873, 1489913600, 411599936⟩ : Sha256State) nineBlocksLit = (⟨4266486069, 2367549543, 2813068058, 1418820552, 4105789062, 1731736779, 754741473, 1953217702⟩ : Sha256State) from by decide]

/-- Blocks 81 to 89 of the padded stream of the reference vector. -/
theorem gpgStep10 :
    ((List.replicate 104 nineBlocksLit).flatten ++ finalBlocksLit).foldl sha256Compress (⟨4266486069, 2367549543, 2813068058, 1418820552, 4105789062, 1731736779, 754741473, 1953217702⟩ : Sha256State) =
      ((List.replicate 103 nineBlocksLit).flatten ++ finalBlocksLit).foldl sha256Compress (⟨3430314384, 1022831220, 4156168800, 550529749, 960964980, 1402936672, 1340761137, 732231052⟩ : Sha256State) := by
  rw [show (104 : Nat) = 103 + 1 from rfl, foldl_flatten_replicate_succ,
    show List.foldl sha256Compress (⟨4266486069, 2367549543, 2813068058, 1418820552, 4105789062, 1731736779, 754741473, 1953217702⟩ : Sha256State) nineBlocksLit = (⟨3430314384, 1022831220, 4156168800, 550529749, 960964980, 1402936672, 1340761137, 732231052⟩ : Sha256State) from by decide]

/-- Blocks 90 to 98 of the padded stream of the reference vector. -/
theorem gpgStep11 :
    ((List.replicate 103 nineBlocksLit).flatten ++ finalBlocksLit).foldl sha256Compress (⟨3430314384, 1022831220, 4156168800, 550529749, 960964980, 1402936672, 1340761137, 732231052⟩ : Sha256State) =
      ((List.replicate 102 nineBlocksLit).flatten ++ finalBlocksLit).foldl sha256Compress (⟨1189081483, 3698599820, 2971445436, 1622979837, 3271009155, 2751429394, 45602741, 3178310786⟩ : Sha256State) := by
  rw [show (103 : Nat) = 102 + 1 from rfl, foldl_flatten_replicate_succ,
    show List.foldl sha256Compress (⟨3430314384, 1022831220, 4156168800, 550529749, 960964980, 1402936672, 1340761137, 732231052⟩ : Sha256State) nineBlocksLit = (⟨1189081483, 3698599820, 2971445436, 1622979837, 3271009155, 2751429394, 45602741, 3178310786⟩ : Sha256State) from by decide]

/-- Blocks 99 to 107 of the padded stream of the reference vector. -/
theorem gpgStep12 :
    ((List.replicate 102 nineBlocksLit).flatten ++ finalBlocksLit).foldl sha256Compress (⟨1189081483, 3698599820, 2971445436, 1622979837, 3271009155, 2751429394, 45602741, 3178310786⟩ : Sha256State) =
      ((List.replicate 101 nineBlocksLit).flatten ++ finalBlocksLit).foldl sha256Compress (⟨3199960164, 2004304676, 4224626126, 2499429103, 560601555, 4216173032, 171034098, 3606508753⟩ : Sha256State) := by
  rw [show (102 : Nat) = 101 + 1 from rfl, foldl_flatten_replicate_succ,
    show List.foldl sha256Compress (⟨1189081483, 3698599820, 2971445436, 1622979837, 3271009155, 2751429394, 45602741, 3178310786⟩ : Sha256State) nineBlocksLit = (⟨3199960164, 2004304676, 4224626126, 2499429103, 560601555, 4216173032, 171034098, 3606508753⟩ : Sha256State) from by decide]

/-- Blocks 108 to 116 of the padded stream of the reference vector. -/
theorem gpgStep13 :
    ((List.replicate 101 nineBlocksLit).flatten ++ finalBlocksLit).foldl sha256Compress (⟨3199960164, 2004304676, 4224626126, 2499429103, 560601555, 4216173032, 171034098, 3606508753⟩ : Sha256State) =
      ((List.replicate 100 nineBlocksLit).flatten ++ finalBlocksLit).foldl sha256Compress (⟨1092567853, 428001078, 2876708308, 2960396223, 4209332852, 3588606683, 451074817, 115964409⟩ : Sha256State) := by
  rw [show (101 : Nat) = 100 + 1 from rfl, foldl_flatten_replicate_succ,
    show List.foldl sha256Compress (⟨3199960164, 2004304676, 4224626126, 2499429103, 560601555, 4216173032, 171034098, 3606508753⟩ : Sha256State) nineBlocksLit = (⟨1092567853, 428001078, 2876708308, 2960396223, 4209332852, 3588606683, 451074817, 115964409⟩ : Sha256State) from by decide]

/-- Blocks 117 to 125 of the padded stream of the reference vector. -/
theorem gpgStep14 :
    ((List.replicate 100 nineBlocksLit).flatten ++ finalBlocksLit).foldl sha256Compress (⟨1092567853, 428001078, 2876708308, 2960396223, 4209332852, 3588606683, 451074817, 115964409⟩ : Sha256State) =
      ((List.replicate 99 nineBlocksLit).flatten ++ finalBlocksLit).foldl sha256Compress (⟨1137233531, 2939195631, 221231692, 3674939326, 649902560, 1371277426, 1803020368, 376937273⟩ : Sha256State) := by
  rw [show (100 : Nat) = 99 + 1 from rfl, foldl_flatten_replicate_succ,
    show List.foldl sha256Compress (⟨1092567853, 428001078, 2876708308, 2960396223, 4209332852, 3588606683, 451074817, 115964409⟩ : Sha256State) nineBlocksLit = (⟨1137233531, 2939195631, 221231692, 3674939326, 649902560, 1371277426, 1803020368, 376937273⟩ : Sha256State) from by decide]

/-- Blocks 126 to 134 of the padded stream of the reference vector. -/
theorem gpgStep15 :
    ((List.replicate 99 nineBlocksLit).flatten ++ finalBlocksLit).foldl sha256Compress (⟨1137233531, 2939195631, 221231692, 3674939326, 649902560, 1371277426, 1803020368, 376937273⟩ : Sha256State) =
      ((List.replicate 98 nineBlocksLit).flatten ++ finalBlocksLit).foldl sha256Compress (⟨473951725, 3557077488, 1554009121, 3352032652, 3634802541, 4140958782, 1907344360, 1373224571⟩ : Sha256State) := by
  rw [show (99 : Nat) = 98 + 1 from rfl, foldl_flatten_replicate_succ,
    show List.foldl sha256Compress (⟨1137233531, 2939195631, 221231692, 3674939326, 649902560, 1371277426, 1803020368, 376937273⟩ : Sha256State) nineBlocksLit = (⟨473951725, 3557077488, 1554009121, 3352032652, 3634802541, 4140958782, 1907344360, 1373224571⟩ : Sha256State) from by decide]

/-- Blocks 135 to 143 of the padded stream of the reference vector. -/
theorem gpgStep16 :
    ((List.replicate 98 nineBlocksLit).flatten ++ finalBlocksLit).foldl sha256Compress (⟨473951725, 3557077488, 1554009121, 3352032652, 3634802541, 4140958782, 1907344360, 1373224571⟩ : Sha256State) =
      ((List.replicate 97 nineBlocksLit).flatten ++ finalBlocksLit).foldl sha256Compress (⟨1781247840, 2567956490, 2525488277, 449654734, 1049496050, 2019710059, 182793975, 3539578199⟩ : Sha256State) := by
  rw [show (98 : Nat) = 97 + 1 from rfl, foldl_flatten_replicate_succ,
    show List.foldl sha256Compress (⟨473951725, 3557077488, 1554009121, 3352032652, 3634802541, 4140958782, 1907344360, 1373224571⟩ : Sha256State) nineBlocksLit = (⟨1781247840, 2567956490, 2525488277, 449654734, 1049496050, 2019710059, 182793975, 3539578199⟩ : Sha256State) from by decide]

/-- Blocks 144 to 152 of the padded stream of the reference vector. -/
theorem gpgStep17 :
    ((List.replicate 97 nineBlocksLit).flatten ++ finalBlocksLit).foldl sha256Compress (⟨1781247840, 2567956490, 2525488277, 449654734, 1049496050, 2019710059, 182793975, 3539578199⟩ : Sha256State) =
      ((List.replicate 96 nineBlocksLit).flatten ++ finalBlocksLit).foldl sha256Compress (⟨1611740897, 3189298409, 1835053553, 569998396, 2054201507, 3246472025, 272584195, 1133139550⟩ : Sha256State) := by
  rw [show (97 : Nat) = 96 + 1 from rfl, foldl_flatten_replicate_succ,
    show List.foldl sha256Compress (⟨1781247840, 2567956490, 2525488277, 449654734, 1049496050, 2019710059, 182793975, 3539578199⟩ : Sha256State) nineBlocksLit = (⟨1611740897, 3189298409, 1835053553, 569998396, 2054201507, 3246472025, 272584195, 1133139550⟩ : Sha256State) from by decide]

/-- Blocks 153 to 161 of the padded stream of the reference vector. -/
theorem gpgStep18 :
    ((List.replicate 96 nineBlocksLit).flatten ++ finalBlocksLit).foldl sha256Compress (⟨1611740897, 3189298409, 1835053553, 569998396, 2054201507, 3246472025, 272584195, 1133139550⟩ : Sha256State) =
      ((List.replicate 95 nineBlocksLit).flatten ++ finalBlocksLit).foldl sha256Compress (⟨136380376, 3281154419, 1762236827, 1917357885, 1918978267, 1152587439, 1481279535, 1866324250⟩ : Sha256State) := by
  rw [show (96 : Nat) = 95 + 1 from rfl, foldl_flatten_replicate_succ,
    show List.foldl sha256Compress (⟨1611740897, 3189298409, 1835053553, 569998396, 2054201507, 3246472025, 272584195, 1133139550⟩ : Sha256State) nineBlocksLit = (⟨136380376, 3281154419, 1762236827, 1917357885, 1918978267, 1152587439, 1481279535, 1866324250⟩ : Sha256State) from by decide]

/-- Blocks 162 to 170 of the padded stream of the reference vector. -/
theorem gpgStep19 :
    ((List.replicate 95 nineBlocksLit).flatten ++ finalBlocksLit).foldl sha256Compress (⟨136380376, 3281154419, 1762236827, 1917357885, 1918978267, 1152587439, 1481279535, 1866324250⟩ : Sha256State) =
      ((List.replicate 94 nineBlocksLit).flatten ++ finalBlocksLit).foldl sha256Compress (⟨2322207701, 2554406536, 3472533563, 2739850498, 611244908, 1117912257, 2721122635, 2301734174⟩ : Sha256State) := by
  rw [show (95 : Nat) = 94 + 1 from rfl, foldl_flatten_replicate_succ,
    show List.foldl sha256Compress (⟨136380376, 3281154419, 1762236827, 1917357885, 1918978267, 1152587439, 1481279535, 1866324250⟩ : Sha256State) nineBlocksLit = (⟨2322207701, 2554406536, 3472533563, 2739850498, 611244908, 1117912257, 2721122635, 2301734174⟩ : Sha256State) from by decide]

/-- Blocks 171 to 179 of the padded stream of the reference vector. -/
theorem gpgStep20 :
    ((List.replicate 94 nineBlocksLit).flatten ++ finalBlocksLit).foldl sha256Compress (⟨2322207701, 2554406536, 3472533563, 2739850498, 611244908, 1117912257, 2721122635, 2301734174⟩ : Sha256State) =
      ((List.replicate 93 nineBlocksLit).flatten ++ finalBlocksLit).foldl sha256Compress (⟨995910812, 2990223270, 3131359222, 4050233454, 3700009338, 2317772494, 3136013592, 1241086096⟩ : Sha256State) := by
  rw [show (94 : Nat) = 93 + 1 from rfl, foldl_flatten_replicate_succ,
    show List.foldl sha256Compress (⟨2322207701, 2554406536, 3472533563, 2739850498, 611244908, 1117912257, 2721122635, 2301734174⟩ : Sha256State) nineBlocksLit = (⟨995910812, 2990223270, 3131359222, 4050233454, 3700009338, 2317772494, 3136013592, 1241086096⟩ : Sha256State) from by decide]

/-- Blocks 180 to 188 of the padded stream of the reference vector. -/
theorem gpgStep21 :
    ((List.replicate 93 nineBlocksLit).flatten ++ finalBlocksLit).foldl sha256Compress (⟨995910812, 2990223270, 3131359222, 4050233454, 3700009338, 2317772494, 3136013592, 1241086096⟩ : Sha256State) =
      ((List.replicate 92 nineBlocksLit).flatten ++ finalBlocksLit).foldl sha256Compress (⟨2647267870, 3922532762, 58289103, 4057357900, 1762410206, 3351649187, 3134293743, 1800735664⟩ : Sha256State) := by
  rw [show (93 : Nat) = 92 + 1 from rfl, foldl_flatten_replicate_succ,
    show List.foldl sha256Compress (⟨995910812, 2990223270, 3131359222, 4050233454, 3700009338, 2317772494, 3136013592, 1241086096⟩ : Sha256State) nineBlocksLit = (⟨2647267870, 3922532762, 58289103, 4057357900, 1762410206, 3351649187, 3134293743, 1800735664⟩ : Sha256State) from by decide]

/-- Blocks 189 to 197 of the padded stream of the reference vector. -/
theorem gpgStep22 :
    ((List.replicate 92 nineBlocksLit).flatten ++ finalBlocksLit).foldl sha256Compress (⟨2647267870, 3922532762, 58289103, 4057357900, 1762410206, 3351649187, 3134293743, 1800735664⟩ : Sha256State) =
      ((List.replicate 91 nineBlocksLit).flatten ++ finalBlocksLit).foldl sha256Compress (⟨4273766294, 1906988505, 2017516083, 198272941, 1961837191, 812873670, 4080786085, 573317832⟩ : Sha256State) := by
  rw [show (92 : Nat) = 91 + 1 from rfl, foldl_flatten_replicate_succ,
    show List.foldl sha256Compress (⟨2647267870, 3922532762, 58289103, 4057357900, 1762410206, 3351649187, 3134293743, 1800735664⟩ : Sha256State) nineBlocksLit = (⟨4273766294, 1906988505, 2017516083, 198272941, 1961837191, 812873670, 4080786085, 573317832⟩ : Sha256State) from by decide]

/-- Blocks 198 to 206 of the padded stream of the reference vector. -/
theorem gpgStep23 :
    ((List.replicate 91 nineBlocksLit).flatten ++ finalBlocksLit).foldl sha256Compress (⟨4273766294, 1906988505, 2017516083, 198272941, 1961837191, 812873670, 4080786085, 573317832⟩ : Sha256State) =
      ((List.replicate 90 nineBlocksLit).flatten ++ finalBlocksLit).foldl sha256Compress (⟨2737792518, 4287299476, 3122878753, 1518704254, 4074803697, 3627275432, 3538817646, 4240470672⟩ : Sha256State) := by
  rw [show (91 : Nat) = 90 + 1 from rfl, foldl_flatten_replicate_succ,
    show List.foldl sha256Compress (⟨4273766294, 1906988505, 2017516083, 198272941, 1961837191, 812873670, 4080786085, 573317832⟩ : Sha256State) nineBlocksLit = (⟨2737792518, 4287299476, 3122878753, 1518704254, 4074803697, 3627275432, 3538817646, 4240470672⟩ : Sha256State) from by decide]

/-- Blocks 207 to 215 of the padded stream of the reference vector. -/
theorem gpgStep24 :
    ((List.replicate 90 nineBlocksLit).flatten ++ finalBlocksLit).foldl sha256Compress (⟨2737792518, 4287299476, 3122878753, 1518704254, 4074803697, 3627275432, 3538817646, 4240470672⟩ : Sha256State) =
      ((List.replicate 89 nineBlocksLit).flatten ++ finalBlocksLit).foldl sha256Compress (⟨1235630219, 4213589666, 1706551711, 3292417132, 2544987059, 2860296474, 656977437, 2197951554⟩ : Sha256State) := by
  rw [show (90 : Nat) = 89 + 1 from rfl, foldl_flatten_replicate_succ,
    show List.foldl sha256Compress (⟨2737792518, 4287299476, 3122878753, 1518704254, 4074803697, 3627275432, 3538817646, 4240470672⟩ : Sha256State) nineBlocksLit = (⟨1235630219, 4213589666, 1706551711, 3292417132, 2544987059, 2860296474, 656977437, 2197951554⟩ : Sha256State) from by decide]

/-- Blocks 216 to 224 of the padded stream of the reference vector. -/
theorem gpgStep25 :
    ((List.replicate 89 nineBlocksLit).flatten ++ finalBlocksLit).foldl sha256Compress (⟨1235630219, 4213589666, 1706551711, 3292417132, 2544987059, 2860296474, 656977437, 2197951554⟩ : Sha256State) =
      ((List.replicate 88 nineBlocksLit).flatten ++ finalBlocksLit).foldl sha256Compress (⟨4178539302, 3960049887, 3626706999, 2481118549, 3432447068, 3690965465, 3524279960, 455959235⟩ : Sha256State) := by
  rw [show (89 : Nat) = 88 + 1 from rfl, foldl_flatten_replicate_succ,
    show List.foldl sha256Compress (⟨1235630219, 4213589666, 1706551711, 3292417132, 2544987059, 2860296474, 656977437, 2197951554⟩ : Sha256State) nineBlocksLit = (⟨4178539302, 3960049887, 3626706999, 2481118549, 3432447068, 3690965465, 3524279960, 455959235⟩ : Sha256State) from by decide]

/-- Blocks 225 to 233 of the padded stream of the reference vector. -/
theorem gpgStep26 :
    ((List.replicate 88 nineBlocksLit).flatten ++ finalBlocksLit).foldl sha256Compress (⟨4178539302, 3960049887, 3626706999, 2481118549, 3432447068, 3690965465, 3524279960, 455959235⟩ : Sha256State) =
      ((List.replicate 87 nineBlocksLit).flatten ++ finalBlocksLit).foldl sha256Compress (⟨1960955850, 1119744085, 3768997593, 72920054, 4228412259, 1011871641, 3980833486, 167293555⟩ : Sha256State) := by
  rw [show (88 : Nat) = 87 + 1 from rfl, foldl_flatten_replicate_succ,
    show List.foldl sha256Compress (⟨4178539302, 3960049887, 3626706999, 2481118549, 3432447068, 3690965465, 3524279960, 455959235⟩ : Sha256State) nineBlocksLit = (⟨1960955850, 1119744085, 3768997593, 72920054, 4228412259, 1011871641, 3980833486, 167293555⟩ : Sha256State) from by decide]

/-- Blocks 234 to 242 of the padded stream of the reference vector. -/
theorem gpgStep27 :
    ((List.replicate 87 nineBlocksLit).flatten ++ finalBlocksLit).foldl sha256Compress (⟨1960955850, 1119744085, 3768997593, 72920054, 4228412259, 1011871641, 3980833486, 167293555⟩ : Sha256State) =
      ((List.replicate 86 nineBlocksLit).flatten ++ finalBlocksLit).foldl sha256Compress (⟨337923550, 2677833271, 2249687757, 3018260289, 3634350545, 513468052, 3626087450, 2738610273⟩ : Sha256State) := by
  rw [show (87 : Nat) = 86 + 1 from rfl, foldl_flatten_replicate_succ,
    show List.foldl sha256Compress (⟨1960955850, 1119744085, 3768997593, 72920054, 4228412259, 1011871641, 3980833486, 167293555⟩ : Sha256State) nineBlocksLit = (⟨337923550, 2677833271, 2249687757, 3018260289, 3634350545, 513468052, 3626087450, 2738610273⟩ : Sha256State) from by decide]

/-- Blocks 243 to 251 of the padded stream of the reference vector. -/
theorem gpgStep28 :
    ((List.replicate 86 nineBlocksLit).flatten ++ finalBlocksLit).foldl sha256Compress (⟨337923550, 2677833271, 2249687757, 3018260289, 3634350545, 513468052, 3626087450, 2738610273⟩ : Sha256State) =
      ((List.replicate 85 nineBlocksLit).flatten ++ finalBlocksLit).foldl sha256Compress (⟨347979657, 3110933906, 2837384385, 3014210059, 2206882768, 649467909, 3807887160, 1116505060⟩ : Sha256State) := by
  rw [show (86 : Nat) = 85 + 1 from rfl, foldl_flatten_replicate_succ,
    show List.foldl sha256Compress (⟨337923550, 2677833271, 2249687757, 3018260289, 3634350545, 513468052, 3626087450, 2738610273⟩ : Sha256State) nineBlocksLit = (⟨347979657, 3110933906, 2837384385, 3014210059, 2206882768, 649467909, 3807887160, 1116505060⟩ : Sha256State) from by decide]

/-- Blocks 252 to 260 of the padded stream of the reference vector. -/
theorem gpgStep29 :
    ((List.replicate 85 nineBlocksLit).flatten ++ finalBlocksLit).foldl sha256Compress (⟨347979657, 3110933906, 2837384385, 3014210059, 2206882768, 649467909, 3807887160, 1116505060⟩ : Sha256State) =
      ((List.replicate 84 nineBlocksLit).flatten ++ finalBlocksLit).foldl sha256Compress (⟨3031422700, 3284184316, 801949992, 1210534384, 81948182, 3094915588, 3042537662, 3847418256⟩ : Sha256State) := by
  rw [show (85 : Nat) = 84 + 1 from rfl, foldl_flatten_replicate_succ,
    show List.foldl sha256Compress (⟨347979657, 3110933906, 2837384385, 3014210059, 2206882768, 649467909, 3807887160, 1116505060⟩ : Sha256State) nineBlocksLit = (⟨3031422700, 3284184316, 801949992, 1210534384, 81948182, 3094915588, 3042537662, 3847418256⟩ : Sha256State) from by decide]

/-- Blocks 261 to 269 of the padded stream of the reference vector. -/
theorem gpgStep30 :
    ((List.replicate 84 nineBlocksLit).flatten ++ finalBlocksLit).foldl sha256Compress (⟨3031422700, 3284184316, 801949992, 1210534384, 81948182, 3094915588, 3042537662, 3847418256⟩ : Sha256State) =
      ((List.replicate 83 nineBlocksLit).flatten ++ finalBlocksLit).foldl sha256Compress (⟨880098502, 2498264296, 3260470977, 279793536, 609614460, 995655414, 444453372, 354066187⟩ : Sha256State) := by
  rw [show (84 : Nat) = 83 + 1 from rfl, foldl_flatten_replicate_succ,
    show List.foldl sha256Compress (⟨3031422700, 3284184316, 801949992, 1210534384, 81948182, 3094915588, 3042537662, 3847418256⟩ : Sha256State) nineBlocksLit = (⟨880098502, 2498264296, 3260470977, 279793536, 609614460, 995655414, 444453372, 354066187⟩ : Sha256State) from by decide]

/-- Blocks 270 to 278 of the padded stream of the reference vector. -/
theorem gpgStep31 :
    ((List.replicate 83 nineBlocksLit).flatten ++ finalBlocksLit).foldl sha256Compress (⟨880098502, 2498264296, 3260470977, 279793536, 609614460, 995655414, 444453372, 354066187⟩ : Sha256State) =
      ((List.replicate 82 nineBlocksLit).flatten ++ finalBlocksLit).foldl sha256Compress (⟨1969882360, 3159291264, 4228688084, 2011213816, 2121385906, 2743569740, 661859570, 1998626864⟩ : Sha256State) := by
  rw [show (83 : Nat) = 82 + 1 from rfl, foldl_flatten_replicate_succ,
    show List.foldl sha256Compress (⟨880098502, 2498264296, 3260470977, 279793536, 609614460, 995655414, 444453372, 354066187⟩ : Sha256State) nineBlocksLit = (⟨1969882360, 3159291264, 4228688084, 2011213816, 2121385906, 2743569740, 661859570, 1998626864⟩ : Sha256State) from by decide]

/-- Blocks 279 to 287 of the padded stream of the reference vector. -/
theorem gpgStep32 :
    ((List.replicate 82 nineBlocksLit).flatten ++ finalBlocksLit).foldl sha256Compress (⟨1969882360, 3159291264, 4228688084, 2011213816, 2121385906, 2743569740, 661859570, 1998626864⟩ : Sha256State) =
      ((List.replicate 81 nineBlocksLit).flatten ++ finalBlocksLit).foldl sha256Compress (⟨2938331876, 3973583701, 431564334, 824276934, 1973215255, 913344585, 544050460, 2728015186⟩ : Sha256State) := by
  rw [show (82 : Nat) = 81 + 1 from rfl, foldl_flatten_replicate_succ,
    show List.foldl sha256Compress (⟨1969882360, 3159291264, 4228688084, 2011213816, 2121385906, 2743569740, 661859570, 1998626864⟩ : Sha256State) nineBlocksLit = (⟨2938331876, 3973583701, 431564334, 824276934, 1973215255, 913344585, 544050460, 2728015186⟩ : Sha256State) from by decide]

/-- Blocks 288 to 296 of the padded stream of the reference vector. -/
theorem gpgStep33 :
    ((List.replicate 81 nineBlocksLit).flatten ++ finalBlocksLit).foldl sha256Compress (⟨2938331876, 3973583701, 431564334, 824276934, 1973215255, 913344585, 544050460, 2728015186⟩ : Sha256State) =
      ((List.replicate 80 nineBlocksLit).flatten ++ finalBlocksLit).foldl sha256Compress (⟨2987167527, 4136420919, 1637458434, 3385671328, 1372105431, 2120232071, 311592564, 431522984⟩ : Sha256State) := by
  rw [show (81 : Nat) = 80 + 1 from rfl, foldl_flatten_replicate_succ,
    show List.foldl sha256Compress (⟨2938331876, 3973583701, 431564334, 824276934, 1973215255, 913344585, 544050460, 2728015186⟩ : Sha256State) nineBlocksLit = (⟨2987167527, 4136420919, 1637458434, 3385671328, 1372105431, 2120232071, 311592564, 431522984⟩ : Sha256State) from by decide]

/-- Blocks 297 to 305 of the padded stream of the reference vector. -/
theorem gpgStep34 :
    ((List.replicate 80 nineBlocksLit).flatten ++ finalBlocksLit).foldl sha256Compress (⟨2987167527, 4136420919, 1637458434, 3385671328, 1372105431, 2120232071, 311592564, 431522984⟩ : Sha256State) =
      ((List.replicate 79 nineBlocksLit).flatten ++ finalBlocksLit).foldl sha256Compress (⟨2743860863, 1072784862, 1604445128, 2732006467, 2278288403, 1155485598, 3628426581, 3500678751⟩ : Sha256State) := by
  rw [show (80 : Nat) = 79 + 1 from rfl, foldl_flatten_replicate_succ,
    show List.foldl sha256Compress (⟨2987167527, 4136420919, 1637458434, 3385671328, 1372105431, 2120232071, 311592564, 431522984⟩ : Sha256State) nineBlocksLit = (⟨2743860863, 1072784862, 1604445128, 2732006467, 2278288403, 1155485598, 3628426581, 3500678751⟩ : Sha256State) from by decide]

/-- Blocks 306 to 314 of the padded stream of the reference vector. -/
theorem gpgStep35 :
    ((List.replicate 79 nineBlocksLit).flatten ++ finalBlocksLit).foldl sha256Compress (⟨2743860863, 1072784862, 1604445128, 2732006467, 2278288403, 1155485598, 3628426581, 3500678751⟩ : Sha256State) =
      ((List.replicate 78 nineBlocksLit).flatten ++ finalBlocksLit).foldl sha256Compress (⟨3368651080, 3511315517, 3033914555, 3921571817, 2480980743, 3671720422, 1981227027, 3386910320⟩ : Sha256State) := by
  rw [show (79 : Nat) = 78 + 1 from rfl, foldl_flatten_replicate_succ,
    show List.foldl sha256Compress (⟨2743860863, 1072784862, 1604445128, 2732006467, 2278288403, 1155485598, 3628426581, 3500678751⟩ : Sha256State) nineBlocksLit = (⟨3368651080, 3511315517, 3033914555, 3921571817, 2480980743, 3671720422, 1981227027, 3386910320⟩ : Sha256State) from by decide]

/-- Blocks 315 to 323 of the padded stream of the reference vector. -/
theorem gpgStep36 :
    ((List.replicate 78 nineBlocksLit).flatten ++ finalBlocksLit).foldl sha256Compress (⟨3368651080, 3511315517, 3033914555, 3921571817, 2480980743, 3671720422, 1981227027, 3386910320⟩ : Sha256State) =
      ((List.replicate 77 nineBlocksLit).flatten ++ finalBlocksLit).foldl sha256Compress (⟨1218506756, 3122141666, 774708630, 1282560588, 370379213, 342341703, 4099677813, 2812752046⟩ : Sha256State) := by
  rw [show (78 : Nat) = 77 + 1 from rfl, foldl_flatten_replicate_succ,
    show List.foldl sha256Compress (⟨3368651080, 3511315517, 3033914555, 3921571817, 2480980743, 3671720422, 1981227027, 3386910320⟩ : Sha256State) nineBlocksLit = (⟨1218506756, 3122141666, 774708630, 1282560588, 370379213, 342341703, 4099677813, 2812752046⟩ : Sha256State) from by decide]

/-- Blocks 324 to 332 of the padded stream of the reference vector. -/
theorem gpgStep37 :
    ((List.replicate 77 nineBlocksLit).flatten ++ finalBlocksLit).foldl sha256Compress (⟨1218506756, 3122141666, 774708630, 1282560588, 370379213, 342341703, 4099677813, 2812752046⟩ : Sha256State) =
      ((List.replicate 76 nineBlocksLit).flatten ++ finalBlocksLit).foldl sha256Compress (⟨3709692599, 4085672092, 2073424057, 2320769017, 2167845633, 2128607937, 122871892, 2858010053⟩ : Sha256State) := by
  rw [show (77 : Nat) = 76 + 1 from rfl, foldl_flatten_replicate_succ,
    show List.foldl sha256Compress (⟨1218506756, 3122141666, 774708630, 1282560588, 370379213, 342341703, 4099677813, 2812752046⟩ : Sha256State) nineBlocksLit = (⟨3709692599, 4085672092, 2073424057, 2320769017, 2167845633, 2128607937, 122871892, 2858010053⟩ : Sha256State) from by decide]

/-- Blocks 333 to 341 of the padded stream of the reference vector. -/
theorem gpgStep38 :
    ((List.replicate 76 nineBlocksLit).flatten ++ finalBlocksLit).foldl sha256Compress (⟨3709692599, 4085672092, 2073424057, 2320769017, 2167845633, 2128607937, 122871892, 2858010053⟩ : Sha256State) =
      ((List.replicate 75 nineBlocksLit).flatten ++ finalBlocksLit).foldl sha256Compress (⟨312790354, 499376786, 698598536, 1527470896, 938278738, 2258071468, 3550569684, 2983333420⟩ : Sha256State) := by
  rw [show (76 : Nat) = 75 + 1 from rfl, foldl_flatten_replicate_succ,
    show List.foldl sha256Compress (⟨3709692599, 4085672092, 2073424057, 2320769017, 2167845633, 2128607937, 122871892, 2858010053⟩ : Sha256State) nineBlocksLit = (⟨312790354, 499376786, 698598536, 1527470896, 938278738, 2258071468, 3550569684, 2983333420⟩ : Sha256State) from by decide]

/-- Blocks 342 to 350 of the padded stream of the reference vector. -/
theorem gpgStep39 :
    ((List.replicate 75 nineBlocksLit).flatten ++ finalBlocksLit).foldl sha256Compress (⟨312790354, 499376786, 698598536, 1527470896, 938278738, 2258071468, 3550569684, 2983333420⟩ : Sha256State) =
      ((List.replicate 74 nineBlocksLit).flatten ++ finalBlocksLit).foldl sha256Compress (⟨1657534302, 1323397740, 1303460056, 1227184222, 1320773700, 1647655511, 3166019252, 2519840411⟩ : Sha256State) := by
  rw [show (75 : Nat) = 74 + 1 from rfl, foldl_flatten_replicate_succ,
    show List.foldl sha256Compress (⟨312790354, 499376786, 698598536, 1527470896, 938278738, 2258071468, 3550569684, 2983333420⟩ : Sha256State) nineBlocksLit = (⟨1657534302, 1323397740, 1303460056, 1227184222, 1320773700, 1647655511, 3166019252, 2519840411⟩ : Sha256State) from by decide]

/-- Blocks 351 to 359 of the padded stream of the reference vector. -/
theorem gpgStep40 :
    ((List.replicate 74 nineBlocksLit).flatten ++ finalBlocksLit).foldl sha256Compress (⟨1657534302, 1323397740, 1303460056, 1227184222, 1320773700, 1647655511, 3166019252, 2519840411⟩ : Sha256State) =
      ((List.replicate 73 nineBlocksLit).flatten ++ finalBlocksLit).foldl sha256Compress (⟨1339301941, 1541950283, 1236563504, 409274742, 3054944436, 85955298, 2137550100, 1964846462⟩ : Sha256State) := by
  rw [show (74 : Nat) = 73 + 1 from rfl, foldl_flatten_replicate_succ,
    show List.foldl sha256Compress (⟨1657534302, 1323397740, 1303460056, 1227184222, 1320773700, 1647655511, 3166019252, 2519840411⟩ : Sha256State) nineBlocksLit = (⟨1339301941, 1541950283, 1236563504, 409274742, 3054944436, 85955298, 2137550100, 1964846462⟩ : Sha256State) from by decide]

/-- Blocks 360 to 368 of the padded stream of the reference vector. -/
theorem gpgStep41 :
    ((List.replicate 73 nineBlocksLit).flatten ++ finalBlocksLit).foldl sha256Compress (⟨1339301941, 1541950283, 1236563504, 409274742, 3054944436, 85955298, 2137550100, 1964846462⟩ : Sha256State) =
      ((List.replicate 72 nineBlocksLit).flatten ++ finalBlocksLit).foldl sha256Compress (⟨3916912457, 1503327032, 58276929, 3634530577, 799613196, 1619478395, 2532008063, 2951667239⟩ : Sha256State) := by
  rw [show (73 : Nat) = 72 + 1 from rfl, foldl_flatten_replicate_succ,
    show List.foldl sha256Compress (⟨1339301941, 1541950283, 1236563504, 409274742, 3054944436, 85955298, 2137550100, 1964846462⟩ : Sha256State) nineBlocksLit = (⟨3916912457, 1503327032, 58276929, 3634530577, 799613196, 1619478395, 2532008063, 2951667239⟩ : Sha256State) from by decide]

/-- Blocks 369 to 377 of the padded stream of the reference vector. -/
theorem gpgStep42 :
    ((List.replicate 72 nineBlocksLit).flatten ++ finalBlocksLit).foldl sha256Compress (⟨3916912457, 1503327032, 58276929, 3634530577, 799613196, 1619478395, 2532008063, 2951667239⟩ : Sha256State) =
      ((List.replicate 71 nineBlocksLit).flatten ++ finalBlocksLit).foldl sha256Compress (⟨136762965, 3827635207, 177858222, 1512816348, 609369163, 1277998425, 46792168, 1593831092⟩ : Sha256State) := by
  rw [show (72 : Nat) = 71 + 1 from rfl, foldl_flatten_replicate_succ,
    show List.foldl sha256Compress (⟨3916912457, 1503327032, 58276929, 3634530577, 799613196, 1619478395, 2532008063, 2951667239⟩ : Sha256State) nineBlocksLit = (⟨136762965, 3827635207, 177858222, 1512816348, 609369163, 1277998425, 46792168, 1593831092⟩ : Sha256State) from by decide]

/-- Blocks 378 to 386 of the padded stream of the reference vector. -/
theorem gpgStep43 :
    ((List.replicate 71 nineBlocksLit).flatten ++ finalBlocksLit).foldl sha256Compress (⟨136762965, 3827635207, 177858222, 1512816348, 609369163, 1277998425, 46792168, 1593831092⟩ : Sha256State) =
      ((List.replicate 70 nineBlocksLit).flatten ++ finalBlocksLit).foldl sha256Compress (⟨769489715, 3806946465, 2848678110, 2116108806, 793499233, 1907864263, 3847397011, 48143683⟩ : Sha256State) := by
  rw [show (71 : Nat) = 70 + 1 from rfl, foldl_flatten_replicate_succ,
    show List.foldl sha256Compress (⟨136762965, 3827635207, 177858222, 1512816348, 609369163, 1277998425, 46792168, 1593831092⟩ : Sha256State) nineBlocksLit = (⟨769489715, 3806946465, 2848678110, 2116108806, 793499233, 1907864263, 3847397011, 48143683⟩ : Sha256State) from by decide]

/-- Blocks 387 to 395 of the padded stream of the reference vector. -/
theorem gpgStep44 :
    ((List.replicate 70 nineBlocksLit).flatten ++ finalBlocksLit).foldl sha256Compress (⟨769489715, 3806946465, 2848678110, 2116108806, 793499233, 1907864263, 3847397011, 48143683⟩ : Sha256State) =
      ((List.replicate 69 nineBlocksLit).flatten ++ finalBlocksLit).foldl sha256Compress (⟨1179781017, 1838915363, 1508752066, 1750421823, 1966669846, 2844417876, 2125087802, 1755512805⟩ : Sha256State) := by
  rw [show (70 : Nat) = 69 + 1 from rfl, foldl_flatten_replicate_succ,
    show List.foldl sha256Compress (⟨769489715, 3806946465, 2848678110, 2116108806, 793499233, 1907864263, 3847397011, 48143683⟩ : Sha256State) nineBlocksLit = (⟨1179781017, 1838915363, 1508752066, 1750421823, 1966669846, 2844417876, 2125087802, 1755512805⟩ : Sha256State) from by decide]

/-- Blocks 396 to 404 of the padded stream of the reference vector. -/
theorem gpgStep45 :
    ((List.replicate 69 nineBlocksLit).flatten ++ finalBlocksLit).foldl sha256Compress (⟨1179781017, 1838915363, 1508752066, 1750421823, 1966669846, 2844417876, 2125087802, 1755512805⟩ : Sha256State) =
      ((List.replicate 68 nineBlocksLit).flatten ++ finalBlocksLit).foldl sha256Compress (⟨2647557305, 1227239728, 2619577668, 3210560976, 763362599, 3164739448, 3286520365, 3876227292⟩ : Sha256State) := by
  rw [show (69 : Nat) = 68 + 1 from rfl, foldl_flatten_replicate_succ,
    show List.foldl sha256Compress (⟨1179781017, 1838915363, 1508752066, 1750421823, 1966669846, 2844417876, 2125087802, 1755512805⟩ : Sha256State) nineBlocksLit = (⟨2647557305, 1227239728, 2619577668, 3210560976, 763362599, 3164739448, 3286520365, 3876227292⟩ : Sha256State) from by decide]

/-- Blocks 405 to 413 of the padded stream of the reference vector. -/
theorem gpgStep46 :
    ((List.replicate 68 nineBlocksLit).flatten ++ finalBlocksLit).foldl sha256Compress (⟨2647557305, 1227239728, 2619577668, 3210560976, 763362599, 3164739448, 3286520365, 3876227292⟩ : Sha256State) =
      ((List.replicate 67 nineBlocksLit).flatten ++ finalBlocksLit).foldl sha256Compress (⟨2664035738, 2187494333, 2456224638, 2472400879, 421022957, 1757106506, 2017671993, 5169021⟩ : Sha256State) := by
  rw [show (68 : Nat) = 67 + 1 from rfl, foldl_flatten_replicate_succ,
    show List.foldl sha256Compress (⟨2647557305, 1227239728, 2619577668, 3210560976, 763362599, 3164739448, 3286520365, 3876227292⟩ : Sha256State) nineBlocksLit = (⟨2664035738, 2187494333, 2456224638, 2472400879, 421022957, 1757106506, 2017671993, 5169021⟩ : Sha256State) from by decide]

/-- Blocks 414 to 422 of the padded stream of the reference vector. -/
theorem gpgStep47 :
    ((List.replicate 67 nineBlocksLit).flatten ++ finalBlocksLit).foldl sha256Compress (⟨2664035738, 2187494333, 2456224638, 2472400879, 421022957, 1757106506, 2017671993, 5169021⟩ : Sha256State) =
      ((List.replicate 66 nineBlocksLit).flatten ++ finalBlocksLit).foldl sha256Compress (⟨1903989708, 1220014599, 1298978740, 3758577165, 1368331379, 927678930, 2877237707, 244774957⟩ : Sha256State) := by
  rw [show (67 : Nat) = 66 + 1 from rfl, foldl_flatten_replicate_succ,
    show List.foldl sha256Compress (⟨2664035738, 2187494333, 2456224638, 2472400879, 421022957, 1757106506, 2017671993, 5169021⟩ : Sha256State) nineBlocksLit = (⟨1903989708, 1220014599, 1298978740, 3758577165, 1368331379, 927678930, 2877237707, 244774957⟩ : Sha256State) from by decide]

/-- Blocks 423 to 431 of the padded stream of the reference vector. -/
theorem gpgStep48 :
    ((List.replicate 66 nineBlocksLit).flatten ++ finalBlocksLit).foldl sha256Compress (⟨1903989708, 1220014599, 1298978740, 3758577165, 1368331379, 927678930, 2877237707, 244774957⟩ : Sha256State) =
      ((List.replicate 65 nineBlocksLit).flatten ++ finalBlocksLit).foldl sha256Compress (⟨105326988, 3017346288, 2549866714, 1434768910, 2927989303, 1865438978, 2175166555, 2015079427⟩ : Sha256State) := by
  rw [show (66 : Nat) = 65 + 1 from rfl, foldl_flatten_replicate_succ,
    show List.foldl sha256Compress (⟨1903989708, 1220014599, 1298978740, 3758577165, 1368331379, 927678930, 2877237707, 244774957⟩ : Sha256State) nineBlocksLit = (⟨105326988, 3017346288, 2549866714, 1434768910, 2927989303, 1865438978, 2175166555, 2015079427⟩ : Sha256State) from by decide]

/-- Blocks 432 to 440 of the padded stream of the reference vector. -/
theorem gpgStep49 :
    ((List.replicate 65 nineBlocksLit).flatten ++ finalBlocksLit).foldl sha256Compress (⟨105326988, 3017346288, 2549866714, 1434768910, 2927989303, 1865438978, 2175166555, 2015079427⟩ : Sha256State) =
      ((List.replicate 64 nineBlocksLit).flatten ++ finalBlocksLit).foldl sha256Compress (⟨176005352, 2546957466, 591292737, 1301262271, 719126862, 3923410249, 1663113255, 2130918357⟩ : Sha256State) := by
  rw [show (65 : Nat) = 64 + 1 from rfl, foldl_flatten_replicate_succ,
    show List.foldl sha256Compress (⟨105326988, 3017346288, 2549866714, 1434768910, 2927989303, 1865438978, 2175166555, 2015079427⟩ : Sha256State) nineBlocksLit = (⟨176005352, 2546957466, 591292737, 1301262271, 719126862, 3923410249, 1663113255, 2130918357⟩ : Sha256State) from by decide]

/-- Blocks 441 to 449 of the padded stream of the reference vector. -/
theorem gpgStep50 :
    ((List.replicate 64 nineBlocksLit).flatten ++ finalBlocksLit).foldl sha256Compress (⟨176005352, 2546957466, 591292737, 1301262271, 719126862, 3923410249, 1663113255, 2130918357⟩ : Sha256State) =
      ((List.replicate 63 nineBlocksLit).flatten ++ finalBlocksLit).foldl sha256Compress (⟨3609903426, 430298988, 2052212137, 61585436, 2094345675, 1308406338, 2614214955, 4157466540⟩ : Sha256State) := by
  rw [show (64 : Nat) = 63 + 1 from rfl, foldl_flatten_replicate_succ,
    show List.foldl sha256Compress (⟨176005352, 2546957466, 591292737, 1301262271, 719126862, 3923410249, 1663113255, 2130918357⟩ : Sha256State) nineBlocksLit = (⟨3609903426, 430298988, 2052212137, 61585436, 2094345675, 1308406338, 2614214955, 4157466540⟩ : Sha256State) from by decide]

/-- Blocks 450 to 458 of the padded stream of the reference vector. -/
theorem gpgStep51 :
    ((List.replicate 63 nineBlocksLit).flatten ++ finalBlocksLit).foldl sha256Compress (⟨3609903426, 430298988, 2052212137, 61585436, 2094345675, 1308406338, 2614214955, 4157466540⟩ : Sha256State) =
      ((List.replicate 62 nineBlocksLit).flatten ++ finalBlocksLit).foldl sha256Compress (⟨505778769, 600552220, 1754443984, 3966491406, 2942238848, 2435599529, 468920699, 3968524720⟩ : Sha256State) := by
  rw [show (63 : Nat) = 62 + 1 from rfl, foldl_flatten_replicate_succ,
    show List.foldl sha256Compress (⟨3609903426, 430298988, 2052212137, 61585436, 2094345675, 1308406338, 2614214955, 4157466540⟩ : Sha256State) nineBlocksLit = (⟨505778769, 600552220, 1754443984, 3966491406, 2942238848, 2435599529, 468920699, 3968524720⟩ : Sha256State) from by decide]

/-- Blocks 459 to 467 of the padded stream of the reference vector. -/
theorem gpgStep52 :
    ((List.replicate 62 nineBlocksLit).flatten ++ finalBlocksLit).foldl sha256Compress (⟨505778769, 600552220, 1754443984, 3966491406, 2942238848, 2435599529, 468920699, 3968524720⟩ : Sha256State) =
      ((List.replicate 61 nineBlocksLit).flatten ++ finalBlocksLit).foldl sha256Compress (⟨1626071202, 2357315295, 3473856679, 2360876337, 452807978, 4038158184, 2390344327, 1567041422⟩ : Sha256State) := by
  rw [show (62 : Nat) = 61 + 1 from rfl, foldl_flatten_replicate_succ,
    show List.foldl sha256Compress (⟨505778769, 600552220, 1754443984, 3966491406, 2942238848, 2435599529, 468920699, 3968524720⟩ : Sha256State) nineBlocksLit = (⟨1626071202, 2357315295, 3473856679, 2360876337, 452807978, 4038158184, 2390344327, 1567041422⟩ : Sha256State) from by decide]

/-- Blocks 468 to 476 of the padded stream of the reference vector. -/
theorem gpgStep53 :
    ((List.replicate 61 nineBlocksLit).flatten ++ finalBlocksLit).foldl sha256Compress (⟨1626071202, 2357315295, 3473856679, 2360876337, 452807978, 4038158184, 2390344327, 1567041422⟩ : Sha256State) =
      ((List.replicate 60 nineBlocksLit).flatten ++ finalBlocksLit).foldl sha256Compress (⟨275615628, 86222610, 3021687634, 1329368848, 1181326808, 3117820942, 1139749103, 3787783777⟩ : Sha256State) := by
  rw [show (61 : Nat) = 60 + 1 from rfl, foldl_flatten_replicate_succ,
    show List.foldl sha256Compress (⟨1626071202, 2357315295, 3473856679, 2360876337, 452807978, 4038158184, 2390344327, 1567041422⟩ : Sha256State) nineBlocksLit = (⟨275615628, 86222610, 3021687634, 1329368848, 1181326808, 3117820942, 1139749103, 3787783777⟩ : Sha256State) from by decide]

/-- Blocks 477 to 485 of the padded stream of the reference vector. -/
theorem gpgStep54 :
    ((List.replicate 60 nineBlocksLit).flatten ++ finalBlocksLit).foldl sha256Compress (⟨275615628, 86222610, 3021687634, 1329368848, 1181326808, 3117820942, 1139749103, 3787783777⟩ : Sha256State) =
      ((List.replicate 59 nineBlocksLit).flatten ++ finalBlocksLit).foldl sha256Compress (⟨3013323128, 3142277987, 2685719846, 3590738252, 3019906403, 4130782626, 3370220319, 1446410399⟩ : Sha256State) := by
  rw [show (60 : Nat) = 59 + 1 from rfl, foldl_flatten_replicate_succ,
    show List.foldl sha256Compress (⟨275615628, 86222610, 3021687634, 1329368848, 1181326808, 3117820942, 1139749103, 3787783777⟩ : Sha256State) nineBlocksLit = (⟨3013323128, 3142277987, 2685719846, 3590738252, 3019906403, 4130782626, 3370220319, 1446410399⟩ : Sha256State) from by decide]

/-- Blocks 486 to 494 of the padded stream of the reference vector. -/
theorem gpgStep55 :
    ((List.replicate 59 nineBlocksLit).flatten ++ finalBlocksLit).foldl sha256Compress (⟨3013323128, 3142277987, 2685719846, 3590738252, 3019906403, 4130782626, 3370220319, 1446410399⟩ : Sha256State) =
      ((List.replicate 58 nineBlocksLit).flatten ++ finalBlocksLit).foldl sha256Compress (⟨1730784940, 3646670430, 1342543924, 610017467, 4283945662, 4283439976, 3612512414, 1474750460⟩ : Sha256State) := by
  rw [show (59 : Nat) = 58 + 1 from rfl, foldl_flatten_replicate_succ,
    show List.foldl sha256Compress (⟨3013323128, 3142277987, 2685719846, 3590738252, 3019906403, 4130782626, 3370220319, 1446410399⟩ : Sha256State) nineBlocksLit = (⟨1730784940, 3646670430, 1342543924, 610017467, 4283945662, 4283439976, 3612512414, 1474750460⟩ : Sha256State) from by decide]

/-- Blocks 495 to 503 of the padded stream of the reference vector. -/
theorem gpgStep56 :
    ((List.replicate 58 nineBlocksLit).flatten ++ finalBlocksLit).foldl sha256Compress (⟨1730784940, 3646670430, 1342543924, 610017467, 4283945662, 4283439976, 3612512414, 1474750460⟩ : Sha256State) =
      ((List.replicate 57 nineBlocksLit).flatten ++ finalBlocksLit).foldl sha256Compress (⟨3068491496, 495549265, 2892668541, 3616534369, 1992281209, 3762354337, 3980202010, 2733645055⟩ : Sha256State) := by
  rw [show (58 : Nat) = 57 + 1 from rfl, foldl_flatten_replicate_succ,
    show List.foldl sha256Compress (⟨1730784940, 3646670430, 1342543924, 610017467, 4283945662, 4283439976, 3612512414, 1474750460⟩ : Sha256State) nineBlocksLit = (⟨3068491496, 495549265, 2892668541, 3616534369, 1992281209, 3762354337, 3980202010, 2733645055⟩ : Sha256State) from by decide]

/-- Blocks 504 to 512 of the padded stream of the reference vector. -/
theorem gpgStep57 :
    ((List.replicate 57 nineBlocksLit).flatten ++ finalBlocksLit).foldl sha256Compress (⟨3068491496, 495549265, 2892668541, 3616534369, 1992281209, 3762354337, 3980202010, 2733645055⟩ : Sha256State) =
      ((List.replicate 56 nineBlocksLit).flatten ++ finalBlocksLit).foldl sha256Compress (⟨3449428887, 2689698893, 1143521703, 530337854, 879622747, 3985649491, 2596333076, 1571828038⟩ : Sha256State) := by
  rw [show (57 : Nat) = 56 + 1 from rfl, foldl_flatten_replicate_succ,
    show List.foldl sha256Compress (⟨3068491496, 495549265, 2892668541, 3616534369, 1992281209, 3762354337, 3980202010, 2733645055⟩ : Sha256State) nineBlocksLit = (⟨3449428887, 2689698893, 1143521703, 530337854, 879622747, 3985649491, 2596333076, 1571828038⟩ : Sha256State) from by decide]

/-- Blocks 513 to 521 of the padded stream of the reference vector. -/
theorem gpgStep58 :
    ((List.replicate 56 nineBlocksLit).flatten ++ finalBlocksLit).foldl sha256Compress (⟨3449428887, 2689698893, 1143521703, 530337854, 879622747, 3985649491, 2596333076, 1571828038⟩ : Sha256State) =
      ((List.replicate 55 nineBlocksLit).flatten ++ finalBlocksLit).foldl sha256Compress (⟨897854983, 3584967327, 2907007301, 188178444, 1331400216, 353854747, 16476468, 270974767⟩ : Sha256State) := by
  rw [show (56 : Nat) = 55 + 1 from rfl, foldl_flatten_replicate_succ,
    show List.foldl sha256Compress (⟨3449428887, 2689698893, 1143521703, 530337854, 879622747, 3985649491, 2596333076, 1571828038⟩ : Sha256State) nineBlocksLit = (⟨897854983, 3584967327, 2907007301, 188178444, 1331400216, 353854747, 16476468, 270974767⟩ : Sha256State) from by decide]

/-- Blocks 522 to 530 of the padded stream of the reference vector. -/
theorem gpgStep59 :
    ((List.replicate 55 nineBlocksLit).flatten ++ finalBlocksLit).foldl sha256Compress (⟨897854983, 3584967327, 2907007301, 188178444, 1331400216, 353854747, 16476468, 270974767⟩ : Sha256State) =
      ((List.replicate 54 nineBlocksLit).flatten ++ finalBlocksLit).foldl sha256Compress (⟨570398492, 1929215391, 1030667145, 3399914683, 3125348800, 696743500, 76398703, 2436800778⟩ : Sha256State) := by
  rw [show (55 : Nat) = 54 + 1 from rfl, foldl_flatten_replicate_succ,
    show List.foldl sha256Compress (⟨897854983, 3584967327, 2907007301, 188178444, 1331400216, 353854747, 16476468, 270974767⟩ : Sha256State) nineBlocksLit = (⟨570398492, 1929215391, 1030667145, 3399914683, 3125348800, 696743500, 76398703, 2436800778⟩ : Sha256State) from by decide]

/-- Blocks 531 to 539 of the padded stream of the reference vector. -/
theorem gpgStep60 :
    ((List.replicate 54 nineBlocksLit).flatten ++ finalBlocksLit).foldl sha256Compress (⟨570398492, 1929215391, 1030667145, 3399914683, 3125348800, 696743500, 76398703, 2436800778⟩ : Sha256State) =
      ((List.replicate 53 nineBlocksLit).flatten ++ finalBlocksLit).foldl sha256Compress (⟨1121609587, 2013846812, 565361891, 1907498993, 1215654282, 1717190263, 1734804208, 2627365092⟩ : Sha256State) := by
  rw [show (54 : Nat) = 53 + 1 from rfl, foldl_flatten_replicate_succ,
    show List.foldl sha256Compress (⟨570398492, 1929215391, 1030667145, 3399914683, 3125348800, 696743500, 76398703, 2436800778⟩ : Sha256State) nineBlocksLit = (⟨1121609587, 2013846812, 565361891, 1907498993, 1215654282, 1717190263, 1734804208, 2627365092⟩ : Sha256State) from by decide]

/-- Blocks 540 to 548 of the padded stream of the reference vector. -/
theorem gpgStep61 :
    ((List.replicate 53 nineBlocksLit).flatten ++ finalBlocksLit).foldl sha256Compress (⟨1121609587, 2013846812, 565361891, 1907498993, 1215654282, 1717190263, 1734804208, 2627365092⟩ : Sha256State) =
      ((List.replicate 52 nineBlocksLit).flatten ++ finalBlocksLit).foldl sha256Compress (⟨249261396, 1493469510, 2658280710, 2881202552, 3207567901, 1266072047, 4077039390, 3596717196⟩ : Sha256State) := by
  rw [show (53 : Nat) = 52 + 1 from rfl, foldl_flatten_replicate_succ,
    show List.foldl sha256Compress (⟨1121609587, 2013846812, 565361891, 1907498993, 1215654282, 1717190263, 1734804208, 2627365092⟩ : Sha256State) nineBlocksLit = (⟨249261396, 1493469510, 2658280710, 2881202552, 3207567901, 1266072047, 4077039390, 3596717196⟩ : Sha256State) from by decide]

/-- Blocks 549 to 557 of the padded stream of the reference vector. -/
theorem gpgStep62 :
    ((List.replicate 52 nineBlocksLit).flatten ++ finalBlocksLit).foldl sha256Compress (⟨249261396, 1493469510, 2658280710, 2881202552, 3207567901, 1266072047, 4077039390, 3596717196⟩ : Sha256State) =
      ((List.replicate 51 nineBlocksLit).flatten ++ finalBlocksLit).foldl sha256Compress (⟨3091895715, 3410918885, 1809088551, 1395189212, 3311486152, 1967594280, 211711646, 3174234948⟩ : Sha256State) := by
  rw [show (52 : Nat) = 51 + 1 from rfl, foldl_flatten_replicate_succ,
    show List.foldl sha256Compress (⟨249261396, 1493469510, 2658280710, 2881202552, 3207567901, 1266072047, 4077039390, 3596717196⟩ : Sha256State) nineBlocksLit = (⟨3091895715, 3410918885, 1809088551, 1395189212, 3311486152, 1967594280, 211711646, 3174234948⟩ : Sha256State) from by decide]

/-- Blocks 558 to 566 of the padded stream of the reference vector. -/
theorem gpgStep63 :
    ((List.replicate 51 nineBlocksLit).flatten ++ finalBlocksLit).foldl sha256Compress (⟨3091895715, 3410918885, 1809088551, 1395189212, 3311486152, 1967594280, 211711646, 3174234948⟩ : Sha256State) =
      ((List.replicate 50 nineBlocksLit).flatten ++ finalBlocksLit).foldl sha256Compress (⟨365200654, 4090181567, 3835585729, 1470769272, 4218098617, 918762537, 1849509770, 3105359080⟩ : Sha256State) := by
  rw [show (51 : Nat) = 50 + 1 from rfl, foldl_flatten_replicate_succ,
    show List.foldl sha256Compress (⟨3091895715, 3410918885, 1809088551, 1395189212, 3311486152, 1967594280, 211711646, 3174234948⟩ : Sha256State) nineBlocksLit = (⟨365200654, 4090181567, 3835585729, 1470769272, 4218098617, 918762537, 1849509770, 3105359080⟩ : Sha256State) from by decide]

/-- Blocks 567 to 575 of the padded stream of the reference vector. -/
theorem gpgStep64 :
    ((List.replicate 50 nineBlocksLit).flatten ++ finalBlocksLit).foldl sha256Compress (⟨365200654, 4090181567, 3835585729, 1470769272, 4218098617, 918762537, 1849509770, 3105359080⟩ : Sha256State) =
      ((List.replicate 49 nineBlocksLit).flatten ++ finalBlocksLit).foldl sha256Compress (⟨2804938268, 1975009974, 1621707971, 949119099, 220230558, 2943928235, 163837339, 1508161774⟩ : Sha256State) := by
  rw [show (50 : Nat) = 49 + 1 from rfl, foldl_flatten_replicate_succ,
    show List.foldl sha256Compress (⟨365200654, 4090181567, 3835585729, 1470769272, 4218098617, 918762537, 1849509770, 3105359080⟩ : Sha256State) nineBlocksLit = (⟨2804938268, 1975009974, 1621707971, 949119099, 220230558, 2943928235, 163837339, 1508161774⟩ : Sha256State) from by decide]

/-- Blocks 576 to 584 of the padded stream of the reference vector. -/
theorem gpgStep65 :
    ((List.replicate 49 nineBlocksLit).flatten ++ finalBlocksLit).foldl sha256Compress (⟨2804938268, 1975009974, 1621707971, 949119099, 220230558, 2943928235, 163837339, 1508161774⟩ : Sha256State) =
      ((List.replicate 48 nineBlocksLit).flatten ++ finalBlocksLit).foldl sha256Compress (⟨852767828, 2936325808, 1717506431, 3828711795, 1351022616, 1237324824, 2033724330, 2018660462⟩ : Sha256State) := by
  rw [show (49 : Nat) = 48 + 1 from rfl, foldl_flatten_replicate_succ,
    show List.foldl sha256Compress (⟨2804938268, 1975009974, 1621707971, 949119099, 220230558, 2943928235, 163837339, 1508161774⟩ : Sha256State) nineBlocksLit = (⟨852767828, 2936325808, 1717506431, 3828711795, 1351022616, 1237324824, 2033724330, 2018660462⟩ : Sha256State) from by decide]

/-- Blocks 585 to 593 of the padded stream of the reference vector. -/
theorem gpgStep66 :
    ((List.replicate 48 nineBlocksLit).flatten ++ finalBlocksLit).foldl sha256Compress (⟨852767828, 2936325808, 1717506431, 3828711795, 1351022616, 1237324824, 2033724330, 2018660462⟩ : Sha256State) =
      ((List.replicate 47 nineBlocksLit).flatten ++ finalBlocksLit).foldl sha256Compress (⟨393287868, 646033100, 1228385099, 2326552387, 154044914, 3041418317, 451125811, 1802083280⟩ : Sha256State) := by
  rw [show (48 : Nat) = 47 + 1 from rfl, foldl_flatten_replicate_succ,
    show List.foldl sha256Compress (⟨852767828, 2936325808, 1717506431, 3828711795, 1351022616, 1237324824, 2033724330, 2018660462⟩ : Sha256State) nineBlocksLit = (⟨393287868, 646033100, 1228385099, 2326552387, 154044914, 3041418317, 451125811, 1802083280⟩ : Sha256State) from by decide]

/-- Blocks 594 to 602 of the padded stream of the reference vector. -/
theorem gpgStep67 :
    ((List.replicate 47 nineBlocksLit).flatten ++ finalBlocksLit).foldl sha256Compress (⟨393287868, 646033100, 1228385099, 2326552387, 154044914, 3041418317, 451125811, 1802083280⟩ : Sha256State) =
      ((List.replicate 46 nineBlocksLit).flatten ++ finalBlocksLit).foldl sha256Compress (⟨1220775181, 3044648473, 1063998562, 1674950067, 691576657, 4232911944, 67708227, 751444586⟩ : Sha256State) := by
  rw [show (47 : Nat) = 46 + 1 from rfl, foldl_flatten_replicate_succ,
    show List.foldl sha256Compress (⟨393287868, 646033100, 1228385099, 2326552387, 154044914, 3041418317, 451125811, 1802083280⟩ : Sha256State) nineBlocksLit = (⟨1220775181, 3044648473, 1063998562, 1674950067, 691576657, 4232911944, 67708227, 751444586⟩ : Sha256State) from by decide]

/-- Blocks 603 to 611 of the padded stream of the reference vector. -/
theorem gpgStep68 :
    ((List.replicate 46 nineBlocksLit).flatten ++ finalBlocksLit).foldl sha256Compress (⟨1220775181, 3044648473, 1063998562, 1674950067, 691576657, 4232911944, 67708227, 751444586⟩ : Sha256State) =
      ((List.replicate 45 nineBlocksLit).flatten ++ finalBlocksLit).foldl sha256Compress (⟨3784392520, 3066784608, 3393107081, 1513772523, 672402390, 1680638160, 1626123357, 1690144781⟩ : Sha256State) := by
  rw [show (46 : Nat) = 45 + 1 from rfl, foldl_flatten_replicate_succ,
    show List.foldl sha256Compress (⟨1220775181, 3044648473, 1063998562, 1674950067, 691576657, 4232911944, 67708227, 751444586⟩ : Sha256State) nineBlocksLit = (⟨3784392520, 3066784608, 3393107081, 1513772523, 672402390, 1680638160, 1626123357, 1690144781⟩ : Sha256State) from by decide]

/-- Blocks 612 to 620 of the padded stream of the reference vector. -/
theorem gpgStep69 :
    ((List.replicate 45 nineBlocksLit).flatten ++ finalBlocksLit).foldl sha256Compress (⟨3784392520, 3066784608, 3393107081, 1513772523, 672402390, 1680638160, 1626123357, 1690144781⟩ : Sha256State) =
      ((List.replicate 44 nineBlocksLit).flatten ++ finalBlocksLit).foldl sha256Compress (⟨934982592, 1293925360, 2154673182, 2849139416, 3422366111, 1623197987, 230831712, 2520221063⟩ : Sha256State) := by
  rw [show (45 : Nat) = 44 + 1 from rfl, foldl_flatten_replicate_succ,
    show List.foldl sha256Compress (⟨3784392520, 3066784608, 3393107081, 1513772523, 672402390, 1680638160, 1626123357, 1690144781⟩ : Sha256State) nineBlocksLit = (⟨934982592, 1293925360, 2154673182, 2849139416, 3422366111, 1623197987, 230831712, 2520221063⟩ : Sha256State) from by decide]

/-- Blocks 621 to 629 of the padded stream of the reference vector. -/
theorem gpgStep70 :
    ((List.replicate 44 nineBlocksLit).flatten ++ finalBlocksLit).foldl sha256Compress (⟨934982592, 1293925360, 2154673182, 2849139416, 3422366111, 1623197987, 230831712, 2520221063⟩ : Sha256State) =
      ((List.replicate 43 nineBlocksLit).flatten ++ finalBlocksLit).foldl sha256Compress (⟨2953941667, 1422856254, 2791015477, 4133974037, 3480444196, 4080934768, 3670350924, 1566336765⟩ : Sha256State) := by
  rw [show (44 : Nat) = 43 + 1 from rfl, foldl_flatten_replicate_succ,
    show List.foldl sha256Compress (⟨934982592, 1293925360, 2154673182, 2849139416, 3422366111, 1623197987, 230831712, 2520221063⟩ : Sha256State) nineBlocksLit = (⟨2953941667, 1422856254, 2791015477, 4133974037, 3480444196, 4080934768, 3670350924, 1566336765⟩ : Sha256State) from by decide]

/-- Blocks 630 to 638 of the padded stream of the reference vector. -/
theorem gpgStep71 :
    ((List.replicate 43 nineBlocksLit).flatten ++ finalBlocksLit).foldl sha256Compress (⟨2953941667, 1422856254, 2791015477, 4133974037, 3480444196, 4080934768, 3670350924, 1566336765⟩ : Sha256State) =
      ((List.replicate 42 nineBlocksLit).flatten ++ finalBlocksLit).foldl sha256Compress (⟨2894083460, 1683157336, 3822393006, 570184662, 3521524608, 196211646, 284596445, 2655719877⟩ : Sha256State) := by
  rw [show (43 : Nat) = 42 + 1 from rfl, foldl_flatten_replicate_succ,
    show List.foldl sha256Compress (⟨2953941667, 1422856254, 2791015477, 4133974037, 3480444196, 4080934768, 3670350924, 1566336765⟩ : Sha256State) nineBlocksLit = (⟨2894083460, 1683157336, 3822393006, 570184662, 3521524608, 196211646, 284596445, 2655719877⟩ : Sha256State) from by decide]

/-- Blocks 639 to 647 of the padded stream of the reference vector. -/
theorem gpgStep72 :
    ((List.replicate 42 nineBlocksLit).flatten ++ finalBlocksLit).foldl sha256Compress (⟨2894083460, 1683157336, 3822393006, 570184662, 3521524608, 196211646, 284596445, 2655719877⟩ : Sha256State) =
      ((List.replicate 41 nineBlocksLit).flatten ++ finalBlocksLit).foldl sha256Compress (⟨3682321059, 3111479884, 1818760592, 2437383684, 998707906, 3098074645, 2249870257, 1536718274⟩ : Sha256State) := by
  rw [show (42 : Nat) = 41 + 1 from rfl, foldl_flatten_replicate_succ,
    show List.foldl sha256Compress (⟨2894083460, 1683157336, 3822393006, 570184662, 3521524608, 196211646, 284596445, 2655719877⟩ : Sha256State) nineBlocksLit = (⟨3682321059, 3111479884, 1818760592, 2437383684, 998707906, 3098074645, 2249870257, 1536718274⟩ : Sha256State) from by decide]

/-- Blocks 648 to 656 of the padded stream of the reference vector. -/
theorem gpgStep73 :
    ((List.replicate 41 nineBlocksLit).flatten ++ finalBlocksLit).foldl sha256Compress (⟨3682321059, 3111479884, 1818760592, 2437383684, 998707906, 3098074645, 2249870257, 1536718274⟩ : Sha256State) =
      ((List.replicate 40 nineBlocksLit).flatten ++ finalBlocksLit).foldl sha256Compress (⟨2601411082, 14701260, 2235574367, 1621169968, 1371632938, 966786419, 3571761959, 287806773⟩ : Sha256State) := by
  rw [show (41 : Nat) = 40 + 1 from rfl, foldl_flatten_replicate_succ,
    show List.foldl sha256Compress (⟨3682321059, 3111479884, 1818760592, 2437383684, 998707906, 3098074645, 2249870257, 1536718274⟩ : Sha256State) nineBlocksLit = (⟨2601411082, 14701260, 2235574367, 1621169968, 1371632938, 966786419, 3571761959, 287806773⟩ : Sha256State) from by decide]

/-- Blocks 657 to 665 of the padded stream of the reference vector. -/
theorem gpgStep74 :
    ((List.replicate 40 nineBlocksLit).flatten ++ finalBlocksLit).foldl sha256Compress (⟨2601411082, 14701260, 2235574367, 1621169968, 1371632938, 966786419, 3571761959, 287806773⟩ : Sha256State) =
      ((List.replicate 39 nineBlocksLit).flatten ++ finalBlocksLit).foldl sha256Compress (⟨2132104710, 3422667829, 4293322184, 3217828335, 1082667548, 824691035, 3862204869, 2266253329⟩ : Sha256State) := by
  rw [show (40 : Nat) = 39 + 1 from rfl, foldl_flatten_replicate_succ,
    show List.foldl sha256Compress (⟨2601411082, 14701260, 2235574367, 1621169968, 1371632938, 966786419, 3571761959, 287806773⟩ : Sha256State) nineBlocksLit = (⟨2132104710, 3422667829, 4293322184, 3217828335, 1082667548, 824691035, 3862204869, 2266253329⟩ : Sha256State) from by decide]

/-- Blocks 666 to 674 of the padded stream of the reference vector. -/
theorem gpgStep75 :
    ((List.replicate 39 nineBlocksLit).flatten ++ finalBlocksLit).foldl sha256Compress (⟨2132104710, 3422667829, 4293322184, 3217828335, 1082667548, 824691035, 3862204869, 2266253329⟩ : Sha256State) =
      ((List.replicate 38 nineBlocksLit).flatten ++ finalBlocksLit).foldl sha256Compress (⟨1391202917, 3502361602, 1569412876, 3244147797, 1018048830, 1989462359, 1161947072, 1669540522⟩ : Sha256State) := by
  rw [show (39 : Nat) = 38 + 1 from rfl, foldl_flatten_replicate_succ,
    show List.foldl sha256Compress (⟨2132104710, 3422667829, 4293322184, 3217828335, 1082667548, 824691035, 3862204869, 2266253329⟩ : Sha256State) nineBlocksLit = (⟨1391202917, 3502361602, 1569412876, 3244147797, 1018048830, 1989462359, 1161947072, 1669540522⟩ : Sha256State) from by decide]

/-- Blocks 675 to 683 of the padded stream of the reference vector. -/
theorem gpgStep76 :
    ((List.replicate 38 nineBlocksLit).flatten ++ finalBlocksLit).foldl sha256Compress (⟨1391202917, 3502361602, 1569412876, 3244147797, 1018048830, 1989462359, 1161947072, 1669540522⟩ : Sha256State) =
      ((List.replicate 37 nineBlocksLit).flatten ++ finalBlocksLit).foldl sha256Compress (⟨3138423033, 964089486, 1165697829, 3357816872, 406623315, 3436442539, 2511211220, 1249116963⟩ : Sha256State) := by
  rw [show (38 : Nat) = 37 + 1 from rfl, foldl_flatten_replicate_succ,
    show List.foldl sha256Compress (⟨1391202917, 3502361602, 1569412876, 3244147797, 1018048830, 1989462359, 1161947072, 1669540522⟩ : Sha256State) nineBlocksLit = (⟨3138423033, 964089486, 1165697829, 3357816872, 406623315, 3436442539, 2511211220, 1249116963⟩ : Sha256State) from by decide]

/-- Blocks 684 to 692 of the padded stream of the reference vector. -/
theorem gpgStep77 :
    ((List.replicate 37 nineBlocksLit).flatten ++ finalBlocksLit).foldl sha256Compress (⟨3138423033, 964089486, 1165697829, 3357816872, 406623315, 3436442539, 2511211220, 1249116963⟩ : Sha256State) =
      ((List.replicate 36 nineBlocksLit).flatten ++ finalBlocksLit).foldl sha256Compress (⟨2843126681, 1240351564, 3170407087, 2024618478, 1511795967, 4131776067, 714443510, 784429872⟩ : Sha256State) := by
  rw [show (37 : Nat) = 36 + 1 from rfl, foldl_flatten_replicate_succ,
    show List.foldl sha256Compress (⟨3138423033, 964089486, 1165697829, 3357816872, 406623315, 3436442539, 2511211220, 1249116963⟩ : Sha256State) nineBlocksLit = (⟨2843126681, 1240351564, 3170407087, 2024618478, 1511795967, 4131776067, 714443510, 784429872⟩ : Sha256State) from by decide]

/-- Blocks 693 to 701 of the padded stream of the reference vector. -/
theorem gpgStep78 :
    ((List.replicate 36 nineBlocksLit).flatten ++ finalBlocksLit).foldl sha256Compress (⟨2843126681, 1240351564, 3170407087, 2024618478, 1511795967, 4131776067, 714443510, 784429872⟩ : Sha256State) =
      ((List.replicate 35 nineBlocksLit).flatten ++ finalBlocksLit).foldl sha256Compress (⟨649223068, 2031305330, 4272664516, 1957541004, 3789900313, 521215876, 169201922, 3101178079⟩ : Sha256State) := by
  rw [show (36 : Nat) = 35 + 1 from rfl, foldl_flatten_replicate_succ,
    show List.foldl sha256Compress (⟨2843126681, 1240351564, 3170407087, 2024618478, 1511795967, 4131776067, 714443510, 784429872⟩ : Sha256State) nineBlocksLit = (⟨649223068, 2031305330, 4272664516, 1957541004, 3789900313, 521215876, 169201922, 3101178079⟩ : Sha256State) from by decide]

/-- Blocks 702 to 710 of the padded stream of the reference vector. -/
theorem gpgStep79 :
    ((List.replicate 35 nineBlocksLit).flatten ++ finalBlocksLit).foldl sha256Compress (⟨649223068, 2031305330, 4272664516, 1957541004, 3789900313, 521215876, 169201922, 3101178079⟩ : Sha256State) =
      ((List.replicate 34 nineBlocksLit).flatten ++ finalBlocksLit).foldl sha256Compress (⟨2606590130, 3146355158, 4182278151, 1122363431, 47653567, 3305823513, 1371078588, 2730654620⟩ : Sha256State) := by
  rw [show (35 : Nat) = 34 + 1 from rfl, foldl_flatten_replicate_succ,
    show List.foldl sha256Compress (⟨649223068, 2031305330, 4272664516, 1957541004, 3789900313, 521215876, 169201922, 3101178079⟩ : Sha256State) nineBlocksLit = (⟨2606590130, 3146355158, 4182278151, 1122363431, 47653567, 3305823513, 1371078588, 2730654620⟩ : Sha256State) from by decide]

/-- Blocks 711 to 719 of the padded stream of the reference vector. -/
theorem gpgStep80 :
    ((List.replicate 34 nineBlocksLit).flatten ++ finalBlocksLit).foldl sha256Compress (⟨2606590130, 3146355158, 4182278151, 1122363431, 47653567, 3305823513, 1371078588, 2730654620⟩ : Sha256State) =
      ((List.replicate 33 nineBlocksLit).flatten ++ finalBlocksLit).foldl sha256Compress (⟨1765275463, 3575875637, 2091138820, 3326996522, 420536652, 3856471465, 1916985156, 4064100285⟩ : Sha256State) := by
  rw [show (34 : Nat) = 33 + 1 from rfl, foldl_flatten_replicate_succ,
    show List.foldl sha256Compress (⟨2606590130, 3146355158, 4182278151, 1122363431, 47653567, 3305823513, 1371078588, 2730654620⟩ : Sha256State) nineBlocksLit = (⟨1765275463, 3575875637, 2091138820, 3326996522, 420536652, 3856471465, 1916985156, 4064100285⟩ : Sha256State) from by decide]

/-- Blocks 720 to 728 of the padded stream of the reference vector. -/
theorem gpgStep81 :
    ((List.replicate 33 nineBlocksLit).flatten ++ finalBlocksLit).foldl sha256Compress (⟨1765275463, 3575875637, 2091138820, 3326996522, 420536652, 3856471465, 1916985156, 4064100285⟩ : Sha256State) =
      ((List.replicate 32 nineBlocksLit).flatten ++ finalBlocksLit).foldl sha256Compress (⟨124994218, 4167855959, 2771336619, 1311456212, 1844621702, 1615669477, 904447860, 552202678⟩ : Sha256State) := by
  rw [show (33 : Nat) = 32 + 1 from rfl, foldl_flatten_replicate_succ,
    show List.foldl sha256Compress (⟨1765275463, 3575875637, 2091138820, 3326996522, 420536652, 3856471465, 1916985156, 4064100285⟩ : Sha256State) nineBlocksLit = (⟨124994218, 4167855959, 2771336619, 1311456212, 1844621702, 1615669477, 904447860, 552202678⟩ : Sha256State) from by decide]

/-- Blocks 729 to 737 of the padded stream of the reference vector. -/
theorem gpgStep82 :
    ((List.replicate 32 nineBlocksLit).flatten ++ finalBlocksLit).foldl sha256Compress (⟨124994218, 4167855959, 2771336619, 1311456212, 1844621702, 1615669477, 904447860, 552202678⟩ : Sha256State) =
      ((List.replicate 31 nineBlocksLit).flatten ++ finalBlocksLit).foldl sha256Compress (⟨3792942862, 2415989771, 2794061580, 77494274, 3530335479, 3296425382, 1654562742, 2702964656⟩ : Sha256State) := by
  rw [show (32 : Nat) = 31 + 1 from rfl, foldl_flatten_replicate_succ,
    show List.foldl sha256Compress (⟨124994218, 4167855959, 2771336619, 1311456212, 1844621702, 1615669477, 904447860, 552202678⟩ : Sha256State) nineBlocksLit = (⟨3792942862, 2415989771, 2794061580, 77494274, 3530335479, 3296425382, 1654562742, 2702964656⟩ : Sha256State) from by decide]

/-- Blocks 738 to 746 of the padded stream of the reference vector. -/
theorem gpgStep83 :
    ((List.replicate 31 nineBlocksLit).flatten ++ finalBlocksLit).foldl sha256Compress (⟨3792942862, 2415989771, 2794061580, 77494274, 3530335479, 3296425382, 1654562742, 2702964656⟩ : Sha256State) =
      ((List.replicate 30 nineBlocksLit).flatten ++ finalBlocksLit).foldl sha256Compress (⟨3533115956, 3229137586, 1622034751, 3250455307, 2307462593, 2052867625, 3537758293, 4161325180⟩ : Sha256State) := by
  rw [show (31 : Nat) = 30 + 1 from rfl, foldl_flatten_replicate_succ,
    show List.foldl sha256Compress (⟨3792942862, 2415989771, 2794061580, 77494274, 3530335479, 3296425382, 1654562742, 2702964656⟩ : Sha256State) nineBlocksLit = (⟨3533115956, 3229137586, 1622034751, 3250455307, 2307462593, 2052867625, 3537758293, 4161325180⟩ : Sha256State) from by decide]

/-- Blocks 747 to 755 of the padded stream of the reference vector. -/
theorem gpgStep84 :
    ((List.replicate 30 nineBlocksLit).flatten ++ finalBlocksLit).foldl sha256Compress (⟨3533115956, 3229137586, 1622034751, 3250455307, 2307462593, 2052867625, 3537758293, 4161325180⟩ : Sha256State) =
      ((List.replicate 29 nineBlocksLit).flatten ++ finalBlocksLit).foldl sha256Compress (⟨2336795738, 3065290230, 785247239, 1486641913, 3610628857, 1010722223, 4043987915, 3014843529⟩ : Sha256State) := by
  rw [show (30 : Nat) = 29 + 1 from rfl, foldl_flatten_replicate_succ,
    show List.foldl sha256Compress (⟨3533115956, 3229137586, 1622034751, 3250455307, 2307462593, 2052867625, 3537758293, 4161325180⟩ : Sha256State) nineBlocksLit = (⟨2336795738, 3065290230, 785247239, 1486641913, 3610628857, 1010722223, 4043987915, 3014843529⟩ : Sha256State) from by decide]

/-- Blocks 756 to 764 of the padded stream of the reference vector. -/
theorem gpgStep85 :
    ((List.replicate 29 nineBlocksLit).flatten ++ finalBlocksLit).foldl sha256Compress (⟨2336795738, 3065290230, 785247239, 1486641913, 3610628857, 1010722223, 4043987915, 3014843529⟩ : Sha256State) =
      ((List.replicate 28 nineBlocksLit).flatten ++ finalBlocksLit).foldl sha256Compress (⟨809822958, 4102854553, 2522053369, 1997125162, 2102910619, 1985739264, 1858022127, 450983304⟩ : Sha256State) := by
  rw [show (29 : Nat) = 28 + 1 from rfl, foldl_flatten_replicate_succ,
    show List.foldl sha256Compress (⟨2336795738, 3065290230, 785247239, 1486641913, 3610628857, 1010722223, 4043987915, 3014843529⟩ : Sha256State) nineBlocksLit = (⟨809822958, 4102854553, 2522053369, 1997125162, 2102910619, 1985739264, 1858022127, 450983304⟩ : Sha256State) from by decide]

/-- Blocks 765 to 773 of the padded stream of the reference vector. -/
theorem gpgStep86 :
    ((List.replicate 28 nineBlocksLit).flatten ++ finalBlocksLit).foldl sha256Compress (⟨809822958, 4102854553, 2522053369, 1997125162, 2102910619, 1985739264, 1858022127, 450983304⟩ : Sha256State) =
      ((List.replicate 27 nineBlocksLit).flatten ++ finalBlocksLit).foldl sha256Compress (⟨3971232005, 3068118975, 2477246460, 2149800443, 2757580208, 3791675381, 1245987367, 976475401⟩ : Sha256State) := by
  rw [show (28 : Nat) = 27 + 1 from rfl, foldl_flatten_replicate_succ,
    show List.foldl sha256Compress (⟨809822958, 4102854553, 2522053369, 1997125162, 2102910619, 1985739264, 1858022127, 450983304⟩ : Sha256State) nineBlocksLit = (⟨3971232005, 3068118975, 2477246460, 2149800443, 2757580208, 3791675381, 1245987367, 976475401⟩ : Sha256State) from by decide]

/-- Blocks 774 to 782 of the padded stream of the reference vector. -/
theorem gpgStep87 :
    ((List.replicate 27 nineBlocksLit).flatten ++ finalBlocksLit).foldl sha256Compress (⟨3971232005, 3068118975, 2477246460, 2149800443, 2757580208, 3791675381, 1245987367, 976475401⟩ : Sha256State) =
      ((List.replicate 26 nineBlocksLit).flatten ++ finalBlocksLit).foldl sha256Compress (⟨284828449, 704862355, 1261566741, 349843867, 811044234, 3769186795, 1199952090, 4256799435⟩ : Sha256State) := by
  rw [show (27 : Nat) = 26 + 1 from rfl, foldl_flatten_replicate_succ,
    show List.foldl sha256Compress (⟨3971232005, 3068118975, 2477246460, 2149800443, 2757580208, 3791675381, 1245987367, 976475401⟩ : Sha256State) nineBlocksLit = (⟨284828449, 704862355, 1261566741, 349843867, 811044234, 3769186795, 1199952090, 4256799435⟩ : Sha256State) from by decide]

/-- Blocks 783 to 791 of the padded stream of the reference vector. -/
theorem gpgStep88 :
    ((List.replicate 26 nineBlocksLit).flatten ++ finalBlocksLit).foldl sha256Compress (⟨284828449, 704862355, 1261566741, 349843867, 811044234, 3769186795, 1199952090, 4256799435⟩ : Sha256State) =
      ((List.replicate 25 nineBlocksLit).flatten ++ finalBlocksLit).foldl sha256Compress (⟨2859824991, 3366398605, 3120140184, 400187121, 470696483, 2925182016, 709741831, 2406572043⟩ : Sha256State) := by
  rw [show (26 : Nat) = 25 + 1 from rfl, foldl_flatten_replicate_succ,
    show List.foldl sha256Compress (⟨284828449, 704862355, 1261566741, 349843867, 811044234, 3769186795, 1199952090, 4256799435⟩ : Sha256State) nineBlocksLit = (⟨2859824991, 3366398605, 3120140184, 400187121, 470696483, 2925182016, 709741831, 2406572043⟩ : Sha256State) from by decide]

/-- Blocks 792 to 800 of the padded stream of the reference vector. -/
theorem gpgStep89 :
    ((List.replicate 25 nineBlocksLit).flatten ++ finalBlocksLit).foldl sha256Compress (⟨2859824991, 3366398605, 3120140184, 400187121, 470696483, 2925182016, 709741831, 2406572043⟩ : Sha256State) =
      ((List.replicate 24 nineBlocksLit).flatten ++ finalBlocksLit).foldl sha256Compress (⟨1948592048, 630678760, 2989019642, 3495357490, 1951963747, 215626086, 1511326444, 3953456676⟩ : Sha256State) := by
  rw [show (25 : Nat) = 24 + 1 from rfl, foldl_flatten_replicate_succ,
    show List.foldl sha256Compress (⟨2859824991, 3366398605, 3120140184, 400187121, 470696483, 2925182016, 709741831, 2406572043⟩ : Sha256State) nineBlocksLit = (⟨1948592048, 630678760, 2989019642, 3495357490, 1951963747, 215626086, 1511326444, 3953456676⟩ : Sha256State) from by decide]

/-- Blocks 801 to 809 of the padded stream of the reference vector. -/
theorem gpgStep90 :
    ((List.replicate 24 nineBlocksLit).flatten ++ finalBlocksLit).foldl sha256Compress (⟨1948592048, 630678760, 2989019642, 3495357490, 1951963747, 215626086, 1511326444, 3953456676⟩ : Sha256State) =
      ((List.replicate 23 nineBlocksLit).flatten ++ finalBlocksLit).foldl sha256Compress (⟨2315009879, 994252713, 3312910993, 452822334, 3971779707, 1971280545, 2768662911, 3736846735⟩ : Sha256State) := by
  rw [show (24 : Nat) = 23 + 1 from rfl, foldl_flatten_replicate_succ,
    show List.foldl sha256Compress (⟨1948592048, 630678760, 2989019642, 3495357490, 1951963747, 215626086, 1511326444, 3953456676⟩ : Sha256State) nineBlocksLit = (⟨2315009879, 994252713, 3312910993, 452822334, 3971779707, 1971280545, 2768662911, 3736846735⟩ : Sha256State) from by decide]

/-- Blocks 810 to 818 of the padded stream of the reference vector. -/
theorem gpgStep91 :
    ((List.replicate 23 nineBlocksLit).flatten ++ finalBlocksLit).foldl sha256Compress (⟨2315009879, 994252713, 3312910993, 452822334, 3971779707, 1971280545, 2768662911, 3736846735⟩ : Sha256State) =
      ((List.replicate 22 nineBlocksLit).flatten ++ finalBlocksLit).foldl sha256Compress (⟨3573179524, 1950732878, 3478114962, 2697023863, 2886314998, 4129080353, 397708905, 965105237⟩ : Sha256State) := by
  rw [show (23 : Nat) = 22 + 1 from rfl, foldl_flatten_replicate_succ,
    show List.foldl sha256Compress (⟨2315009879, 994252713, 3312910993, 452822334, 3971779707, 1971280545, 2768662911, 3736846735⟩ : Sha256State) nineBlocksLit = (⟨3573179524, 1950732878, 3478114962, 2697023863, 2886314998, 4129080353, 397708905, 965105237⟩ : Sha256State) from by decide]

/-- Blocks 819 to 827 of the padded stream of the reference vector. -/
theorem gpgStep92 :
    ((List.replicate 22 nineBlocksLit).flatten ++ finalBlocksLit).foldl sha256Compress (⟨3573179524, 1950732878, 3478114962, 2697023863, 2886314998, 4129080353, 397708905, 965105237⟩ : Sha256State) =
      ((List.replicate 21 nineBlocksLit).flatten ++ finalBlocksLit).foldl sha256Compress (⟨976562852, 54023379, 2130881647, 2872793891, 3128653670, 176737057, 2503124628, 2989293533⟩ : Sha256State) := by
  rw [show (22 : Nat) = 21 + 1 from rfl, foldl_flatten_replicate_succ,
    show List.foldl sha256Compress (⟨3573179524, 1950732878, 3478114962, 2697023863, 2886314998, 4129080353, 397708905, 965105237⟩ : Sha256State) nineBlocksLit = (⟨976562852, 54023379, 2130881647, 2872793891, 3128653670, 176737057, 2503124628, 2989293533⟩ : Sha256State) from by decide]

/-- Blocks 828 to 836 of the padded stream of the reference vector. -/
theorem gpgStep93 :
    ((List.replicate 21 nineBlocksLit).flatten ++ finalBlocksLit).foldl sha256Compress (⟨976562852, 54023379, 2130881647, 2872793891, 3128653670, 176737057, 2503124628, 2989293533⟩ : Sha256State) =
      ((List.replicate 20 nineBlocksLit).flatten ++ finalBlocksLit).foldl sha256Compress (⟨944407268, 2522331834, 2901156897, 2352219452, 1340943194, 2091208890, 3935481982, 2163830541⟩ : Sha256State) := by
  rw [show (21 : Nat) = 20 + 1 from rfl, foldl_flatten_replicate_succ,
    show List.foldl sha256Compress (⟨976562852, 54023379, 2130881647, 2872793891, 3128653670, 176737057, 2503124628, 2989293533⟩ : Sha256State) nineBlocksLit = (⟨944407268, 2522331834, 2901156897, 2352219452, 1340943194, 2091208890, 3935481982, 2163830541⟩ : Sha256State) from by decide]

/-- Blocks 837 to 845 of the padded stream of the reference vector. -/
theorem gpgStep94 :
    ((List.replicate 20 nineBlocksLit).flatten ++ finalBlocksLit).foldl sha256Compress (⟨944407268, 2522331834, 2901156897, 2352219452, 1340943194, 2091208890, 3935481982, 2163830541⟩ : Sha256State) =
      ((List.replicate 19 nineBlocksLit).flatten ++ finalBlocksLit).foldl sha256Compress (⟨1706133780, 4064642553, 2367981718, 1463827042, 3362071281, 3985379565, 430758745, 1304581471⟩ : Sha256State) := by
  rw [show (20 : Nat) = 19 + 1 from rfl, foldl_flatten_replicate_succ,
    show List.foldl sha256Compress (⟨944407268, 2522331834, 2901156897, 2352219452, 1340943194, 2091208890, 3935481982, 2163830541⟩ : Sha256State) nineBlocksLit = (⟨1706133780, 4064642553, 2367981718, 1463827042, 3362071281, 3985379565, 430758745, 1304581471⟩ : Sha256State) from by decide]

/-- Blocks 846 to 854 of the padded stream of the reference vector. -/
theorem gpgStep95 :
    ((List.replicate 19 nineBlocksLit).flatten ++ finalBlocksLit).foldl sha256Compress (⟨1706133780, 4064642553, 2367981718, 1463827042, 3362071281, 3985379565, 430758745, 1304581471⟩ : Sha256State) =
      ((List.replicate 18 nineBlocksLit).flatten ++ finalBlocksLit).foldl sha256Compress (⟨1275075722, 1507887535, 3776983117, 3909626530, 198122699, 1320544289, 306574933, 2093815801⟩ : Sha256State) := by
  rw [show (19 : Nat) = 18 + 1 from rfl, foldl_flatten_replicate_succ,
    show List.foldl sha256Compress (⟨1706133780, 4064642553, 2367981718, 1463827042, 3362071281, 3985379565, 430758745, 1304581471⟩ : Sha256State) nineBlocksLit = (⟨1275075722, 1507887535, 3776983117, 3909626530, 198122699, 1320544289, 306574933, 2093815801⟩ : Sha256State) from by decide]

/-- Blocks 855 to 863 of the padded stream of the reference vector. -/
theorem gpgStep96 :
    ((List.replicate 18 nineBlocksLit).flatten ++ finalBlocksLit).foldl sha256Compress (⟨1275075722, 1507887535, 3776983117, 3909626530, 198122699, 1320544289, 306574933, 2093815801⟩ : Sha256State) =
      ((List.replicate 17 nineBlocksLit).flatten ++ finalBlocksLit).foldl sha256Compress (⟨1894722166, 735793150, 2641664813, 747126262, 1011989832, 1821029661, 2476684720, 3508750594⟩ : Sha256State) := by
  rw [show (18 : Nat) = 17 + 1 from rfl, foldl_flatten_replicate_succ,
    show List.foldl sha256Compress (⟨1275075722, 1507887535, 3776983117, 3909626530, 198122699, 1320544289, 306574933, 2093815801⟩ : Sha256State) nineBlocksLit = (⟨1894722166, 735793150, 2641664813, 747126262, 1011989832, 1821029661, 2476684720, 3508750594⟩ : Sha256State) from by decide]

/-- Blocks 864 to 872 of the padded stream of the reference vector. -/
theorem gpgStep97 :
    ((List.replicate 17 nineBlocksLit).flatten ++ finalBlocksLit).foldl sha256Compress (⟨1894722166, 735793150, 2641664813, 747126262, 1011989832, 1821029661, 2476684720, 3508750594⟩ : Sha256State) =
      ((List.replicate 16 nineBlocksLit).flatten ++ finalBlocksLit).foldl sha256Compress (⟨1290058370, 3822394580, 4090099620, 981700091, 1787617047, 824318691, 1023602080, 1426809918⟩ : Sha256State) := by
  rw [show (17 : Nat) = 16 + 1 from rfl, foldl_flatten_replicate_succ,
    show List.foldl sha256Compress (⟨1894722166, 735793150, 2641664813, 747126262, 1011989832, 1821029661, 2476684720, 3508750594⟩ : Sha256State) nineBlocksLit = (⟨1290058370, 3822394580, 4090099620, 981700091, 1787617047, 824318691, 1023602080, 1426809918⟩ : Sha256State) from by decide]

/-- Blocks 873 to 881 of the padded stream of the reference vector. -/
theorem gpgStep98 :
    ((List.replicate 16 nineBlocksLit).flatten ++ finalBlocksLit).foldl sha256Compress (⟨1290058370, 3822394580, 4090099620, 981700091, 1787617047, 824318691, 1023602080, 1426809918⟩ : Sha256State) =
      ((List.replicate 15 nineBlocksLit).flatten ++ finalBlocksLit).foldl sha256Compress (⟨1247952870, 4187380801, 1433338725, 3999294921, 1342395570, 916511657, 3073408513, 1986521805⟩ : Sha256State) := by
  rw [show (16 : Nat) = 15 + 1 from rfl, foldl_flatten_replicate_succ,
    show List.foldl sha256Compress (⟨1290058370, 3822394580, 4090099620, 981700091, 1787617047, 824318691, 1023602080, 1426809918⟩ : Sha256State) nineBlocksLit = (⟨1247952870, 4187380801, 1433338725, 3999294921, 1342395570, 916511657, 3073408513, 1986521805⟩ : Sha256State) from by decide]

/-- Blocks 882 to 890 of the padded stream of the reference vector. -/
theorem gpgStep99 :
    ((List.replicate 15 nineBlocksLit).flatten ++ finalBlocksLit).foldl sha256Compress (⟨1247952870, 4187380801, 1433338725, 3999294921, 1342395570, 916511657, 3073408513, 1986521805⟩ : Sha256State) =
      ((List.replicate 14 nineBlocksLit).flatten ++ finalBlocksLit).foldl sha256Compress (⟨1231292761, 295550664, 3084758239, 1405416980, 1151466421, 1526431812, 1720352519, 4118107225⟩ : Sha256State) := by
  rw [show (15 : Nat) = 14 + 1 from rfl, foldl_flatten_replicate_succ,
    show List.foldl sha256Compress (⟨1247952870, 4187380801, 1433338725, 3999294921, 1342395570, 916511657, 3073408513, 1986521805⟩ : Sha256State) nineBlocksLit = (⟨1231292761, 295550664, 3084758239, 1405416980, 1151466421, 1526431812, 1720352519, 4118107225⟩ : Sha256State) from by decide]

/-- Blocks 891 to 899 of the padded stream of the reference vector. -/
theorem gpgStep100 :
    ((List.replicate 14 nineBlocksLit).flatten ++ finalBlocksLit).foldl sha256Compress (⟨1231292761, 295550664, 3084758239, 1405416980, 1151466421, 1526431812, 1720352519, 4118107225⟩ : Sha256State) =
      ((List.replicate 13 nineBlocksLit).flatten ++ finalBlocksLit).foldl sha256Compress (⟨1429105441, 2004402516, 2672135303, 514987334, 516323530, 1888435454, 2863044149, 2472328572⟩ : Sha256State) := by
  rw [show (14 : Nat) = 13 + 1 from rfl, foldl_flatten_replicate_succ,
    show List.foldl sha256Compress (⟨1231292761, 295550664, 3084758239, 1405416980, 1151466421, 1526431812, 1720352519, 4118107225⟩ : Sha256State) nineBlocksLit = (⟨1429105441, 2004402516, 2672135303, 514987334, 516323530, 1888435454, 2863044149, 2472328572⟩ : Sha256State) from by decide]

/-- Blocks 900 to 908 of the padded stream of the reference vector. -/
theorem gpgStep101 :
    ((List.replicate 13 nineBlocksLit).flatten ++ finalBlocksLit).foldl sha256Compress (⟨1429105441, 2004402516, 2672135303, 514987334, 516323530, 1888435454, 2863044149, 2472328572⟩ : Sha256State) =
      ((List.replicate 12 nineBlocksLit).flatten ++ finalBlocksLit).foldl sha256Compress (⟨1425465981, 2922711201, 618342519, 2828697928, 1740981649, 2992566292, 1403466441, 4003966233⟩ : Sha256State) := by
  rw [show (13 : Nat) = 12 + 1 from rfl, foldl_flatten_replicate_succ,
    show List.foldl sha256Compress (⟨1429105441, 2004402516, 2672135303, 514987334, 516323530, 1888435454, 2863044149, 2472328572⟩ : Sha256State) nineBlocksLit = (⟨1425465981, 2922711201, 618342519, 2828697928, 1740981649, 2992566292, 1403466441, 4003966233⟩ : Sha256State) from by decide]

/-- Blocks 909 to 917 of the padded stream of the reference vector. -/
theorem gpgStep102 :
    ((List.replicate 12 nineBlocksLit).flatten ++ finalBlocksLit).foldl sha256Compress (⟨1425465981, 2922711201, 618342519, 2828697928, 1740981649, 2992566292, 1403466441, 4003966233⟩ : Sha256State) =
      ((List.replicate 11 nineBlocksLit).flatten ++ finalBlocksLit).foldl sha256Compress (⟨529886665, 977807232, 1716420722, 1908133946, 3607590818, 1610893507, 904425506, 2720519656⟩ : Sha256State) := by
  rw [show (12 : Nat) = 11 + 1 from rfl, foldl_flatten_replicate_succ,
    show List.foldl sha256Compress (⟨1425465981, 2922711201, 618342519, 2828697928, 1740981649, 2992566292, 1403466441, 4003966233⟩ : Sha256State) nineBlocksLit = (⟨529886665, 977807232, 1716420722, 1908133946, 3607590818, 1610893507, 904425506, 2720519656⟩ : Sha256State) from by decide]

/-- Blocks 918 to 926 of the padded stream of the reference vector. -/
theorem gpgStep103 :
    ((List.replicate 11 nineBlocksLit).flatten ++ finalBlocksLit).foldl sha256Compress (⟨529886665, 977807232, 1716420722, 1908133946, 3607590818, 1610893507, 904425506, 2720519656⟩ : Sha256State) =
      ((List.replicate 10 nineBlocksLit).flatten ++ finalBlocksLit).foldl sha256Compress (⟨296765240, 2621543068, 2551949194, 1416618029, 1513963989, 3450346918, 803571689, 2262652166⟩ : Sha256State) := by
  rw [show (11 : Nat) = 10 + 1 from rfl, foldl_flatten_replicate_succ,
    show List.foldl sha256Compress (⟨529886665, 977807232, 1716420722, 1908133946, 3607590818, 1610893507, 904425506, 2720519656⟩ : Sha256State) nineBlocksLit = (⟨296765240, 2621543068, 2551949194, 1416618029, 1513963989, 3450346918, 803571689, 2262652166⟩ : Sha256State) from by decide]

/-- Blocks 927 to 935 of the padded stream of the reference vector. -/
theorem gpgStep104 :
    ((List.replicate 10 nineBlocksLit).flatten ++ finalBlocksLit).foldl sha256Compress (⟨296765240, 2621543068, 2551949194, 1416618029, 1513963989, 3450346918, 803571689, 2262652166⟩ : Sha256State) =
      ((List.replicate 9 nineBlocksLit).flatten ++ finalBlocksLit).foldl sha256Compress (⟨3966909685, 2801539410, 1469231440, 2159667179, 980948433, 743713115, 3136437962, 3364645823⟩ : Sha256State) := by
  rw [show (10 : Nat) = 9 + 1 from rfl, foldl_flatten_replicate_succ,
    show List.foldl sha256Compress (⟨296765240, 2621543068, 2551949194, 1416618029, 1513963989, 3450346918, 803571689, 2262652166⟩ : Sha256State) nineBlocksLit = (⟨3966909685, 2801539410, 1469231440, 2159667179, 980948433, 743713115, 3136437962, 3364645823⟩ : Sha256State) from by decide]

/-- Blocks 936 to 944 of the padded stream of the reference vector. -/
theorem gpgStep105 :
    ((List.replicate 9 nineBlocksLit).flatten ++ finalBlocksLit).foldl sha256Compress (⟨3966909685, 2801539410, 1469231440, 2159667179, 980948433, 743713115, 3136437962, 3364645823⟩ : Sha256State) =
      ((List.replicate 8 nineBlocksLit).flatten ++ finalBlocksLit).foldl sha256Compress (⟨3949599061, 785598555, 80757408, 3206260000, 64781853, 4177885103, 331354019, 4119064131⟩ : Sha256State) := by
  rw [show (9 : Nat) = 8 + 1 from rfl, foldl_flatten_replicate_succ,
    show List.foldl sha256Compress (⟨3966909685, 2801539410, 1469231440, 2159667179, 980948433, 743713115, 3136437962, 3364645823⟩ : Sha256State) nineBlocksLit = (⟨3949599061, 785598555, 80757408, 3206260000, 64781853, 4177885103, 331354019, 4119064131⟩ : Sha256State) from by decide]

/-- Blocks 945 to 953 of the padded stream of the reference vector. -/
theorem gpgStep106 :
    ((List.replicate 8 nineBlocksLit).flatten ++ finalBlocksLit).foldl sha256Compress (⟨3949599061, 785598555, 80757408, 3206260000, 64781853, 4177885103, 331354019, 4119064131⟩ : Sha256State) =
      ((List.replicate 7 nineBlocksLit).flatten ++ finalBlocksLit).foldl sha256Compress (⟨3575107369, 2384545079, 2429146871, 2189536700, 1052557957, 2569142564, 2558113386, 1000540140⟩ : Sha256State) := by
  rw [show (8 : Nat) = 7 + 1 from rfl, foldl_flatten_replicate_succ,
    show List.foldl sha256Compress (⟨3949599061, 785598555, 80757408, 3206260000, 64781853, 4177885103, 331354019, 4119064131⟩ : Sha256State) nineBlocksLit = (⟨3575107369, 2384545079, 2429146871, 2189536700, 1052557957, 2569142564, 2558113386, 1000540140⟩ : Sha256State) from by decide]

/-- Blocks 954 to 962 of the padded stream of the reference vector. -/
theorem gpgStep107 :
    ((List.replicate 7 nineBlocksLit).flatten ++ finalBlocksLit).foldl sha256Compress (⟨3575107369, 2384545079, 2429146871, 2189536700, 1052557957, 2569142564, 2558113386, 1000540140⟩ : Sha256State) =
      ((List.replicate 6 nineBlocksLit).flatten ++ finalBlocksLit).foldl sha256Compress (⟨1315477238, 1619194431, 2348226585, 1726288391, 1046667154, 2752805429, 4260380350, 3634712274⟩ : Sha256State) := by
  rw [show (7 : Nat) = 6 + 1 from rfl, foldl_flatten_replicate_succ,
    show List.foldl sha256Compress (⟨3575107369, 2384545079, 2429146871, 2189536700, 1052557957, 2569142564, 2558113386, 1000540140⟩ : Sha256State) nineBlocksLit = (⟨1315477238, 1619194431, 2348226585, 1726288391, 1046667154, 2752805429, 4260380350, 3634712274⟩ : Sha256State) from by decide]

/-- Blocks 963 to 971 of the padded stream of the reference vector. -/
theorem gpgStep108 :
    ((List.replicate 6 nineBlocksLit).flatten ++ finalBlocksLit).foldl sha256Compress (⟨1315477238, 1619194431, 2348226585, 1726288391, 1046667154, 2752805429, 4260380350, 3634712274⟩ : Sha256State) =
      ((List.replicate 5 nineBlocksLit).flatten ++ finalBlocksLit).foldl sha256Compress (⟨1188645186, 2315148723, 2061740045, 2537470475, 4107895922, 2044022993, 1356628551, 2331537377⟩ : Sha256State) := by
  rw [show (6 : Nat) = 5 + 1 from rfl, foldl_flatten_replicate_succ,
    show List.foldl sha256Compress (⟨1315477238, 1619194431, 2348226585, 1726288391, 1046667154, 2752805429, 4260380350, 3634712274⟩ : Sha256State) nineBlocksLit = (⟨1188645186, 2315148723, 2061740045, 2537470475, 4107895922, 2044022993, 1356628551, 2331537377⟩ : Sha256State) from by decide]

/-- Blocks 972 to 980 of the padded stream of the reference vector. -/
theorem gpgStep109 :
    ((List.replicate 5 nineBlocksLit).flatten ++ finalBlocksLit).foldl sha256Compress (⟨1188645186, 2315148723, 2061740045, 2537470475, 4107895922, 2044022993, 1356628551, 2331537377⟩ : Sha256State) =
      ((List.replicate 4 nineBlocksLit).flatten ++ finalBlocksLit).foldl sha256Compress (⟨205700120, 2774789676, 1875153498, 3910704170, 3692873867, 2424528761, 4114237819, 2521835790⟩ : Sha256State) := by
  rw [show (5 : Nat) = 4 + 1 from rfl, foldl_flatten_replicate_succ,
    show List.foldl sha256Compress (⟨1188645186, 2315148723, 2061740045, 2537470475, 4107895922, 2044022993, 1356628551, 2331537377⟩ : Sha256State) nineBlocksLit = (⟨205700120, 2774789676, 1875153498, 3910704170, 3692873867, 2424528761, 4114237819, 2521835790⟩ : Sha256State) from by decide]

/-- Blocks 981 to 989 of the padded stream of the reference vector. -/
theorem gpgStep110 :
    ((List.replicate 4 nineBlocksLit).flatten ++ finalBlocksLit).foldl sha256Compress (⟨205700120, 2774789676, 1875153498, 3910704170, 3692873867, 2424528761, 4114237819, 2521835790⟩ : Sha256State) =
      ((List.replicate 3 nineBlocksLit).flatten ++ finalBlocksLit).foldl sha256Compress (⟨2863557671, 800021044, 2536614297, 3852251162, 3811964838, 2243827645, 3619424138, 3492607160⟩ : Sha256State) := by
  rw [show (4 : Nat) = 3 + 1 from rfl, foldl_flatten_replicate_succ,
    show List.foldl sha256Compress (⟨205700120, 2774789676, 1875153498, 3910704170, 3692873867, 2424528761, 4114237819, 2521835790⟩ : Sha256State) nineBlocksLit = (⟨2863557671, 800021044, 2536614297, 3852251162, 3811964838, 2243827645, 3619424138, 3492607160⟩ : Sha256State) from by decide]

/-- Blocks 990 to 998 of the padded stream of the reference vector. -/
theorem gpgStep111 :
    ((List.replicate 3 nineBlocksLit).flatten ++ finalBlocksLit).foldl sha256Compress (⟨2863557671, 800021044, 2536614297, 3852251162, 3811964838, 2243827645, 3619424138, 3492607160⟩ : Sha256State) =
      ((List.replicate 2 nineBlocksLit).flatten ++ finalBlocksLit).foldl sha256Compress (⟨1702829458, 1488518681, 1143558064, 1661141275, 3262862833, 2904205071, 2366690708, 224380418⟩ : Sha256State) := by
  rw [show (3 : Nat) = 2 + 1 from rfl, foldl_flatten_replicate_succ,
    show List.foldl sha256Compress (⟨2863557671, 800021044, 2536614297, 3852251162, 3811964838, 2243827645, 3619424138, 3492607160⟩ : Sha256State) nineBlocksLit = (⟨1702829458, 1488518681, 1143558064, 1661141275, 3262862833, 2904205071, 2366690708, 224380418⟩ : Sha256State) from by decide]

/-- Blocks 999 to 1007 of the padded stream of the reference vector. -/
theorem gpgStep112 :
    ((List.replicate 2 nineBlocksLit).flatten ++ finalBlocksLit).foldl sha256Compress (⟨1702829458, 1488518681, 1143558064, 1661141275, 3262862833, 2904205071, 2366690708, 224380418⟩ : Sha256State) =
      ((List.replicate 1 nineBlocksLit).flatten ++ finalBlocksLit).foldl sha256Compress (⟨2675358367, 3694874754, 4199125157, 2509222289, 2810129444, 2205819706, 992301609, 1196390884⟩ : Sha256State) := by
  rw [show (2 : Nat) = 1 + 1 from rfl, foldl_flatten_replicate_succ,
    show List.foldl sha256Compress (⟨1702829458, 1488518681, 1143558064, 1661141275, 3262862833, 2904205071, 2366690708, 224380418⟩ : Sha256State) nineBlocksLit = (⟨2675358367, 3694874754, 4199125157, 2509222289, 2810129444, 2205819706, 992301609, 1196390884⟩ : Sha256State) from by decide]

/-- Blocks 1008 to 1016 of the padded stream of the reference vector. -/
theorem gpgStep113 :
    ((List.replicate 1 nineBlocksLit).flatten ++ finalBlocksLit).foldl sha256Compress (⟨2675358367, 3694874754, 4199125157, 2509222289, 2810129444, 2205819706, 992301609, 1196390884⟩ : Sha256State) =
      ((List.replicate 0 nineBlocksLit).flatten ++ finalBlocksLit).foldl sha256Compress (⟨3010885894, 3675018343, 2369533686, 351928605, 2722399109, 4015777047, 3196936728, 2143741158⟩ : Sha256State) := by
  rw [show (1 : Nat) = 0 + 1 from rfl, foldl_flatten_replicate_succ,
    show List.foldl sha256Compress (⟨2675358367, 3694874754, 4199125157, 2509222289, 2810129444, 2205819706, 992301609, 1196390884⟩ : Sha256State) nineBlocksLit = (⟨3010885894, 3675018343, 2369533686, 351928605, 2722399109, 4015777047, 3196936728, 2143741158⟩ : Sha256State) from by decide]

/-- The final eight blocks (last 448 data bytes and the padding block). -/
theorem gpgStepFin :
    ((List.replicate 0 nineBlocksLit).flatten ++ finalBlocksLit).foldl sha256Compress
      (⟨3010885894, 3675018343, 2369533686, 351928605, 2722399109, 4015777047, 3196936728, 2143741158⟩ : Sha256State) = (⟨1217588844, 35272224, 501746786, 1551838053, 1278913605, 2016448259, 2720753599, 635999222⟩ : Sha256State) := by
  decide

set_option maxHeartbeats 10000000 in
/-- The SHA-256 state chained through the whole padded stream of the
reference vector, via the 113 nine-block steps and the final eight
blocks. -/
theorem gpg_foldl_blocks :
    ((List.replicate 113 nineB).flatten ++ finalB).foldl sha256Compress sha256Init =
      ⟨1217588844, 35272224, 501746786, 1551838053, 1278913605, 2016448259, 2720753599, 635999222⟩ := by
  rw [show nineB = nineBlocksLit from by decide, show finalB = finalBlocksLit from by decide]
  have t1 := gpgStep1
  have t2 := t1.trans gpgStep2
  have t3 := t2.trans gpgStep3
  have t4 := t3.trans gpgStep4
  have t5 := t4.trans gpgStep5
  have t6 := t5.trans gpgStep6
  have t7 := t6.trans gpgStep7
  have t8 := t7.trans gpgStep8
  have t9 := t8.trans gpgStep9
  have t10 := t9.trans gpgStep10
  have t11 := t10.trans gpgStep11
  have t12 := t11.trans gpgStep12
  have t13 := t12.trans gpgStep13
  have t14 := t13.trans gpgStep14
  have t15 := t14.trans gpgStep15
  have t16 := t15.trans gpgStep16
  have t17 := t16.trans gpgStep17
  have t18 := t17.trans gpgStep18
  have t19 := t18.trans gpgStep19
  have t20 := t19.trans gpgStep20
  have t21 := t20.trans gpgStep21
  have t22 := t21.trans gpgStep22
  have t23 := t22.trans gpgStep23
  have t24 := t23.trans gpgStep24
  have t25 := t24.trans gpgStep25
  have t26 := t25.trans gpgStep26
  have t27 := t26.trans gpgStep27
  have t28 := t27.trans gpgStep28
  have t29 := t28.trans gpgStep29
  have t30 := t29.trans gpgStep30
  have t31 := t30.trans gpgStep31
  have t32 := t31.trans gpgStep32
  have t33 := t32.trans gpgStep33
  have t34 := t33.trans gpgStep34
  have t35 := t34.trans gpgStep35
  have t36 := t35.trans gpgStep36
  have t37 := t36.trans gpgStep37
  have t38 := t37.trans gpgStep38
  have t39 := t38.trans gpgStep39
  have t40 := t39.trans gpgStep40
  have t41 := t40.trans gpgStep41
  have t42 := t41.trans gpgStep42
  have t43 := t42.trans gpgStep43
  have t44 := t43.trans gpgStep44
  have t45 := t44.trans gpgStep45
  have t46 := t45.trans gpgStep46
  have t47 := t46.trans gpgStep47
  have t48 := t47.trans gpgStep48
  have t49 := t48.trans gpgStep49
  have t50 := t49.trans gpgStep50
  have t51 := t50.trans gpgStep51
  have t52 := t51.trans gpgStep52
  have t53 := t52.trans gpgStep53
  have t54 := t53.trans gpgStep54
  have t55 := t54.trans gpgStep55
  have t56 := t55.trans gpgStep56
  have t57 := t56.trans gpgStep57
  have t58 := t57.trans gpgStep58
  have t59 := t58.trans gpgStep59
  have t60 := t59.trans gpgStep60
  have t61 := t60.trans gpgStep61
  have t62 := t61.trans gpgStep62
  have t63 := t62.trans gpgStep63
  have t64 := t63.trans gpgStep64
  have t65 := t64.trans gpgStep65
  have t66 := t65.trans gpgStep66
  have t67 := t66.trans gpgStep67
  have t68 := t67.trans gpgStep68
  have t69 := t68.trans gpgStep69
  have t70 := t69.trans gpgStep70
  have t71 := t70.trans gpgStep71
  have t72 := t71.trans gpgStep72
  have t73 := t72.trans gpgStep73
  have t74 := t73.trans gpgStep74
  have t75 := t74.trans gpgStep75
  have t76 := t75.trans gpgStep76
  have t77 := t76.trans gpgStep77
  have t78 := t77.trans gpgStep78
  have t79 := t78.trans gpgStep79
  have t80 := t79.trans gpgStep80
  have t81 := t80.trans gpgStep81
  have t82 := t81.trans gpgStep82
  have t83 := t82.trans gpgStep83
  have t84 := t83.trans gpgStep84
  have t85 := t84.trans gpgStep85
  have t86 := t85.trans gpgStep86
  have t87 := t86.trans gpgStep87
  have t88 := t87.trans gpgStep88
  have t89 := t88.trans gpgStep89
  have t90 := t89.trans gpgStep90
  have t91 := t90.trans gpgStep91
  have t92 := t91.trans gpgStep92
  have t93 := t92.trans gpgStep93
  have t94 := t93.trans gpgStep94
  have t95 := t94.trans gpgStep95
  have t96 := t95.trans gpgStep96
  have t97 := t96.trans gpgStep97
  have t98 := t97.trans gpgStep98
  have t99 := t98.trans gpgStep99
  have t100 := t99.trans gpgStep100
  have t101 := t100.trans gpgStep101
  have t102 := t101.trans gpgStep102
  have t103 := t102.trans gpgStep103
  have t104 := t103.trans gpgStep104
  have t105 := t104.trans gpgStep105
  have t106 := t105.trans gpgStep106
  have t107 := t106.trans gpgStep107
  have t108 := t107.trans gpgStep108
  have t109 := t108.trans gpgStep109
  have t110 := t109.trans gpgStep110
  have t111 := t110.trans gpgStep111
  have t112 := t111.trans gpgStep112
  have t113 := t112.trans gpgStep113
  exact t113.trans gpgStepFin

/-- C6: the iterative salted hash with SHA-256, salt `3109800B39D9C9D6`,
passphrase `"passphrase"` and count 65536 returns the externally generated
reference digest. -/
theorem s2k_sha256_reference_vector :
    s2k sha256Impl gpgSalt gpgPassphrase 65536 =
      [0x48, 0x92, 0xee, 0x6c, 0x02, 0x1a, 0x36, 0x20, 0x1d, 0xe8, 0x0c, 0x62, 0x5c, 0x7f, 0x2b, 0x65, 0x4c, 0x3a, 0xac, 0x45, 0x78, 0x30, 0x8f, 0x03, 0xa2, 0x2b, 0x67, 0xbf, 0x25, 0xe8, 0x93, 0xf6] := by
  rw [s2k_sha256_eq_stream]
  simp only [sha256]
  rw [gpg_blocks_decomp, gpg_foldl_blocks]
  decide

/-! ## Claims C3 and C9 -/
/-- C3 as stated is false for `watch2`: when channel 0 has closed while
channel 1 still has a live writer (its view stays `pending`, never `closed`),
the race resolves to the closure of channel 0 and the loop returns `Ok` —
it does not wait for closure on every watched channel. -/
theorem watch2_early_exit_counterexample :
    watch2Run cbOk [(ChanView.closed, ChanView.pending)] 0 = RunResult.ok ∧
    (∀ p ∈ [(ChanView.closed, ChanView.pending)], p.2 ≠ ChanView.closed) := by
  decide

/-- C3 amended: each loop returns `Ok` exactly when its `try_select` race
resolves to `Closed`, i.e. when the first channel in polling order that is
ready has closed.  In particular, once all writers of all watched channels
are dropped the next wait resolves to `Closed` and every loop terminates
with `Ok`; but `watch2` and `watch3` may also terminate successfully while a
later-polled channel still has a live writer. -/
theorem watch_all_closed_terminates {E : Type} (f : Nat → Except E Unit) (k : Nat)
    (hok : ∀ i, f i = Except.ok ())
    (t1 : List ChanView) (t2 : List (ChanView × ChanView))
    (t3 : List (ChanView × ChanView × ChanView)) (v1 v2 : ChanView) :
    watch1Run f (ChanView.closed :: t1) k = RunResult.ok ∧
    watch2Run f ((ChanView.closed, ChanView.closed) :: t2) k = RunResult.ok ∧
    watch3Run f ((ChanView.closed, ChanView.closed, ChanView.closed) :: t3) k =
      RunResult.ok ∧
    watch2Run f ((ChanView.closed, v1) :: t2) k = RunResult.ok ∧
    watch3Run f ((ChanView.closed, v1, v2) :: t3) k = RunResult.ok := by
  refine ⟨?_, ?_, ?_, ?_, ?_⟩ <;> simp [watch1Run, watch2Run, watch3Run, hok k,
    chChanged, trySelect2]

/-- Witness for `watch_all_closed_terminates` with the constant `Ok` callback
and empty trace tails. -/
theorem watch_all_closed_terminates_witness :
    watch1Run cbOk [ChanView.closed] 0 = RunResult.ok ∧
    watch2Run cbOk [(ChanView.closed, ChanView.closed)] 0 = RunResult.ok ∧
    watch3Run cbOk [(ChanView.closed, ChanView.closed, ChanView.closed)] 0 =
      RunResult.ok ∧
    watch2Run cbOk [(ChanView.closed, ChanView.changed)] 0 = RunResult.ok ∧
    watch3Run cbOk [(ChanView.closed, ChanView.changed, ChanView.changed)] 0 =
      RunResult.ok :=
  watch_all_closed_terminates cbOk 0 (fun _ => rfl) [] [] []
    ChanView.changed ChanView.changed

/-- C9: if the callback fails at the current iteration, each watch loop
returns exactly that error, for every remaining trace (no further waiting)
and regardless of the callback's behaviour at any other iteration (no
retry). -/
theorem watch_callback_error_propagates {E : Type} (f : Nat → Except E Unit)
    (k : Nat) (e : E) (he : f k = Except.error e) :
    (∀ t1 : List ChanView, watch1Run f t1 k = RunResult.fail e) ∧
    (∀ t2 : List (ChanView × ChanView), watch2Run f t2 k = RunResult.fail e) ∧
    (∀ t3 : List (ChanView × ChanView × ChanView),
      watch3Run f t3 k = RunResult.fail e) := by
  refine ⟨fun t1 => ?_, fun t2 => ?_, fun t3 => ?_⟩
  · cases t1 <;> simp [watch1Run, he]
  · rcases t2 with _ | ⟨⟨v0, v1⟩, rest⟩ <;> simp [watch2Run, he]
  · rcases t3 with _ | ⟨⟨v0, v1, v2⟩, rest⟩ <;> simp [watch3Run, he]

/-- Witness for `watch_callback_error_propagates` at a failing callback, with
non-trivial traces left over. -/
theorem watch_callback_error_propagates_witness :
    watch1Run cbFail [ChanView.changed] 0 = RunResult.fail "hash failure" ∧
    watch2Run cbFail [(ChanView.changed, ChanView.pending)] 0 =
      RunResult.fail "hash failure" ∧
    watch3Run cbFail [] 0 = RunResult.fail "hash failure" :=
  ⟨(watch_callback_error_propagates cbFail 0 "hash failure" rfl).1 _,
   (watch_callback_error_propagates cbFail 0 "hash failure" rfl).2.1 _,
   (watch_callback_error_propagates cbFail 0 "hash failure" rfl).2.2 _⟩

/-! ## Claims C4 and C8 -/
theorem keyWatcherCallback_ret (r : Except Argon2Error String) :
    (keyWatcherCallback r).ret = Except.ok () := by
  cases r <;> rfl

/-- C4 as stated is false on `src/lib.rs`: a non-salt-length derivation error
(here `MemoryTooLittle`) is written into the salt-validation field and clears
the key, and the callback returns `Ok(())` — the error does not propagate out
of the watcher. -/
theorem key_watcher_other_error_counterexample :
    keyWatcherCallback (Except.error Argon2Error.memoryTooLittle) =
      ⟨some (Except.error Argon2Error.memoryTooLittle), none, Except.ok ()⟩ ∧
    Argon2Error.memoryTooLittle ≠ Argon2Error.saltTooShort ∧
    Argon2Error.memoryTooLittle ≠ Argon2Error.saltTooLong := by
  decide

/-- C4 amended: in the key watcher every derivation error — salt-length or
any other — is recoverable and handled identically: it is written into the
salt-validation field and the key field is cleared, while on success the `Ok`
validation and the new key are written; the callback always returns `Ok`, so
the watcher continues and no derivation error ever makes the `watch3` loop
fail (nothing aborts the propagation graph). -/
theorem key_watcher_all_errors_recoverable
    (results : Nat → Except Argon2Error String) (e : Argon2Error) (v : String)
    (t3 : List (ChanView × ChanView × ChanView)) (k : Nat) (msg : String) :
    keyWatcherCallback (Except.error e) =
      ⟨some (Except.error e), none, Except.ok ()⟩ ∧
    keyWatcherCallback (Except.ok v) =
      ⟨some (Except.ok ()), some v, Except.ok ()⟩ ∧
    watch3Run (fun i => (keyWatcherCallback (results i)).ret) t3 k ≠
      RunResult.fail msg := by
  refine ⟨rfl, rfl, ?_⟩
  induction t3 generalizing k with
  | nil =>
    intro hcontra
    simp [watch3Run, keyWatcherCallback_ret] at hcontra
  | cons p rest ih =>
    obtain ⟨v0, v1, v2⟩ := p
    intro hcontra
    rw [watch3Run, keyWatcherCallback_ret] at hcontra
    rcases h : trySelect2 (trySelect2 (chChanged v0) (chChanged v1)) (chChanged v2) with
      _ | b
    · rw [h] at hcontra
      exact absurd hcontra (by simp)
    · rw [h] at hcontra
      cases b
      · simp at hcontra
      · exact ih (k + 1) hcontra

/-- The salt channel is watched only by the key watcher. -/
theorem salt_only_key_watcher :
    ∀ w ∈ graphWatchers, Chan.salt ∈ watchedChannels w → w = GraphWatcher.keyWatcher := by
  decide

/-- C8: a single salt write whose derivation reports `SaltTooShort` sets the
key field to `none` and the salt-validation field to `Err`, and leaves the
hash-actual and password-validation fields unchanged; only the key watcher
watches the salt channel, and the watchers writing hash-actual and
password-validation watch only the password and expected-hash channels. -/
theorem salt_write_frame (hashFn : String → Except String String)
    (verify : String → String → Except String Unit)
    (derive : AlgorithmSel → String → String → Except Argon2Error String)
    (inp : GraphInputs) (st : FieldState)
    (hderive : derive inp.algorithm inp.password inp.salt =
      Except.error Argon2Error.saltTooShort) :
    (stepOnChange hashFn verify derive Chan.salt inp st).key = none ∧
    (stepOnChange hashFn verify derive Chan.salt inp st).saltValidation =
      some (Except.error Argon2Error.saltTooShort) ∧
    (stepOnChange hashFn verify derive Chan.salt inp st).hashActual = st.hashActual ∧
    (stepOnChange hashFn verify derive Chan.salt inp st).passwordValidation =
      st.passwordValidation ∧
    (∀ w ∈ graphWatchers, Chan.salt ∈ watchedChannels w → w = GraphWatcher.keyWatcher) ∧
    watchedChannels GraphWatcher.hashActualWatcher = [Chan.password] ∧
    watchedChannels GraphWatcher.passwordValidationWatcher =
      [Chan.password, Chan.hashExpected] := by
  have hfilter : graphWatchers.filter (fun w => decide (Chan.salt ∈ watchedChannels w)) =
      [GraphWatcher.keyWatcher] := by decide
  have hstep : stepOnChange hashFn verify derive Chan.salt inp st =
      runWatcher hashFn verify derive GraphWatcher.keyWatcher inp st := by
    show (graphWatchers.filter (fun w => decide (Chan.salt ∈ watchedChannels w))).foldl
        (fun s w => runWatcher hashFn verify derive w inp s) st = _
    rw [hfilter]
    rfl
  rw [hstep]
  refine ⟨?_, ?_, ?_, ?_, salt_only_key_watcher, rfl, rfl⟩ <;>
    simp [runWatcher, hderive, keyWatcherCallback]

/-- Witness for `salt_write_frame` at concrete inputs and state. -/
theorem salt_write_frame_witness :
    (stepOnChange hashFnConst verifyConst deriveSaltShort Chan.salt sampleInputs
      sampleState).key = none ∧
    (stepOnChange hashFnConst verifyConst deriveSaltShort Chan.salt sampleInputs
      sampleState).saltValidation = some (Except.error Argon2Error.saltTooShort) ∧
    (stepOnChange hashFnConst verifyConst deriveSaltShort Chan.salt sampleInputs
      sampleState).hashActual = sampleState.hashActual ∧
    (stepOnChange hashFnConst verifyConst deriveSaltShort Chan.salt sampleInputs
      sampleState).passwordValidation = sampleState.passwordValidation ∧
    (∀ w ∈ graphWatchers, Chan.salt ∈ watchedChannels w → w = GraphWatcher.keyWatcher) ∧
    watchedChannels GraphWatcher.hashActualWatcher = [Chan.password] ∧
    watchedChannels GraphWatcher.passwordValidationWatcher =
      [Chan.password, Chan.hashExpected] :=
  salt_write_frame hashFnConst verifyConst deriveSaltShort sampleInputs sampleState rfl

end SpecS2K
